import Mathlib

/-!
cpsc-486-hello-opengl: scene manager and host loop

A shallow embedding of `src/app/scene.h` (Scene, CircularQueueSceneManager),
`src/app/glfwapp.cc` (GLFWApp::RunLoop) and `src/hello_scene.h`
(HelloScene::Update), followed by theorems about them.

Conventions of the embedding.

* A `std::shared_ptr<Scene>` is an `Option Nat`: `none` is the null pointer and
  `some a` the address of a live Scene object; the objects live in a
  `SceneHeap`.
* A member function is a function from the state before the call to the result
  together with the state after the call.  Where the C++ has undefined
  behaviour (a remainder by zero, a null dereference) the result is `none`.
* `size_t` is 64 bits wide and `unsigned int` 32 bits wide; conversions and
  unsigned arithmetic are written with an explicit remainder.
* A `double` is a value of IEEE 754 binary64, `Double`: the arithmetic of the
  loop (`-`, `+=`, `>=`, `1.0 / fps_`) rounds to nearest, ties to even, with
  infinities and NaN; the two zeros are one value and so are all NaNs.
-/

namespace HelloOpenGL

/-! ## scene.h : Scene -/

/-- The data members of `Scene` that the non-virtual member functions read or
write (the three `glm::mat4` members are never touched by them). -/
structure Scene where
  name_ : String
  width : Nat
  height : Nat
  animate_on : Bool
  mouse : Option Nat
  keyboard : Option Nat
  is_valid : Bool
deriving DecidableEq, Repr

namespace Scene

/-- Constructor `Scene(name, app, width, height)`. -/
def new (name : String) (width height : Nat) : Scene :=
  { name_ := name, width := width, height := height, animate_on := false,
    mouse := none, keyboard := none, is_valid := true }

def IsValid (s : Scene) : Bool := s.is_valid

def Validate (s : Scene) : Scene := { s with is_valid := true }

def Invalidate (s : Scene) : Scene := { s with is_valid := false }

def SetDimension (s : Scene) (width height : Nat) : Scene :=
  { s with width := width, height := height }

def ToggleAnimation (s : Scene) : Scene := { s with animate_on := !s.animate_on }

def IsAnimated (s : Scene) : Bool := s.animate_on

def SetMouse (s : Scene) (mouse : Option Nat) : Scene := { s with mouse := mouse }

def SetKeyboard (s : Scene) (keyboard : Option Nat) : Scene :=
  { s with keyboard := keyboard }

end Scene

/-- A `std::shared_ptr<Scene>`: `none` is `nullptr`. -/
abbrev ScenePtr := Option Nat

/-- The Scene objects, by address. -/
abbrev SceneHeap := Nat → Scene

/-! ## scene.h : CircularQueueSceneManager -/

def SIZE_WIDTH : Nat := 2 ^ 64

def UINT_WIDTH : Nat := 2 ^ 32

structure CircularQueueSceneManager where
  scenes_ : List ScenePtr
  scene_index_ : Nat
deriving DecidableEq, Repr

namespace CircularQueueSceneManager

/-- Constructor: `scene_index_{0}`, empty vector. -/
def new : CircularQueueSceneManager := { scenes_ := [], scene_index_ := 0 }

/-- Source: `scenes_.emplace_back(std::move(scene))`. -/
def AddScene (m : CircularQueueSceneManager) (heap : SceneHeap) (scene : ScenePtr) :
    CircularQueueSceneManager × SceneHeap :=
  ({ m with scenes_ := m.scenes_ ++ [scene] }, heap)

/-- Source: `if (scenes_.size() > 0) return scenes_.at(0); return nullptr;` -/
def First (m : CircularQueueSceneManager) (heap : SceneHeap) :
    ScenePtr × CircularQueueSceneManager × SceneHeap :=
  if h : 0 < m.scenes_.length then (m.scenes_.get ⟨0, h⟩, m, heap) else (none, m, heap)

/-- The body of `Next()`. The remainder by `scenes_.size() = 0` and the call
`scene->Validate()` through a null pointer are undefined: `none`. The sum
`scene_index_ + 1L` is an unsigned 64-bit sum. -/
def Next (m : CircularQueueSceneManager) (heap : SceneHeap) :
    Option (ScenePtr × CircularQueueSceneManager × SceneHeap) :=
  if h : m.scenes_.length = 0 then none
  else
    let next_scene_index := (m.scene_index_ + 1) % SIZE_WIDTH % m.scenes_.length
    match m.scenes_.get ⟨next_scene_index, Nat.mod_lt _ (Nat.pos_of_ne_zero h)⟩ with
    | none => none
    | some a =>
      some (some a, { m with scene_index_ := next_scene_index },
        Function.update heap a (heap a).Validate)

/-- Source: `unsigned int Size() override { return scenes_.size(); }`: the `size_t`
count converted to `unsigned int`. -/
def Size (m : CircularQueueSceneManager) (heap : SceneHeap) :
    Nat × CircularQueueSceneManager × SceneHeap :=
  (m.scenes_.length % UINT_WIDTH, m, heap)

end CircularQueueSceneManager

open CircularQueueSceneManager

/-- The manager after `k` successive calls of `Next()`, results discarded. -/
def nextTimes : Nat → CircularQueueSceneManager → SceneHeap →
    Option (CircularQueueSceneManager × SceneHeap)
  | 0, m, heap => some (m, heap)
  | k + 1, m, heap =>
    match Next m heap with
    | none => none
    | some (_, m1, heap1) => nextTimes k m1 heap1

/-- The cursor after `k` successive calls of `Next()`. -/
def cursorAfter (k : Nat) (m : CircularQueueSceneManager) (heap : SceneHeap) : Option Nat :=
  (nextTimes k m heap).map fun r => r.1.scene_index_

/-- The pointer returned by the `i`-th call of `Next()` (`i = 1, 2, ...`) in a
row of calls; `none` when a call is undefined (and for `i = 0`). -/
def nthNext (i : Nat) (m : CircularQueueSceneManager) (heap : SceneHeap) : Option ScenePtr :=
  match i with
  | 0 => none
  | j + 1 =>
    match nextTimes j m heap with
    | none => none
    | some (m1, heap1) => (Next m1 heap1).map fun r => r.1

/-- The manager after `AddScene(s1); ...; AddScene(sk)`. -/
def addScenes (m : CircularQueueSceneManager) (heap : SceneHeap) :
    List ScenePtr → CircularQueueSceneManager × SceneHeap
  | [] => (m, heap)
  | s :: rest => addScenes (AddScene m heap s).1 (AddScene m heap s).2 rest

/-- The calls a client can make on the manager. -/
inductive ManagerOp where
  | addScene (scene : ScenePtr)
  | first
  | next
  | size
deriving DecidableEq, Repr

/-- One client call on the manager; `none` when the call is undefined. -/
def applyOp (op : ManagerOp) (m : CircularQueueSceneManager) (heap : SceneHeap) :
    Option (CircularQueueSceneManager × SceneHeap) :=
  match op with
  | .addScene s => some (AddScene m heap s)
  | .first => some (First m heap).2
  | .next => (Next m heap).map fun r => r.2
  | .size => some (Size m heap).2

/-- A sequence of client calls, starting from the given state. -/
def applyOps : List ManagerOp → CircularQueueSceneManager → SceneHeap →
    Option (CircularQueueSceneManager × SceneHeap)
  | [], m, heap => some (m, heap)
  | op :: rest, m, heap =>
    match applyOp op m heap with
    | none => none
    | some (m1, heap1) => applyOps rest m1 heap1

/-- A heap of freshly constructed scenes. -/
def freshHeap : SceneHeap := fun _ => Scene.new "Hello" 600 600

/-- A heap of invalidated scenes. -/
def staleHeap : SceneHeap := fun _ => (Scene.new "Hello" 600 600).Invalidate

/-! ## hid.h : Keyboard -/

structure key_event_t where
  key : Int
  scancode : Int
  action : Int
  mods : Int
deriving DecidableEq, Repr

/-- The class `Keyboard`: a `std::deque<key_event_t>`. -/
structure Keyboard where
  events_ : List key_event_t
deriving DecidableEq, Repr

namespace Keyboard

def new : Keyboard := { events_ := [] }

def PushBack (k : Keyboard) (key scancode action mods : Int) : Keyboard :=
  { events_ := k.events_ ++ [{ key := key, scancode := scancode, action := action, mods := mods }] }

def IsEmpty (k : Keyboard) : Bool := k.events_.isEmpty

/-- Source: `front()` then `pop_front()`; on an empty deque both are undefined: `none`. -/
def PopFront (k : Keyboard) : Option (key_event_t × Keyboard) :=
  match k.events_ with
  | [] => none
  | e :: rest => some (e, { events_ := rest })

end Keyboard

/-! ## The type double -/

/-- A value of the C++ type `double` (IEEE 754 binary64): a finite value, given
by the rational it stands for, an infinity, or a NaN.  The two zeros are one
value here and so are all NaNs: the loop neither divides by a time nor reads a
sign bit or a payload.  The operations below round, so they give values of
the format whatever they are given. -/
inductive Double where
  | finite (value : ℚ)
  | inf (negative : Bool)
  | nan
deriving DecidableEq, Repr

namespace Double

/-- The integer nearest to `n / d` for `d > 0`, the even one of two equally
near. -/
def nearestEven (n d : Nat) : Nat :=
  if 2 * (n % d) < d then n / d
  else if d < 2 * (n % d) then n / d + 1
  else if n / d % 2 = 0 then n / d
  else n / d + 1

/-- The number of halvings that bring `n` below 2, at most `fuel` of them. -/
def halvings : Nat → Nat → Nat
  | 0, _ => 0
  | fuel + 1, n => if n < 2 then 0 else halvings fuel (n / 2) + 1

/-- The exponent `e` with `2 ^ e ≤ n / d < 2 ^ (e + 1)`, for `n > 0` and `d > 0`. -/
def exponent (n d : Nat) : Int :=
  let e : Int := (halvings n n : Int) - (halvings d d : Int)
  if 0 ≤ e then
    if d * 2 ^ e.toNat ≤ n then e else e - 1
  else
    if d ≤ n * 2 ^ (-e).toNat then e else e - 1

/-- The rational `m * 2 ^ e`. -/
def scale (m : Nat) (e : Int) : ℚ :=
  if 0 ≤ e then ((m * 2 ^ e.toNat : Nat) : ℚ) else (m : ℚ) / ((2 ^ (-e).toNat : Nat) : ℚ)

/-- The `double` nearest to a real number, the one with the even significand of
two equally near (the rounding of every arithmetic operation): 53 significant
bits, the last of them worth at least `2 ^ -1074`, and infinity from
`2 ^ 1024 - 2 ^ 970` on. -/
def round (q : ℚ) : Double :=
  if q.num = 0 then .finite 0
  else
    let n := q.num.natAbs
    let ulp : Int := max (exponent n q.den) (-1022) - 52
    let m : Nat :=
      if 0 ≤ ulp then nearestEven n (q.den * 2 ^ ulp.toNat)
      else nearestEven (n * 2 ^ (-ulp).toNat) q.den
    if 2 ^ 53 * 2 ^ 971 ≤ scale m ulp then .inf (decide (q.num < 0))
    else .finite (if q.num < 0 then -scale m ulp else scale m ulp)

def neg : Double → Double
  | .finite a => .finite (-a)
  | .inf negative => .inf (!negative)
  | .nan => .nan

def add : Double → Double → Double
  | .finite a, .finite b => round (a + b)
  | .finite _, .inf negative => .inf negative
  | .inf negative, .finite _ => .inf negative
  | .inf negative, .inf negative1 => if negative = negative1 then .inf negative else .nan
  | _, _ => .nan

def sub (a b : Double) : Double := add a (neg b)

def div : Double → Double → Double
  | .finite a, .finite b =>
    if b = 0 then (if a = 0 then .nan else .inf (decide (a < 0))) else round (a / b)
  | .finite _, .inf _ => .finite 0
  | .inf negative, .finite b => .inf (negative != decide (b < 0))
  | _, _ => .nan

/-- The comparison `a <= b`: false when either is a NaN. -/
def le : Double → Double → Bool
  | .finite a, .finite b => decide (a ≤ b)
  | .finite _, .inf negative => !negative
  | .inf negative, .finite _ => negative
  | .inf negative, .inf negative1 => negative || !negative1
  | _, _ => false

instance : Add Double := ⟨add⟩

instance : Sub Double := ⟨sub⟩

instance : Neg Double := ⟨neg⟩

instance : Div Double := ⟨div⟩

instance : LE Double := ⟨fun a b => le a b = true⟩

instance (a b : Double) : Decidable (a ≤ b) := inferInstanceAs (Decidable (le a b = true))

instance (n : Nat) : OfNat Double n := ⟨round n⟩

end Double

/-! ## glfwapp.cc : GLFWApp::RunLoop -/

/-- The values of `GLFW/glfw3.h` (a library header, not part of the repository)
for the names the sources use. -/
def GLFW_PRESS : Int := 1

def GLFW_KEY_ESCAPE : Int := 256

def GLFW_KEY_SPACE : Int := 32

def GLFW_KEY_N : Int := 78

def EXIT_SUCCESS : Int := 0

def EXIT_FAILURE : Int := 1

/-- Conversion of an `int` argument to a `size_t` parameter. -/
def toSizeT (i : Int) : Nat := (i % (SIZE_WIDTH : Int)).toNat

/-- The calls `RunLoop` issues to the active scene and to the window, in the
order issued. -/
inductive Call where
  | SetDimension (width height : Nat)
  | Begin
  | Resize (width height : Nat)
  | Update (time : Double)
  | Draw (time : Double)
  | SwapBuffers
  | PollEvents
  | End
deriving DecidableEq, Repr

namespace Call

def isUpdate : Call → Bool
  | Update _ => true
  | _ => false

def isDraw : Call → Bool
  | Draw _ => true
  | _ => false

/-- The calls made inside the `while` of `RunLoop`. -/
def inLoop : Call → Bool
  | Update _ => true
  | Draw _ => true
  | SwapBuffers => true
  | PollEvents => true
  | _ => false

/-- The five virtual member functions of `Scene`. -/
def isLifecycle : Call → Bool
  | Begin => true
  | Resize _ _ => true
  | Update _ => true
  | Draw _ => true
  | End => true
  | _ => false

end Call

/-- What `RunLoop` calls and cannot see into: the virtual member functions of
the active scene (each returns its `bool` and may change anything in the world
`W`, the scene's own validity and the window's close flag included), the two
scene accessors, and the GLFW and error-check functions.  Every call is taken
to return to the caller. -/
structure Host (W : Type) where
  /-- Source: `glfwWindowShouldClose(window_) != 0` -/
  glfwWindowShouldClose : W → Bool
  /-- Source: `scene_->IsValid()` -/
  IsValid : W → Bool
  /-- Source: `ms_util::GLErrorCheck()` -/
  GLErrorCheck : W → Bool × W
  glfwGetTime : W → Double × W
  /-- Source: `scene_->SetDimension(width, height)` -/
  SetDimension : Nat → Nat → W → W
  Begin : W → Bool × W
  Resize : Nat → Nat → W → Bool × W
  Update : Double → W → Bool × W
  Draw : Double → W → Bool × W
  glfwSwapBuffers : W → W
  glfwPollEvents : W → W
  End : W → Bool × W

/-- The data members of `GLFWApp` that `RunLoop` reads, with the world. -/
structure GLFWApp (W : Type) where
  fb_width_ : Int
  fb_height_ : Int
  prev_time_ : Double
  curr_time_ : Double
  fps_ : Nat
  world : W

/-- The state of `RunLoop` at the test of its `while`: the world, the two time
members, the local `accumlated_time`, and two records kept for the theorems:
the calls issued so far and the number of executions of the loop body. -/
structure LoopState (W : Type) where
  world : W
  prev_time_ : Double
  curr_time_ : Double
  accumlated_time : Double
  calls : List Call
  iterations : Nat
deriving DecidableEq

/-- The local `time_per_frame = 1.0 / fps_` (line 134): the `unsigned int`
converted to `double`, then the quotient in `double`; `+infinity` for
`fps_ = 0`. -/
def timePerFrame (fps_ : Nat) : Double := 1 / Double.round fps_

/-- The test `accumlated_time >= time_per_frame` (line 143). -/
def frameDue (fps_ : Nat) (accumlated_time : Double) : Bool :=
  decide (accumlated_time ≥ timePerFrame fps_)

/-- The test of the `while` of `RunLoop`. -/
def loopCond {W : Type} (H : Host W) (w : W) : Bool :=
  (H.glfwWindowShouldClose w == false) && H.IsValid w

/-- The body of the `while` of `RunLoop` after the assertion (lines 138-149). -/
def loopBody {W : Type} (H : Host W) (fps_ : Nat) (st : LoopState W) : LoopState W :=
  let prev := st.curr_time_
  let sample := H.glfwGetTime st.world
  let curr := sample.1
  let delta_time := curr - prev
  let accumlated_time := st.accumlated_time + delta_time
  let w2 := (H.Update curr sample.2).2
  if frameDue fps_ accumlated_time then
    let w3 := (H.Draw curr w2).2
    let w4 := H.glfwSwapBuffers w3
    { world := H.glfwPollEvents w4, prev_time_ := prev, curr_time_ := curr,
      accumlated_time := 0,
      calls := st.calls ++ [.Update curr, .Draw curr, .SwapBuffers, .PollEvents],
      iterations := st.iterations + 1 }
  else
    { world := H.glfwPollEvents w2, prev_time_ := prev, curr_time_ := curr,
      accumlated_time := accumlated_time,
      calls := st.calls ++ [.Update curr, .PollEvents],
      iterations := st.iterations + 1 }

/-- How the `while` of `RunLoop` ends. -/
inductive LoopResult (W : Type) where
  | exited (st : LoopState W)
  | assertFailed (st : LoopState W)
deriving DecidableEq

/-- The state in which the `while` ended. -/
def LoopResult.state {W : Type} : LoopResult W → LoopState W
  | .exited st => st
  | .assertFailed st => st

/-- Whether `assert(!ms_util::GLErrorCheck())` fails; `NDEBUG` says whether `assert` is
compiled out (the check is then not evaluated). -/
def assertFails {W : Type} (H : Host W) (NDEBUG : Bool) (st : LoopState W) : Bool :=
  !NDEBUG && (H.GLErrorCheck st.world).1

/-- The state after the assertion has been evaluated. -/
def afterAssert {W : Type} (H : Host W) (NDEBUG : Bool) (st : LoopState W) : LoopState W :=
  if NDEBUG then st else { st with world := (H.GLErrorCheck st.world).2 }

/-- The `while` of `RunLoop`, for at most `fuel` executions of its body
(`none`: still looping after that many). -/
def runWhile {W : Type} (H : Host W) (NDEBUG : Bool) (fps_ : Nat) :
    Nat → LoopState W → Option (LoopResult W)
  | 0, st => if loopCond H st.world then none else some (.exited st)
  | fuel + 1, st =>
    if loopCond H st.world then
      if assertFails H NDEBUG st then some (.assertFailed (afterAssert H NDEBUG st))
      else runWhile H NDEBUG fps_ fuel (loopBody H fps_ (afterAssert H NDEBUG st))
    else some (.exited st)

/-- How a call of `RunLoop` ends. -/
inductive RunResult (W : Type) where
  | returned (status : Int) (st : LoopState W)
  | assertFailed (st : LoopState W)
deriving DecidableEq

/-- The state in which a call of `RunLoop` ended. -/
def RunResult.state {W : Type} : RunResult W → LoopState W
  | .returned _ st => st
  | .assertFailed st => st

/-- The state at the first test of the `while` (lines 129-135). -/
def RunLoop.enter {W : Type} (H : Host W) (app : GLFWApp W) : LoopState W :=
  let width := toSizeT app.fb_width_
  let height := toSizeT app.fb_height_
  let w1 := H.SetDimension width height app.world
  let w2 := (H.Begin w1).2
  let w3 := (H.Resize width height w2).2
  let sample := H.glfwGetTime w3
  { world := sample.2, prev_time_ := app.prev_time_, curr_time_ := sample.1,
    accumlated_time := 0,
    calls := [.SetDimension width height, .Begin, .Resize width height],
    iterations := 0 }

/-- The rest of `RunLoop` from a test of its `while` on (lines 136-152). -/
def RunLoop.resume {W : Type} (H : Host W) (NDEBUG : Bool) (fps_ : Nat) (fuel : Nat)
    (st : LoopState W) : Option (RunResult W) :=
  match runWhile H NDEBUG fps_ fuel st with
  | none => none
  | some (.assertFailed st1) => some (.assertFailed st1)
  | some (.exited st1) =>
    some (.returned EXIT_SUCCESS
      { st1 with world := (H.End st1.world).2, calls := st1.calls ++ [.End] })

/-- Source: `GLFWApp::RunLoop`. -/
def RunLoop {W : Type} (H : Host W) (NDEBUG : Bool) (app : GLFWApp W) (fuel : Nat) :
    Option (RunResult W) :=
  RunLoop.resume H NDEBUG app.fps_ fuel (RunLoop.enter H app)

/-! ## hello_scene.h and main.cc : the application -/

/-- The world of the application of `main.cc`: the active `HelloScene` (its
`Scene` members and `already_initialized`), the keyboard and the close flag of
the window, the pending errors of the graphics API, and two scripts: the values
the next calls of `glfwGetTime` return (`now`, the last one returned, once the
script is used up) and the key events the next calls of `glfwPollEvents`
deliver.  The graphics calls of the scene raise no error here. -/
structure HelloWorld where
  scene : Scene
  already_initialized : Bool
  keyboard : Keyboard
  window_should_close : Bool
  now : Double
  clock : List Double
  polls : List (List key_event_t)
  gl_errors : List Nat
deriving DecidableEq

namespace HelloWorld

/-- Source: `ms_util::GLErrorCheck()`: true when an error was pending; none is after. -/
def GLErrorCheck (w : HelloWorld) : Bool × HelloWorld :=
  (!w.gl_errors.isEmpty, { w with gl_errors := [] })

def glfwGetTime (w : HelloWorld) : Double × HelloWorld :=
  match w.clock with
  | [] => (w.now, w)
  | t :: rest => (t, { w with now := t, clock := rest })

/-- Source: `GLFWApp::InvalidateScene`: `scene_->Invalidate()`. -/
def InvalidateScene (w : HelloWorld) : HelloWorld :=
  { w with scene := w.scene.Invalidate }

/-- Source: `GLFWApp::ToggleAnimation` (the active scene is set). -/
def ToggleAnimation (w : HelloWorld) : HelloWorld :=
  { w with scene := w.scene.ToggleAnimation }

/-- Source: `GLFWBasicKeyCallback` of `main.cc`. -/
def GLFWBasicKeyCallback (w : HelloWorld) (e : key_event_t) : HelloWorld :=
  if e.action = GLFW_PRESS then
    if e.key = GLFW_KEY_ESCAPE then { w with window_should_close := true }
    else if e.key = GLFW_KEY_SPACE then w.ToggleAnimation
    else { w with keyboard := w.keyboard.PushBack e.key e.scancode e.action e.mods }
  else w

/-- Source: `glfwPollEvents()`: the key callback runs on every event pending. -/
def glfwPollEvents (w : HelloWorld) : HelloWorld :=
  match w.polls with
  | [] => w
  | batch :: rest => batch.foldl GLFWBasicKeyCallback { w with polls := rest }

/-- Source: `HelloScene::Begin`. -/
def Begin (w : HelloWorld) : Bool × HelloWorld :=
  let w1 := if !w.already_initialized then
      { (GLErrorCheck w).2 with already_initialized := true }
    else w
  let check := GLErrorCheck w1
  (!check.1, check.2)

/-- Source: `HelloScene::Draw`. -/
def Draw (_time : Double) (w : HelloWorld) : Bool × HelloWorld :=
  let check := GLErrorCheck w
  (!check.1, check.2)

/-- Source: `HelloScene::End`. -/
def End (w : HelloWorld) : Bool × HelloWorld :=
  let check := GLErrorCheck w
  (!check.1, check.2)

/-- The `while` of `HelloScene::Update`, for at most `fuel` events. -/
def Update.loop : Nat → HelloWorld → HelloWorld
  | 0, w => w
  | fuel + 1, w =>
    if !w.keyboard.IsEmpty then
      match w.keyboard.PopFront with
      | none => w
      | some (key_event, k) =>
        let w1 := { w with keyboard := k }
        Update.loop fuel (if key_event.key = GLFW_KEY_N then w1.InvalidateScene else w1)
    else w

/-- Source: `HelloScene::Update`: the loop runs once per event queued. -/
def Update (_time : Double) (w : HelloWorld) : Bool × HelloWorld :=
  let check := GLErrorCheck (Update.loop w.keyboard.events_.length w)
  (!check.1, check.2)

/-- Source: `HelloScene::Resize`. -/
def Resize (width height : Nat) (w : HelloWorld) : Bool × HelloWorld :=
  let check := GLErrorCheck { w with scene := { w.scene with width := width, height := height } }
  (!check.1, check.2)

end HelloWorld

/-- The application of `main.cc` as a host of `RunLoop`. -/
def helloHost : Host HelloWorld where
  glfwWindowShouldClose := fun w => w.window_should_close
  IsValid := fun w => w.scene.IsValid
  GLErrorCheck := HelloWorld.GLErrorCheck
  glfwGetTime := HelloWorld.glfwGetTime
  SetDimension := fun width height w => { w with scene := w.scene.SetDimension width height }
  Begin := HelloWorld.Begin
  Resize := HelloWorld.Resize
  Update := HelloWorld.Update
  Draw := HelloWorld.Draw
  glfwSwapBuffers := fun w => w
  glfwPollEvents := HelloWorld.glfwPollEvents
  End := HelloWorld.End

/-- The `GLFWApp` of `main.cc` (600 by 600 framebuffer) at a given rate. -/
def helloApp (fps : Nat) (w : HelloWorld) : GLFWApp HelloWorld :=
  { fb_width_ := 600, fb_height_ := 600, prev_time_ := 0, curr_time_ := 0, fps_ := fps,
    world := w }

def escapePressed : key_event_t :=
  { key := GLFW_KEY_ESCAPE, scancode := 9, action := GLFW_PRESS, mods := 0 }

def nPressed : key_event_t :=
  { key := GLFW_KEY_N, scancode := 57, action := GLFW_PRESS, mods := 0 }

/-- No event for `n - 1` polls, then the escape key at the `n`-th. -/
def closingPolls : Nat → List (List key_event_t)
  | 0 => []
  | 1 => [[escapePressed]]
  | n + 2 => [] :: closingPolls (n + 1)

/-- A world with a scripted clock: it reads `t0` at the entry of `RunLoop` and
then the values `readings`, one per execution of the loop body; the scene stays
valid, and close is requested by the escape key at the poll of the last
scripted iteration (before entry when no iteration is scripted). -/
def scriptedWorld (t0 : Double) (readings : List Double) : HelloWorld :=
  { scene := Scene.new "Hello" 600 600, already_initialized := false,
    keyboard := Keyboard.new, window_should_close := readings.isEmpty, now := t0,
    clock := t0 :: readings, polls := closingPolls readings.length, gl_errors := [] }

/-- The number of `Draw` calls in a finished run (0 for an unfinished one). -/
def drawCount {W : Type} : Option (RunResult W) → Nat
  | some (.returned _ st) => st.calls.countP Call.isDraw
  | _ => 0

/-- The calls issued in a run. -/
def callsOf {W : Type} : Option (RunResult W) → List Call
  | some (.returned _ st) => st.calls
  | some (.assertFailed st) => st.calls
  | none => []

/-- A world in which the first poll delivers the key N and the clock reads
0 at entry, then 1/2, then 1. -/
def keyNWorld : HelloWorld :=
  { scene := Scene.new "Hello" 600 600, already_initialized := false,
    keyboard := Keyboard.new, window_should_close := false, now := 0,
    clock := [0, 1 / 2, 1], polls := [[nPressed]], gl_errors := [] }

/-- The state of `RunLoop` at rate 1 in `keyNWorld` at the second test of the
`while`: the key N is queued, the scene still valid. -/
def keyNState : LoopState HelloWorld :=
  loopBody helloHost 1 (RunLoop.enter helloHost (helloApp 1 keyNWorld))

/-- The scripted world at a test of the `while`, the clock having read `t` and
the values `readings` still to come. -/
def scriptedLoopWorld (t : Double) (readings : List Double) : HelloWorld :=
  { scene := Scene.new "Hello" 600 600, already_initialized := true,
    keyboard := Keyboard.new, window_should_close := readings.isEmpty, now := t,
    clock := readings, polls := closingPolls readings.length, gl_errors := [] }

/-! ## Further definitions for the host loop and the keyboard -/

/-- The host `H` with the `bool` that each of the five virtual functions of the
scene returns replaced by the one `r` gives for that call in that world; what
the functions do to the world is kept. -/
def Host.returning {W : Type} (H : Host W) (r : Call → W → Bool) : Host W :=
  { H with
    Begin := fun w => (r .Begin w, (H.Begin w).2)
    Resize := fun width height w => (r (.Resize width height) w, (H.Resize width height w).2)
    Update := fun time w => (r (.Update time) w, (H.Update time w).2)
    Draw := fun time w => (r (.Draw time) w, (H.Draw time w).2)
    End := fun w => (r .End w, (H.End w).2) }

/-- The host `H` with a record kept by its own functions: each function of the
scene or the window that `RunLoop` calls appends the call it received, with the
arguments it received, to the list carried with the world; in all else it is
`H`. -/
def Host.recording {W : Type} (H : Host W) : Host (W × List Call) where
  glfwWindowShouldClose := fun w => H.glfwWindowShouldClose w.1
  IsValid := fun w => H.IsValid w.1
  GLErrorCheck := fun w => ((H.GLErrorCheck w.1).1, (H.GLErrorCheck w.1).2, w.2)
  glfwGetTime := fun w => ((H.glfwGetTime w.1).1, (H.glfwGetTime w.1).2, w.2)
  SetDimension := fun width height w =>
    (H.SetDimension width height w.1, w.2 ++ [.SetDimension width height])
  Begin := fun w => ((H.Begin w.1).1, (H.Begin w.1).2, w.2 ++ [.Begin])
  Resize := fun width height w =>
    ((H.Resize width height w.1).1, (H.Resize width height w.1).2,
      w.2 ++ [.Resize width height])
  Update := fun time w => ((H.Update time w.1).1, (H.Update time w.1).2, w.2 ++ [.Update time])
  Draw := fun time w => ((H.Draw time w.1).1, (H.Draw time w.1).2, w.2 ++ [.Draw time])
  glfwSwapBuffers := fun w => (H.glfwSwapBuffers w.1, w.2 ++ [.SwapBuffers])
  glfwPollEvents := fun w => (H.glfwPollEvents w.1, w.2 ++ [.PollEvents])
  End := fun w => ((H.End w.1).1, (H.End w.1).2, w.2 ++ [.End])

/-- The application with the empty record added to its world. -/
def GLFWApp.recording {W : Type} (app : GLFWApp W) : GLFWApp (W × List Call) :=
  { fb_width_ := app.fb_width_, fb_height_ := app.fb_height_, prev_time_ := app.prev_time_,
    curr_time_ := app.curr_time_, fps_ := app.fps_, world := (app.world, []) }

/-- The loop state with the calls of the state added to its world as the record
of the host. -/
def LoopState.recorded {W : Type} (st : LoopState W) : LoopState (W × List Call) :=
  { world := (st.world, st.calls), prev_time_ := st.prev_time_, curr_time_ := st.curr_time_,
    accumlated_time := st.accumlated_time, calls := st.calls, iterations := st.iterations }

def LoopResult.recorded {W : Type} : LoopResult W → LoopResult (W × List Call)
  | .exited st => .exited st.recorded
  | .assertFailed st => .assertFailed st.recorded

def RunResult.recorded {W : Type} : RunResult W → RunResult (W × List Call)
  | .returned status st => .returned status st.recorded
  | .assertFailed st => .assertFailed st.recorded

/-- The record the host has kept when a run with `Host.recording` ended. -/
def recordOf {W : Type} : Option (RunResult (W × List Call)) → List Call
  | some (.returned _ st) => st.world.2
  | some (.assertFailed st) => st.world.2
  | none => []

/-- The calls of the iterations in which the clock reads `readings`, iteration
by iteration, by the rule of drop: the accumulator, `acc` at the start, takes
the difference of the reading and the one before (`prev` at the start); when it
has reached `1.0 / fps_` the frame is presented and the accumulator starts
again from 0. -/
def frames (fps_ : Nat) : Double → Double → List Double → List (List Call)
  | _, _, [] => []
  | acc, prev, t :: rest =>
    if frameDue fps_ (acc + (t - prev)) then
      [.Update t, .Draw t, .SwapBuffers, .PollEvents] :: frames fps_ 0 t rest
    else [.Update t, .PollEvents] :: frames fps_ (acc + (t - prev)) t rest

/-- The number of frames presented by the rule of drop. -/
def presentations (fps_ : Nat) : Double → Double → List Double → Nat
  | _, _, [] => 0
  | acc, prev, t :: rest =>
    if frameDue fps_ (acc + (t - prev)) then presentations fps_ 0 t rest + 1
    else presentations fps_ (acc + (t - prev)) t rest

/-- The deltas the loop observes on the readings: each reading less the one
before, in `double`. -/
def observedDeltas : Double → List Double → List Double
  | _, [] => []
  | prev, t :: rest => (t - prev) :: observedDeltas t rest

/-- Every call of the scene reports failure. -/
def alwaysFails {W : Type} : Call → W → Bool := fun _ _ => false

namespace Keyboard

/-- One `PushBack` for each event of the list, in order. -/
def pushAll (k : Keyboard) : List key_event_t → Keyboard
  | [] => k
  | e :: rest => (k.PushBack e.key e.scancode e.action e.mods).pushAll rest

/-- The events returned by `j` successive calls of `PopFront`, in order, with
the keyboard left; `none` when a call is undefined. -/
def popTimes : Nat → Keyboard → Option (List key_event_t × Keyboard)
  | 0, k => some ([], k)
  | j + 1, k =>
    match k.PopFront with
    | none => none
    | some (e, k1) =>
      match popTimes j k1 with
      | none => none
      | some (es, k2) => some (e :: es, k2)

end Keyboard

/-! ## glslshader.h, glslshader.cc, msutil.cc : shaders and programs -/

abbrev GLenum := Nat

/-- The values of `glad/gl.h` (a generated library header, not part of the
repository) for the names the sources use. -/
def GL_FRAGMENT_SHADER : GLenum := 35632

def GL_VERTEX_SHADER : GLenum := 35633

def GL_COMPILE_STATUS : GLenum := 35713

def GL_LINK_STATUS : GLenum := 35714

def GL_INFO_LOG_LENGTH : GLenum := 35716

def GL_INVALID_VALUE : GLenum := 1281

def GL_INVALID_OPERATION : GLenum := 1282

/-- The enumeration `shader_t`; the two constructors of `Shader` that can be
called, `VertexShader` and `FragmentShader`, pass these two values. -/
inductive shader_t where
  | VERTEXSHADER
  | FRAGMENTSHADER
deriving DecidableEq, Repr

def shader_t.toGLenum : shader_t → GLenum
  | .VERTEXSHADER => GL_VERTEX_SHADER
  | .FRAGMENTSHADER => GL_FRAGMENT_SHADER

def ShaderTypeToString : shader_t → String
  | .VERTEXSHADER => "Vertex Shader"
  | .FRAGMENTSHADER => "Fragment Shader"

/-- The calls made to the graphics API, in the order made; a call of
`ms_util::GLErrorCheck()` is recorded as one entry. -/
inductive GLCall where
  | glCreateShader (type : GLenum) (result : Nat)
  | glShaderSource (shader : Nat) (source : String) (length : Int)
  | glCompileShader (shader : Nat)
  | glGetShaderiv (shader : Nat) (pname : GLenum)
  | glGetProgramiv (program : Nat) (pname : GLenum)
  | glGetShaderInfoLog (shader : Nat) (bufSize : Int)
  | glDeleteShader (shader : Nat)
  | glCreateProgram (result : Nat)
  | glLinkProgram (program : Nat)
  | glGetUniformLocation (program : Nat) (name : String)
  | GLErrorCheck
  | glGetActiveUniform (program : Nat) (index : Nat) (bufSize : Int)
  | glAttachShader (program : Nat) (shader : Nat)
  | glDetachShader (program : Nat) (shader : Nat)
  | glGetAttachedShaders (program : Nat) (maxCount : Int)
  | glDeleteProgram (program : Nat)
  | glUseProgram (program : Nat)
  | glGetIntegerv (pname : GLenum)
deriving DecidableEq, Repr

/-- The graphics API as the shader code sees it, over a state `G` of the
implementation that the code cannot see into.  A query through a pointer gives
`none` when the API leaves the pointed-to variable as it was (the call raised
an error); `glGetShaderInfoLog` gives the characters it wrote before the
terminating NUL.  `GLErrorCheck` is `ms_util::GLErrorCheck()`, the drain of the
pending errors, taken to return. -/
structure GLApi (G : Type) where
  glCreateShader : GLenum → G → Nat × G
  glShaderSource : Nat → String → Int → G → G
  glCompileShader : Nat → G → G
  glGetShaderiv : Nat → GLenum → G → Option Int × G
  glGetProgramiv : Nat → GLenum → G → Option Int × G
  glGetShaderInfoLog : Nat → Int → G → Option String × G
  glDeleteShader : Nat → G → G
  glCreateProgram : G → Nat × G
  glLinkProgram : Nat → G → G
  glGetUniformLocation : Nat → String → G → Int × G
  GLErrorCheck : G → Bool × G

/-- The state of the graphics API with the record of the calls made. -/
structure GLContext (G : Type) where
  gl : G
  calls : List GLCall
deriving DecidableEq

/-- The stage handles alive after the calls, given those alive before: a
handle `glCreateShader` returns (0 is no handle) becomes alive, one
`glDeleteShader` is called on is alive no more. -/
def liveShadersFrom (live : List Nat) : List GLCall → List Nat
  | [] => live
  | .glCreateShader _ result :: rest =>
    liveShadersFrom (if result = 0 then live else live ++ [result]) rest
  | .glDeleteShader shader :: rest => liveShadersFrom (live.erase shader) rest
  | _ :: rest => liveShadersFrom live rest

/-- The stage handles alive after a sequence of calls made from the start. -/
def liveShaders (calls : List GLCall) : List Nat := liveShadersFrom [] calls

/-- The calls of `glCompileShader`. -/
def GLCall.isCompile : GLCall → Bool
  | .glCompileShader _ => true
  | _ => false

/-- The handles `glDeleteShader` was called on. -/
def deletedShaders : List GLCall → List Nat
  | [] => []
  | .glDeleteShader shader :: rest => shader :: deletedShaders rest
  | _ :: rest => deletedShaders rest

/-- The files that can be opened, with their text. -/
abbrev FileSystem := String → Option String

/-- Source: `ms_util::FileToString`: the status, and `contents` after the call. -/
def FileToString (fs : FileSystem) (file_path : String) (contents : String) : Bool × String :=
  match fs file_path with
  | some text => (true, text)
  | none => (false, contents)

/-- Conversion `static_cast<GLint>` of a `size_t`. -/
def toGLint (n : Nat) : Int := (((n + 2 ^ 31) % 2 ^ 32 : Nat) : Int) - 2 ^ 31

/-- The `std::vector<char> log_vector(length)`, zero-filled, after `text` and
its terminating NUL have been written at its start, as a string. -/
def logVector (text : String) (length : Nat) : String :=
  String.mk (text.data.take (length - 1) ++
    List.replicate (length - (text.data.take (length - 1)).length) (Char.ofNat 0))

/-- The function `GetInfoLog` with the value `log` has at its end.  `cpp17`
selects the branch of `#if __cplusplus >= 201703L`: there the API writes through
`log.data()` of the empty string `log`, which is undefined (`none`) unless only
the terminating NUL is written, and `log` keeps length 0. -/
def GetInfoLog {G : Type} (A : GLApi G) (cpp17 : Bool) (id : Nat) (s : GLContext G) :
    Option (String × GLContext G) :=
  let q := A.glGetProgramiv id GL_INFO_LOG_LENGTH s.gl
  let info_log_length : Int := q.1.getD 0
  let s1 : GLContext G := { gl := q.2, calls := s.calls ++ [.glGetProgramiv id GL_INFO_LOG_LENGTH] }
  if info_log_length > 0 then
    let w := A.glGetShaderInfoLog id info_log_length s1.gl
    let s2 : GLContext G :=
      { gl := w.2, calls := s1.calls ++ [.glGetShaderInfoLog id info_log_length] }
    if cpp17 then
      match w.1 with
      | none => some ("", s2)
      | some text => if text.isEmpty then some ("", s2) else none
    else some (logVector (w.1.getD "") info_log_length.toNat, s2)
  else some ("[Info log is zero length.]", s1)

structure Shader where
  src_file_path_ : String
  shader_type_ : shader_t
  id_ : Nat
  src_ : String
deriving DecidableEq, Repr

namespace Shader

/-- The value of `compiled_ok` at the test `compiled_ok == 0` of
`CompileShader` (lines 100-107), with the state reached. -/
def CompileShader.status {G : Type} (A : GLApi G) (sh : Shader) (s : GLContext G) :
    Int × GLContext G :=
  let length := toGLint sh.src_.utf8ByteSize
  let g1 := A.glShaderSource sh.id_ sh.src_ length s.gl
  let g2 := A.glCompileShader sh.id_ g1
  let c1 := A.GLErrorCheck g2
  let q := A.glGetShaderiv sh.id_ GL_COMPILE_STATUS c1.2
  let c2 := A.GLErrorCheck q.2
  (q.1.getD (-1),
    { gl := c2.2,
      calls := s.calls ++ [.glShaderSource sh.id_ sh.src_ length, .glCompileShader sh.id_,
        .GLErrorCheck, .glGetShaderiv sh.id_ GL_COMPILE_STATUS, .GLErrorCheck] })

/-- What the API wrote in answer to the query of the compile status in
`CompileShader` (`none`: nothing, `compiled_ok` stays -1). -/
def CompileShader.answer {G : Type} (A : GLApi G) (sh : Shader) (s : GLContext G) :
    Option Int :=
  (A.glGetShaderiv sh.id_ GL_COMPILE_STATUS
    (A.GLErrorCheck (A.glCompileShader sh.id_
      (A.glShaderSource sh.id_ sh.src_ (toGLint sh.src_.utf8ByteSize) s.gl))).2).1

/-- The message of the exception `CompileShader` throws. -/
def compileMessage (src_file_path log_msg : String) : String :=
  "Compilation failed for shader " ++ src_file_path ++ ".\nInfo Log:\n" ++ log_msg ++ "\n"

/-- Source: `Shader::CompileShader`: the `bool` returned, or the message of the
`GLSLException` thrown. -/
def CompileShader {G : Type} (A : GLApi G) (cpp17 : Bool) (sh : Shader) (s : GLContext G) :
    Option (Except String Bool × GLContext G) :=
  let r := CompileShader.status A sh s
  if r.1 = 0 then
    match GetInfoLog A cpp17 sh.id_ r.2 with
    | none => none
    | some (log_msg, s1) => some (.error (compileMessage sh.src_file_path_ log_msg), s1)
  else some (.ok (decide (r.1 = 1)), r.2)

/-- The message of the exception thrown when the source cannot be loaded. -/
def loadMessage (src_file_path : String) : String :=
  "Could not open and load shader source path " ++ src_file_path ++ ".\n"

/-- The message of the exception thrown when no handle is obtained. -/
def createMessage (shader_type : shader_t) : String :=
  "Can't create a " ++ ShaderTypeToString shader_type ++ ".\n"

/-- The constructor of `Shader` up to the call of `CompileShader` (lines 78-94):
the object with its source and handle, or the message of the exception thrown. -/
def create {G : Type} (A : GLApi G) (fs : FileSystem) (src_file_path : String)
    (shader_type : shader_t) (s : GLContext G) : Except String Shader × GLContext G :=
  let loaded := FileToString fs src_file_path ""
  if !loaded.1 then (.error (loadMessage src_file_path), s)
  else
    let c := A.glCreateShader shader_type.toGLenum s.gl
    let s1 : GLContext G :=
      { gl := c.2, calls := s.calls ++ [.glCreateShader shader_type.toGLenum c.1] }
    if c.1 = 0 then (.error (createMessage shader_type), s1)
    else
      let e := A.GLErrorCheck s1.gl
      (.ok { src_file_path_ := src_file_path, shader_type_ := shader_type, id_ := c.1,
             src_ := loaded.2 },
        { gl := e.2, calls := s1.calls ++ [.GLErrorCheck] })

/-- The constructor `Shader::Shader`: the object constructed, or the message of
the `GLSLException` thrown; when it throws no object exists and no destructor
runs. -/
def new {G : Type} (A : GLApi G) (fs : FileSystem) (cpp17 : Bool) (src_file_path : String)
    (shader_type : shader_t) (s : GLContext G) : Option (Except String Shader × GLContext G) :=
  match create A fs src_file_path shader_type s with
  | (.error msg, s1) => some (.error msg, s1)
  | (.ok sh, s1) =>
    match sh.CompileShader A cpp17 s1 with
    | none => none
    | some (.error msg, s2) => some (.error msg, s2)
    | some (.ok _, s2) =>
      some (.ok sh, { gl := (A.GLErrorCheck s2.gl).2, calls := s2.calls ++ [.GLErrorCheck] })

/-- The destructor `Shader::~Shader`. -/
def delete {G : Type} (A : GLApi G) (sh : Shader) (s : GLContext G) : GLContext G :=
  { gl := (A.GLErrorCheck (A.glDeleteShader sh.id_ s.gl)).2,
    calls := s.calls ++ [.glDeleteShader sh.id_, .GLErrorCheck] }

end Shader

deriving instance DecidableEq for Except

/-- Whether `part` occurs in `whole`. -/
def embeds (part whole : String) : Prop := part.data <:+: whole.data

instance (part whole : String) : Decidable (embeds part whole) := by
  unfold embeds
  infer_instance

/-- The message of the exception a call ended with, if it threw. -/
def thrown {α σ : Type} : Option (Except String α × σ) → Option String
  | some (.error msg, _) => some msg
  | _ => none

/-- The value a call returned, if it returned. -/
def returned {α σ : Type} : Option (Except String α × σ) → Option α
  | some (.ok a, _) => some a
  | _ => none

/-- The calls recorded when a call ended. -/
def callsAfter {α G : Type} : Option (Except String α × GLContext G) → List GLCall
  | some (_, s) => s.calls
  | none => []

/-- The `std::map<std::string, GLint>`: the entries, one per key. -/
abbrev UniformMap := List (String × Int)

namespace UniformMap

/-- Source: `find(name)`: the value stored under `name`, if any. -/
def find (m : UniformMap) (name : String) : Option Int := List.lookup name m

/-- Source: `m[name] = loc`. -/
def assign (m : UniformMap) (name : String) (loc : Int) : UniformMap :=
  if (List.lookup name m).isSome then
    m.map fun e => if e.1 = name then (name, loc) else e
  else m ++ [(name, loc)]

end UniformMap

structure GLSLProgram where
  id_ : Nat
  linked_ : Bool
  uniform_locations_ : UniformMap
deriving DecidableEq, Repr

namespace GLSLProgram

/-- The constructor `GLSLProgram::GLSLProgram`. -/
def new {G : Type} (A : GLApi G) (s : GLContext G) : Except String GLSLProgram × GLContext G :=
  let c := A.glCreateProgram s.gl
  let s1 : GLContext G := { gl := c.2, calls := s.calls ++ [.glCreateProgram c.1] }
  if c.1 = 0 then (.error "Can't generate GLSL program.\n", s1)
  else (.ok { id_ := c.1, linked_ := false, uniform_locations_ := [] }, s1)

/-- The value of `linked_ok` at the test `linked_ok == 0` of `Link` (lines
165-170), with the state reached. -/
def Link.status {G : Type} (A : GLApi G) (p : GLSLProgram) (s : GLContext G) :
    Int × GLContext G :=
  let g1 := A.glLinkProgram p.id_ s.gl
  let q := A.glGetProgramiv p.id_ GL_LINK_STATUS g1
  (q.1.getD (-1),
    { gl := q.2, calls := s.calls ++ [.glLinkProgram p.id_, .glGetProgramiv p.id_ GL_LINK_STATUS] })

/-- The message of the exception `Link` throws. -/
def linkMessage (log_msg : String) : String :=
  "Linking failed.\nInfo Log:\n" ++ log_msg ++ "\n"

/-- Source: `GLSLProgram::Link`: the program after the call, whether the call
returns or throws (then with the message of the `GLSLException`). -/
def Link {G : Type} (A : GLApi G) (cpp17 : Bool) (p : GLSLProgram) (s : GLContext G) :
    Option (Except String GLSLProgram × GLContext G) :=
  let r := Link.status A p s
  if r.1 = 0 then
    match GetInfoLog A cpp17 p.id_ r.2 with
    | none => none
    | some (log_msg, s1) => some (.error (linkMessage log_msg), s1)
  else some (.ok { p with linked_ := true }, r.2)

/-- The program after a call of `Link`: the one `Link` leaves when it returns,
the one it was called on, untouched, when it throws. -/
def afterLink {G : Type} (p : GLSLProgram) :
    Option (Except String GLSLProgram × GLContext G) → GLSLProgram
  | some (.ok p1, _) => p1
  | _ => p

/-- Source: `GLSLProgram::GetUniformLocation`. -/
def GetUniformLocation {G : Type} (A : GLApi G) (p : GLSLProgram) (name : String)
    (s : GLContext G) : Int × GLSLProgram × GLContext G :=
  match p.uniform_locations_.find name with
  | none =>
    let q := A.glGetUniformLocation p.id_ name s.gl
    (q.1, { p with uniform_locations_ := p.uniform_locations_.assign name q.1 },
      { gl := q.2, calls := s.calls ++ [.glGetUniformLocation p.id_ name] })
  | some loc => (loc, p, s)

end GLSLProgram

/-! ## A graphics API for the examples -/

/-- An object of the graphics API: a shader stage or a program. -/
inductive GLObject where
  | shader (type : GLenum) (source : String) (compile_status : Bool) (info_log : String)
  | program (link_status : Bool) (info_log : String) (uniforms : UniformMap)
deriving DecidableEq, Repr

/-- The state of a graphics API that follows the OpenGL specification on the
calls modelled: the objects by name, the pending errors, and what the driver
answers to the next compilation (`compileOk`, `compileLog`) and to the next
link (`linkOk`, `linkLog`, and the uniform locations it assigns), the stages
attached to programs as pairs (program, stage), the current program, and the
stages flagged for deletion (deleted while attached). -/
structure RefGL where
  objects : List (Nat × GLObject)
  errors : List GLenum
  compileOk : Bool
  compileLog : String
  linkOk : Bool
  linkLog : String
  linkUniforms : UniformMap
  attached : List (Nat × Nat) := []
  current_program : Nat := 0
  flagged : List Nat := []
deriving DecidableEq, Repr

namespace RefGL

def raise (g : RefGL) (e : GLenum) : RefGL := { g with errors := g.errors ++ [e] }

/-- The error for a name that is no object of the kind wanted. -/
def wrongName (g : RefGL) (name : Nat) : RefGL :=
  if (List.lookup name g.objects).isSome then g.raise GL_INVALID_OPERATION
  else g.raise GL_INVALID_VALUE

def put (g : RefGL) (name : Nat) (o : GLObject) : RefGL :=
  { g with objects := g.objects.map fun e => if e.1 = name then (name, o) else e }

/-- The length an info log is reported with: its characters and the NUL, or 0
for no log. -/
def logLength (log : String) : Int := if log.isEmpty then 0 else log.length + 1

def glCreateShader (type : GLenum) (g : RefGL) : Nat × RefGL :=
  (g.objects.length + 1,
    { g with objects := g.objects ++ [(g.objects.length + 1, .shader type "" false "")] })

def glShaderSource (shader : Nat) (source : String) (_length : Int) (g : RefGL) : RefGL :=
  match List.lookup shader g.objects with
  | some (.shader type _ status log) => g.put shader (.shader type source status log)
  | _ => g.wrongName shader

def glCompileShader (shader : Nat) (g : RefGL) : RefGL :=
  match List.lookup shader g.objects with
  | some (.shader type source _ _) => g.put shader (.shader type source g.compileOk g.compileLog)
  | _ => g.wrongName shader

def glGetShaderiv (shader : Nat) (pname : GLenum) (g : RefGL) : Option Int × RefGL :=
  match List.lookup shader g.objects with
  | some (.shader _ _ status log) =>
    if pname = GL_COMPILE_STATUS then (some (if status then 1 else 0), g)
    else if pname = GL_INFO_LOG_LENGTH then (some (logLength log), g)
    else (none, g.raise 1280)
  | _ => (none, g.wrongName shader)

def glGetProgramiv (program : Nat) (pname : GLenum) (g : RefGL) : Option Int × RefGL :=
  match List.lookup program g.objects with
  | some (.program status log _) =>
    if pname = GL_LINK_STATUS then (some (if status then 1 else 0), g)
    else if pname = GL_INFO_LOG_LENGTH then (some (logLength log), g)
    else (none, g.raise 1280)
  | _ => (none, g.wrongName program)

def glGetShaderInfoLog (shader : Nat) (bufSize : Int) (g : RefGL) : Option String × RefGL :=
  match List.lookup shader g.objects with
  | some (.shader _ _ _ log) => (some (String.mk (log.data.take (bufSize.toNat - 1))), g)
  | _ => (none, g.wrongName shader)

/-- A stage that is attached to a program is flagged and stays until it is
detached; one that is not is deleted at once. -/
def glDeleteShader (shader : Nat) (g : RefGL) : RefGL :=
  match List.lookup shader g.objects with
  | some (.shader _ _ _ _) =>
    if g.attached.any (fun e => e.2 = shader) then
      { g with flagged := if shader ∈ g.flagged then g.flagged else g.flagged ++ [shader] }
    else { g with objects := g.objects.filter fun e => e.1 ≠ shader }
  | _ => if shader = 0 then g else g.wrongName shader

def glCreateProgram (g : RefGL) : Nat × RefGL :=
  (g.objects.length + 1,
    { g with objects := g.objects ++ [(g.objects.length + 1, .program false "" [])] })

def glLinkProgram (program : Nat) (g : RefGL) : RefGL :=
  match List.lookup program g.objects with
  | some (.program _ _ _) =>
    g.put program (.program g.linkOk g.linkLog (if g.linkOk then g.linkUniforms else []))
  | _ => g.wrongName program

def glGetUniformLocation (program : Nat) (name : String) (g : RefGL) : Int × RefGL :=
  match List.lookup program g.objects with
  | some (.program true _ uniforms) => ((List.lookup name uniforms).getD (-1), g)
  | some (.program false _ _) => (-1, g.raise GL_INVALID_OPERATION)
  | _ => (-1, g.wrongName program)

def GLErrorCheck (g : RefGL) : Bool × RefGL :=
  (!g.errors.isEmpty, { g with errors := [] })

/-- The state before any object is created. -/
def start (compileOk : Bool) (compileLog : String) (linkOk : Bool) (linkLog : String)
    (linkUniforms : UniformMap) : GLContext RefGL :=
  { gl := { objects := [], errors := [], compileOk := compileOk, compileLog := compileLog,
            linkOk := linkOk, linkLog := linkLog, linkUniforms := linkUniforms },
    calls := [] }

end RefGL

/-- The graphics API of `RefGL`. -/
def refGL : GLApi RefGL where
  glCreateShader := RefGL.glCreateShader
  glShaderSource := RefGL.glShaderSource
  glCompileShader := RefGL.glCompileShader
  glGetShaderiv := RefGL.glGetShaderiv
  glGetProgramiv := RefGL.glGetProgramiv
  glGetShaderInfoLog := RefGL.glGetShaderInfoLog
  glDeleteShader := RefGL.glDeleteShader
  glCreateProgram := RefGL.glCreateProgram
  glLinkProgram := RefGL.glLinkProgram
  glGetUniformLocation := RefGL.glGetUniformLocation
  GLErrorCheck := RefGL.GLErrorCheck

/-- The API of `RefGL` except that the query of a shader parameter fails: it
raises an error and leaves the caller's variable as it was. -/
def failingQueryGL : GLApi RefGL :=
  { refGL with glGetShaderiv := fun _ _ g => (none, g.raise GL_INVALID_OPERATION) }

/-- Two shader sources that can be opened, nothing else. -/
def triangleFiles : FileSystem := fun path =>
  if path = "shaders/triangle.vert.glsl" then some "in vec4 position; void main();"
  else if path = "shaders/triangle.frag.glsl" then some "out vec4 color; void main();"
  else none

/-- The start of the examples of compilation: the compiler rejects the source
with a diagnostic. -/
def rejectingStart : GLContext RefGL := RefGL.start false "0:1: syntax error" true "" []

/-- The start of the example of a failed link: the linker reports a diagnostic. -/
def failedLinkStart : GLContext RefGL := RefGL.start true "" false "error: no main" []

/-- A program that is created and linked with the uniform `mvp` at location 3,
has that location looked up, and is linked again after its stages changed, so
that the API now has `mvp` at location 5: the program and the state after the
second `Link`. -/
def relinkScenario (cpp17 : Bool) : Option (GLSLProgram × GLContext RefGL) :=
  match GLSLProgram.new refGL (RefGL.start true "" true "" [("mvp", 3)]) with
  | (.error _, _) => none
  | (.ok p0, s0) =>
    match p0.Link refGL cpp17 s0 with
    | some (.ok p1, s1) =>
      let r := p1.GetUniformLocation refGL "mvp" s1
      let s2 : GLContext RefGL :=
        { r.2.2 with gl := { r.2.2.gl with linkUniforms := [("mvp", 5)] } }
      match r.2.1.Link refGL cpp17 s2 with
      | some (.ok p3, s3) => some (p3, s3)
      | _ => none
    | _ => none

/-- What is seen after the second `Link` of `relinkScenario`: the cache, the
location `GetUniformLocation` returns for `mvp`, the number of API calls that
lookup makes, and the location the API has for `mvp`. -/
def relinkLookup (cpp17 : Bool) : Option (UniformMap × Int × Nat × Int) :=
  (relinkScenario cpp17).map fun r =>
    (r.1.uniform_locations_,
      (r.1.GetUniformLocation refGL "mvp" r.2).1,
      (r.1.GetUniformLocation refGL "mvp" r.2).2.2.calls.length - r.2.calls.length,
      (refGL.glGetUniformLocation r.1.id_ "mvp" r.2.gl).1)

/-! ## msutil.cc : the error check -/

def GL_NO_ERROR : GLenum := 0

def GL_INVALID_ENUM : GLenum := 1280

def GL_STACK_OVERFLOW : GLenum := 1283

def GL_STACK_UNDERFLOW : GLenum := 1284

def GL_OUT_OF_MEMORY : GLenum := 1285

def GL_INVALID_FRAMEBUFFER_OPERATION : GLenum := 1286

/-- The `switch` of `_GLErrorCheck`: the text `msg` for an error code. -/
def errorMsg (err : GLenum) : String :=
  if err = GL_INVALID_ENUM then "Invalid enum"
  else if err = GL_INVALID_VALUE then "Invalid value"
  else if err = GL_INVALID_OPERATION then "Invalid operation"
  else if err = GL_STACK_OVERFLOW then "Stack overflow"
  else if err = GL_STACK_UNDERFLOW then "Stack underflow"
  else if err = GL_INVALID_FRAMEBUFFER_OPERATION then "Invalid framebuffer operation"
  else if err = GL_OUT_OF_MEMORY then "Out of memory"
  else "Unknown error"

/-- The line `fprintf` writes for an error. -/
def errorLine (filename : String) (line : Int) (err : GLenum) : String :=
  filename ++ ":" ++ toString line ++ ":GL ERROR(" ++ toString err ++ "): " ++ errorMsg err ++ "\n"

/-- How a call of `_GLErrorCheck` ends: the value returned, the state of the
API, the number of calls of `glGetError` made, and the lines written. -/
structure ErrorCheck (G : Type) where
  ret : Bool
  gl : G
  glGetErrorCalls : Nat
  out : List String
deriving DecidableEq

/-- The `while` of `_GLErrorCheck` with `err` the code last read, for at most
`fuel` executions of its body (`none`: still looping after that many). -/
def _GLErrorCheck.loop {G : Type} (glGetError : G → GLenum × G) (filename : String)
    (line : Int) : Nat → GLenum → ErrorCheck G → Option (ErrorCheck G)
  | 0, err, r => if err ≠ GL_NO_ERROR then none else some r
  | fuel + 1, err, r =>
    if err ≠ GL_NO_ERROR then
      let next := glGetError r.gl
      _GLErrorCheck.loop glGetError filename line fuel next.1
        { ret := true, gl := next.2, glGetErrorCalls := r.glGetErrorCalls + 1,
          out := r.out ++ [errorLine filename line err] }
    else some r

/-- Source: `ms_util::_GLErrorCheck`, over any `glGetError`. -/
def _GLErrorCheck {G : Type} (glGetError : G → GLenum × G) (filename : String) (line : Int)
    (fuel : Nat) (g : G) : Option (ErrorCheck G) :=
  let first := glGetError g
  _GLErrorCheck.loop glGetError filename line fuel first.1
    { ret := false, gl := first.2, glGetErrorCalls := 1, out := [] }

/-- The pending-error state as a queue of error codes, first raised first. -/
abbrev ErrorQueue := List GLenum

/-- Source: `glGetError()` on the queue: the first pending code, which it
removes, or `GL_NO_ERROR` when none is pending. -/
def ErrorQueue.glGetError : ErrorQueue → GLenum × ErrorQueue
  | [] => (GL_NO_ERROR, [])
  | err :: rest => (err, rest)

/-- Source: `glGetError()` of `RefGL`. -/
def RefGL.glGetError (g : RefGL) : GLenum × RefGL :=
  ((ErrorQueue.glGetError g.errors).1, { g with errors := (ErrorQueue.glGetError g.errors).2 })

/-! ## glslshader.cc : attaching, activating, uniform discovery, destruction -/

def GL_ACTIVE_UNIFORMS : GLenum := 35718

def GL_ACTIVE_UNIFORM_MAX_LENGTH : GLenum := 35719

/-- The graphics API with the calls on programs added.  `glGetActiveUniform`
gives the name it wrote into the caller's buffer, `glGetAttachedShaders` the
count and the handles it wrote; `none` is for what the call left as it was. -/
structure GLProgramApi (G : Type) extends GLApi G where
  glGetActiveUniform : Nat → Nat → Int → G → Option String × G
  glAttachShader : Nat → Nat → G → G
  glDetachShader : Nat → Nat → G → G
  glGetAttachedShaders : Nat → Int → G → (Option Int × List Nat) × G
  glDeleteProgram : Nat → G → G
  glUseProgram : Nat → G → G
  glGetIntegerv : GLenum → G → Option Int × G

namespace GLSLProgram

/-- Source: `GLSLProgram::Attach`, for a stage of either kind. -/
def Attach {G : Type} (A : GLProgramApi G) (p : GLSLProgram) (shader : Shader)
    (s : GLContext G) : Bool × GLContext G :=
  let check := A.GLErrorCheck (A.glAttachShader p.id_ shader.id_ s.gl)
  (!check.1, { gl := check.2, calls := s.calls ++ [.glAttachShader p.id_ shader.id_, .GLErrorCheck] })

/-- Source: `GLSLProgram::Detach(GLuint shader_id)`. -/
def Detach {G : Type} (A : GLProgramApi G) (p : GLSLProgram) (shader_id : Nat)
    (s : GLContext G) : Bool × GLContext G :=
  let check := A.GLErrorCheck (A.glDetachShader p.id_ shader_id s.gl)
  (!check.1, { gl := check.2, calls := s.calls ++ [.glDetachShader p.id_ shader_id, .GLErrorCheck] })

/-- The array `shaders` of `DetachAll` after `glGetAttachedShaders`: 32 entries,
zero where nothing was written. -/
def shadersArray (written : List Nat) : List Nat :=
  written.take 32 ++ List.replicate (32 - (written.take 32).length) 0

/-- The `for` of `DetachAll` from index `i` on, with `todo` more indices below
`count` to visit; reading `shaders[i]` beyond the array is undefined: `none`. -/
def DetachAll.loop {G : Type} (A : GLProgramApi G) (p : GLSLProgram) (shaders : List Nat) :
    Nat → Nat → GLContext G → Option (Bool × GLContext G)
  | 0, _, s => some (true, s)
  | todo + 1, i, s =>
    match shaders[i]? with
    | none => none
    | some shader_id =>
      let d := p.Detach A shader_id s
      if d.1 then some (false, d.2)
      else DetachAll.loop A p shaders todo (i + 1) d.2

/-- Source: `GLSLProgram::DetachAll`. -/
def DetachAll {G : Type} (A : GLProgramApi G) (p : GLSLProgram) (s : GLContext G) :
    Option (Bool × GLContext G) :=
  let r := A.glGetAttachedShaders p.id_ 32 s.gl
  let count : Int := r.1.1.getD 0
  DetachAll.loop A p (shadersArray r.1.2) count.toNat 0
    { gl := r.2, calls := s.calls ++ [.glGetAttachedShaders p.id_ 32] }

/-- The destructor `GLSLProgram::~GLSLProgram`. -/
def delete {G : Type} (A : GLProgramApi G) (p : GLSLProgram) (s : GLContext G) :
    Option (GLContext G) :=
  if p.id_ = 0 then some s
  else
    match p.DetachAll A s with
    | none => none
    | some (_, s1) =>
      some { gl := A.glDeleteProgram p.id_ s1.gl, calls := s1.calls ++ [.glDeleteProgram p.id_] }

/-- The hook `ActivateUniforms` of a program: the base class returns false and
does nothing, a derived class may call the API and look uniforms up. -/
abbrev UniformsHook (G : Type) := GLSLProgram → GLContext G → Bool × GLSLProgram × GLContext G

/-- The hook of the base class. -/
def baseHook {G : Type} : UniformsHook G := fun p s => (false, p, s)

/-- Source: `GLSLProgram::Activate`; `id_` is private and set by the constructor
only, so the hook leaves it as it was. -/
def Activate {G : Type} (A : GLProgramApi G) (ActivateUniforms : UniformsHook G)
    (p : GLSLProgram) (s : GLContext G) : Bool × GLSLProgram × GLContext G :=
  let h := ActivateUniforms p s
  let check1 := A.GLErrorCheck h.2.2.gl
  let g := A.glUseProgram p.id_ check1.2
  let check2 := A.GLErrorCheck g
  (!check2.1, h.2.1,
    { gl := check2.2, calls := h.2.2.calls ++ [.GLErrorCheck, .glUseProgram p.id_, .GLErrorCheck] })

/-- Conversion of a `GLint` to `GLuint`, as in the comparison `i < num_uniforms`. -/
def toGLuint (n : Int) : Nat := (n % 4294967296).toNat

def GL_CURRENT_PROGRAM : GLenum := 35725

/-- Source: `GLSLProgram::IsActive`; the comparison `id == id_` is made in
`unsigned int`. -/
def IsActive {G : Type} (A : GLProgramApi G) (p : GLSLProgram) (s : GLContext G) :
    Bool × GLContext G :=
  let q := A.glGetIntegerv GL_CURRENT_PROGRAM s.gl
  (decide (toGLuint (q.1.getD (-1)) = p.id_ % 4294967296),
    { gl := q.2, calls := s.calls ++ [.glGetIntegerv GL_CURRENT_PROGRAM] })

/-- The `for` of `FindUniformLocations` from index `i` on, with `todo` more
indices to visit; `name` is the buffer, `none` while nothing was written to
it, and reading it then is undefined: `none`. -/
def FindUniformLocations.loop {G : Type} (A : GLProgramApi G) (id : Nat) (max_length : Int) :
    Nat → Nat → Option String → UniformMap → GLContext G → Option (UniformMap × GLContext G)
  | 0, _, _, m, s => some (m, s)
  | todo + 1, i, name, m, s =>
    let r := A.glGetActiveUniform id i max_length s.gl
    match (r.1 <|> name) with
    | none => none
    | some nm =>
      let q := A.glGetUniformLocation id nm r.2
      FindUniformLocations.loop A id max_length todo (i + 1) (some nm) (m.assign nm q.1)
        { gl := q.2,
          calls := s.calls ++ [.glGetActiveUniform id i max_length, .glGetUniformLocation id nm] }

/-- Source: `GLSLProgram::FindUniformLocations`: the program after the call, or
the message of the exception `new GLchar[max_length]` throws for a negative
length. -/
def FindUniformLocations {G : Type} (A : GLProgramApi G) (p : GLSLProgram) (s : GLContext G) :
    Option (Except String GLSLProgram × GLContext G) :=
  let q1 := A.glGetProgramiv p.id_ GL_ACTIVE_UNIFORM_MAX_LENGTH s.gl
  let max_length : Int := q1.1.getD (-1)
  let q2 := A.glGetProgramiv p.id_ GL_ACTIVE_UNIFORMS q1.2
  let num_uniforms : Int := q2.1.getD 0
  let s1 : GLContext G :=
    { gl := q2.2,
      calls := s.calls ++ [.glGetProgramiv p.id_ GL_ACTIVE_UNIFORM_MAX_LENGTH,
        .glGetProgramiv p.id_ GL_ACTIVE_UNIFORMS] }
  if max_length < 0 then some (.error "std::bad_array_new_length", s1)
  else
    match FindUniformLocations.loop A p.id_ max_length (toGLuint num_uniforms) 0 none [] s1 with
    | none => none
    | some (m, s2) => some (.ok { p with uniform_locations_ := m }, s2)

end GLSLProgram

namespace RefGL

/-- The stages attached to a program, in the order attached. -/
def attachedTo (g : RefGL) (program : Nat) : List Nat :=
  (g.attached.filter fun e => e.1 = program).map fun e => e.2

def glAttachShader (program shader : Nat) (g : RefGL) : RefGL :=
  match List.lookup program g.objects, List.lookup shader g.objects with
  | some (.program _ _ _), some (.shader _ _ _ _) =>
    if (program, shader) ∈ g.attached then g.raise GL_INVALID_OPERATION
    else { g with attached := g.attached ++ [(program, shader)] }
  | some (.program _ _ _), _ => g.wrongName shader
  | _, _ => g.wrongName program

/-- The state with the flagged stages that are attached to no program any more
deleted. -/
def sweep (g : RefGL) : RefGL :=
  { g with
    objects := g.objects.filter fun e =>
      !(decide (e.1 ∈ g.flagged) && !g.attached.any fun a => a.2 = e.1)
    flagged := g.flagged.filter fun shader => g.attached.any fun a => a.2 = shader }

def glDetachShader (program shader : Nat) (g : RefGL) : RefGL :=
  match List.lookup program g.objects, List.lookup shader g.objects with
  | some (.program _ _ _), some (.shader _ _ _ _) =>
    if (program, shader) ∈ g.attached then
      sweep { g with attached := g.attached.filter fun e => e ≠ (program, shader) }
    else g.raise GL_INVALID_OPERATION
  | some (.program _ _ _), _ => g.wrongName shader
  | _, _ => g.wrongName program

def glGetAttachedShaders (program : Nat) (maxCount : Int) (g : RefGL) :
    (Option Int × List Nat) × RefGL :=
  match List.lookup program g.objects with
  | some (.program _ _ _) =>
    ((some (((g.attachedTo program).take maxCount.toNat).length : Int),
      (g.attachedTo program).take maxCount.toNat), g)
  | _ => ((none, []), g.wrongName program)

def glDeleteProgram (program : Nat) (g : RefGL) : RefGL :=
  match List.lookup program g.objects with
  | some (.program _ _ _) =>
    sweep { g with objects := g.objects.filter (fun e => e.1 ≠ program),
                   attached := g.attached.filter fun e => e.1 ≠ program }
  | _ => if program = 0 then g else g.wrongName program

def glUseProgram (program : Nat) (g : RefGL) : RefGL :=
  if program = 0 then { g with current_program := 0 }
  else
    match List.lookup program g.objects with
    | some (.program true _ _) => { g with current_program := program }
    | some (.program false _ _) => g.raise GL_INVALID_OPERATION
    | _ => g.wrongName program

/-- The length reported for `GL_ACTIVE_UNIFORM_MAX_LENGTH`: that of the longest
name with its NUL, 0 without uniforms. -/
def maxNameLength (uniforms : UniformMap) : Int :=
  (uniforms.foldl (fun n e => max n (e.1.length + 1)) 0 : Nat)

/-- The query `glGetProgramiv` with the two parameters on active uniforms
answered as well. -/
def glGetProgramivUniforms (program : Nat) (pname : GLenum) (g : RefGL) : Option Int × RefGL :=
  match List.lookup program g.objects with
  | some (.program _ _ uniforms) =>
    if pname = GL_ACTIVE_UNIFORMS then (some (uniforms.length : Int), g)
    else if pname = GL_ACTIVE_UNIFORM_MAX_LENGTH then (some (maxNameLength uniforms), g)
    else RefGL.glGetProgramiv program pname g
  | _ => RefGL.glGetProgramiv program pname g

def glGetIntegerv (pname : GLenum) (g : RefGL) : Option Int × RefGL :=
  if pname = 35725 then (some (g.current_program : Int), g) else (none, g.raise 1280)

def glGetActiveUniform (program index : Nat) (bufSize : Int) (g : RefGL) :
    Option String × RefGL :=
  match List.lookup program g.objects with
  | some (.program _ _ uniforms) =>
    match uniforms[index]? with
    | some e => (some (String.mk (e.1.data.take (bufSize.toNat - 1))), g)
    | none => (none, g.raise GL_INVALID_VALUE)
  | _ => (none, g.wrongName program)

end RefGL

/-- The graphics API of `RefGL` with the calls on programs. -/
def refProgramGL : GLProgramApi RefGL where
  toGLApi := { refGL with glGetProgramiv := RefGL.glGetProgramivUniforms }
  glGetActiveUniform := RefGL.glGetActiveUniform
  glAttachShader := RefGL.glAttachShader
  glDetachShader := RefGL.glDetachShader
  glGetAttachedShaders := RefGL.glGetAttachedShaders
  glDeleteProgram := RefGL.glDeleteProgram
  glUseProgram := RefGL.glUseProgram
  glGetIntegerv := RefGL.glGetIntegerv

/-! ## glfwapp.cc : GLFWApp::Run -/

/-- The world of an application that owns scenes: the Scene objects by address,
the scene manager, and the rest (window, clock, graphics state). -/
structure SceneWorld (M X : Type) where
  heap : SceneHeap
  manager : M
  ext : X

/-- A non-virtual member function of `Scene` applied to the scene at an address. -/
def SceneWorld.onScene {M X : Type} (w : SceneWorld M X) (a : Nat) (f : Scene → Scene) :
    SceneWorld M X :=
  { w with heap := Function.update w.heap a (f (w.heap a)) }

/-- What `Run` and `RunLoop` call and cannot see into, for an application with
several scenes: the GLFW and error-check functions, and the five virtual
functions of each scene, by the address of the scene.  Each may change
anything in the world.  Every call is taken to return. -/
structure AppHost (M X : Type) where
  glfwWindowShouldClose : SceneWorld M X → Bool
  GLErrorCheck : SceneWorld M X → Bool × SceneWorld M X
  glfwGetTime : SceneWorld M X → Double × SceneWorld M X
  glfwSwapBuffers : SceneWorld M X → SceneWorld M X
  glfwPollEvents : SceneWorld M X → SceneWorld M X
  Begin : Nat → SceneWorld M X → Bool × SceneWorld M X
  Resize : Nat → Nat → Nat → SceneWorld M X → Bool × SceneWorld M X
  Update : Nat → Double → SceneWorld M X → Bool × SceneWorld M X
  Draw : Nat → Double → SceneWorld M X → Bool × SceneWorld M X
  End : Nat → SceneWorld M X → Bool × SceneWorld M X

/-- The host `RunLoop` sees while the scene at address `a` is the active one:
`IsValid` and `SetDimension` are the member functions of `Scene`. -/
def AppHost.hostOf {M X : Type} (H : AppHost M X) (a : Nat) : Host (SceneWorld M X) where
  glfwWindowShouldClose := H.glfwWindowShouldClose
  IsValid := fun w => (w.heap a).IsValid
  GLErrorCheck := H.GLErrorCheck
  glfwGetTime := H.glfwGetTime
  SetDimension := fun width height w => w.onScene a fun sc => sc.SetDimension width height
  Begin := H.Begin a
  Resize := H.Resize a
  Update := H.Update a
  Draw := H.Draw a
  glfwSwapBuffers := H.glfwSwapBuffers
  glfwPollEvents := H.glfwPollEvents
  End := H.End a

/-- The two virtual functions of a `SceneManager` that `Run` calls; `Next` is
`none` where it is undefined. -/
structure ManagerOps (M X : Type) where
  First : SceneWorld M X → ScenePtr × SceneWorld M X
  Next : SceneWorld M X → Option (ScenePtr × SceneWorld M X)

/-- The manager `CircularQueueSceneManager`. -/
def circularQueue {X : Type} : ManagerOps CircularQueueSceneManager X where
  First := fun w =>
    ((w.manager.First w.heap).1,
      { w with manager := (w.manager.First w.heap).2.1, heap := (w.manager.First w.heap).2.2 })
  Next := fun w =>
    match w.manager.Next w.heap with
    | none => none
    | some (scene, m, heap) => some (scene, { w with manager := m, heap := heap })

/-- The base class `SceneManager`: `First` and `Next` return `nullptr`. -/
def baseManager {M X : Type} : ManagerOps M X where
  First := fun w => (none, w)
  Next := fun w => some (none, w)

/-- The `GLFWApp` during `Run`: the members `RunLoop` uses, the shared mouse
and keyboard (by address), the active scene `scene_`, and two records kept for
the theorems: the calls issued to scenes, each with the address of its scene,
and the number of calls of `RunLoop`. -/
structure GLFWAppRun (M X : Type) where
  app : GLFWApp (SceneWorld M X)
  mouse : Nat
  keyboard : Nat
  scene_ : ScenePtr
  calls : List (Nat × Call)
  loops : Nat

/-- How a call of `Run` ends. -/
inductive AppResult (M X : Type) where
  | returned (status : Int) (st : GLFWAppRun M X)
  | assertFailed (st : GLFWAppRun M X)

/-- The state in which a call of `Run` ended. -/
def AppResult.state {M X : Type} : AppResult M X → GLFWAppRun M X
  | .returned _ st => st
  | .assertFailed st => st

namespace GLFWAppRun

/-- Source: `scene_->SetMouse(mouse); scene_->SetKeyboard(keyboard);` -/
def attach {M X : Type} (st : GLFWAppRun M X) (a : Nat) : GLFWAppRun M X :=
  { st with app := { st.app with world := st.app.world.onScene a fun sc =>
      (sc.SetMouse (some st.mouse)).SetKeyboard (some st.keyboard) } }

/-- The application after a call of `RunLoop` on the scene at `a` has ended in
the loop state `ls`. -/
def after {M X : Type} (st : GLFWAppRun M X) (a : Nat) (ls : LoopState (SceneWorld M X)) :
    GLFWAppRun M X :=
  { st with
    app := { st.app with world := ls.world, prev_time_ := ls.prev_time_,
                         curr_time_ := ls.curr_time_ }
    calls := st.calls ++ ls.calls.map fun c => (a, c)
    loops := st.loops + 1 }

/-- Source: `status = RunLoop();` with the scene at `a` active. -/
def runLoop {M X : Type} (H : AppHost M X) (NDEBUG : Bool) (st : GLFWAppRun M X) (a : Nat)
    (fuel : Nat) : Option (AppResult M X) :=
  match RunLoop (H.hostOf a) NDEBUG st.app fuel with
  | none => none
  | some (.returned status ls) => some (.returned status (st.after a ls))
  | some (.assertFailed ls) => some (.assertFailed (st.after a ls))

/-- Source: `GLFWApp::Run(std::shared_ptr<Scene> scene)`. -/
def RunScene {M X : Type} (H : AppHost M X) (NDEBUG : Bool) (st : GLFWAppRun M X)
    (scene : ScenePtr) (fuel : Nat) : Option (AppResult M X) :=
  match scene with
  | none => some (.returned EXIT_FAILURE { st with scene_ := none })
  | some a => ({ st with scene_ := some a }.attach a).runLoop H NDEBUG a fuel

/-- The test of the inner `while` of `Run()`. -/
def innerCond {M X : Type} (H : AppHost M X) (st : GLFWAppRun M X) (a : Nat) : Bool :=
  (H.glfwWindowShouldClose st.app.world == false) && (st.app.world.heap a).IsValid

/-- The test of the outer `while` of `Run()`. -/
def outerCond {M X : Type} (H : AppHost M X) (st : GLFWAppRun M X) : Bool :=
  (H.glfwWindowShouldClose st.app.world == false) &&
    (match st.scene_ with
     | none => false
     | some a => (st.app.world.heap a).IsValid)

/-- The inner `while` of `Run()` with the scene at `a` active, for at most `n`
executions of its body, each call of `RunLoop` with `fuel`. -/
def Run.inner {M X : Type} (H : AppHost M X) (NDEBUG : Bool) (a : Nat) (fuel : Nat) :
    Nat → Int → GLFWAppRun M X → Option (AppResult M X)
  | 0, status, st => if innerCond H st a then none else some (.returned status st)
  | n + 1, status, st =>
    if innerCond H st a then
      match (st.attach a).runLoop H NDEBUG a fuel with
      | none => none
      | some (.assertFailed st1) => some (.assertFailed st1)
      | some (.returned status1 st1) => Run.inner H NDEBUG a fuel n status1 st1
    else some (.returned status st)

/-- The outer `while` of `Run()`, for at most `n` executions of its body. -/
def Run.outer {M X : Type} (H : AppHost M X) (Mgr : ManagerOps M X) (NDEBUG : Bool)
    (fuel : Nat) : Nat → Int → GLFWAppRun M X → Option (AppResult M X)
  | 0, status, st => if outerCond H st then none else some (.returned status st)
  | n + 1, status, st =>
    if outerCond H st then
      match st.scene_ with
      | none => some (.returned status st)
      | some a =>
        match Run.inner H NDEBUG a fuel fuel status st with
        | none => none
        | some (.assertFailed st1) => some (.assertFailed st1)
        | some (.returned status1 st1) =>
          match Mgr.Next st1.app.world with
          | none => none
          | some (scene, w) =>
            Run.outer H Mgr NDEBUG fuel n status1
              { st1 with app := { st1.app with world := w }, scene_ := scene }
    else some (.returned status st)

/-- Source: `GLFWApp::Run()`; `fuel` bounds the executions of each loop. -/
def Run {M X : Type} (H : AppHost M X) (Mgr : ManagerOps M X) (NDEBUG : Bool)
    (st : GLFWAppRun M X) (fuel : Nat) : Option (AppResult M X) :=
  Run.outer H Mgr NDEBUG fuel fuel EXIT_FAILURE
    { st with app := { st.app with world := (Mgr.First st.app.world).2 },
              scene_ := (Mgr.First st.app.world).1 }

end GLFWAppRun

/-- A window that is asked to close at the poll that finds `polls_left` at
most 1, with a clock that advances by 1 at each reading. -/
structure SimWindow where
  window_should_close : Bool
  now : Double
  polls_left : Nat
deriving DecidableEq

/-- An application whose scenes each invalidate themselves in their Update and
do nothing else, as a slide show does. -/
def slideShow {M : Type} : AppHost M SimWindow where
  glfwWindowShouldClose := fun w => w.ext.window_should_close
  GLErrorCheck := fun w => (false, w)
  glfwGetTime := fun w => (w.ext.now + 1, { w with ext := { w.ext with now := w.ext.now + 1 } })
  glfwSwapBuffers := fun w => w
  glfwPollEvents := fun w =>
    if w.ext.polls_left ≤ 1 then
      { w with ext := { w.ext with window_should_close := true, polls_left := 0 } }
    else { w with ext := { w.ext with polls_left := w.ext.polls_left - 1 } }
  Begin := fun _ w => (true, w)
  Resize := fun a width height w =>
    (true, w.onScene a fun sc => { sc with width := width, height := height })
  Update := fun a _ w => (true, w.onScene a Scene.Invalidate)
  Draw := fun _ _ w => (true, w)
  End := fun _ w => (true, w)

/-- The slide show at the start: the given scenes in a circular manager, the
window open, `polls` polls until it is asked to close, 60 frames a second. -/
def slideShowStart (heap : SceneHeap) (scenes : List ScenePtr) (polls : Nat) :
    GLFWAppRun CircularQueueSceneManager SimWindow :=
  { app := { fb_width_ := 600, fb_height_ := 600, prev_time_ := 0, curr_time_ := 0, fps_ := 60,
             world := { heap := heap, manager := { scenes_ := scenes, scene_index_ := 0 },
                        ext := { window_should_close := false, now := 0, polls_left := polls } } },
    mouse := 100, keyboard := 101, scene_ := none, calls := [], loops := 0 }

/-- What is seen of the end of a call of `Run`: the status, whether close is
requested, the active scene, the calls issued to scenes and the number of
calls of `RunLoop`. -/
structure RunSummary where
  status : Int
  close_requested : Bool
  scene_ : ScenePtr
  calls : List (Nat × Call)
  loops : Nat
deriving DecidableEq

/-- The summary of a call of `Run` that returned. -/
def runSummary {M : Type} : Option (AppResult M SimWindow) → Option RunSummary
  | some (.returned status st) =>
    some ⟨status, st.app.world.ext.window_should_close, st.scene_, st.calls, st.loops⟩
  | _ => none

/-- One `GetUniformLocation` for each name of the list, in order: the program
and the state after them. -/
def GLSLProgram.lookupAll {G : Type} (A : GLApi G) :
    List String → GLSLProgram → GLContext G → GLSLProgram × GLContext G
  | [], p, s => (p, s)
  | name :: rest, p, s =>
    GLSLProgram.lookupAll A rest (p.GetUniformLocation A name s).2.1
      (p.GetUniformLocation A name s).2.2

/-- A linked program, handle 1, with the uniforms `mvp` at 3 and `color` at 7,
in `RefGL`. -/
def linkedStart : GLContext RefGL :=
  { gl := { objects := [(1, .program true "" [("mvp", 3), ("color", 7)])], errors := [],
            compileOk := true, compileLog := "", linkOk := true, linkLog := "",
            linkUniforms := [("mvp", 3), ("color", 7)] },
    calls := [] }

/-- A program, handle 1, that was never linked, in `RefGL`. -/
def unlinkedStart : GLContext RefGL :=
  { gl := { objects := [(1, .program false "" [])], errors := [],
            compileOk := true, compileLog := "", linkOk := true, linkLog := "",
            linkUniforms := [] },
    calls := [] }

/-- The locations of the uniforms of `linkedStart`, -1 for any other name. -/
def linkedLocation (name : String) : Int :=
  if name = "mvp" then 3 else if name = "color" then 7 else -1

/-- Source: `LoadShaderProgram`: the value returned, or the message of the
exception that leaves it, with the program and the state after the destructors
of the two local stages have run (the fragment stage first); what is written to
`std::cout` is left out. -/
def LoadShaderProgram {G : Type} (A : GLProgramApi G) (fs : FileSystem) (cpp17 : Bool)
    (ActivateUniforms : GLSLProgram.UniformsHook G) (shader_program : GLSLProgram)
    (vertex_shader_source_path fragement_shader_source_path : String) (s : GLContext G) :
    Option (Except String Bool × GLSLProgram × GLContext G) :=
  match Shader.new A.toGLApi fs cpp17 vertex_shader_source_path .VERTEXSHADER s with
  | none => none
  | some (.error msg, s1) => some (.error msg, shader_program, s1)
  | some (.ok vertex_shader, s1) =>
    match Shader.new A.toGLApi fs cpp17 fragement_shader_source_path .FRAGMENTSHADER s1 with
    | none => none
    | some (.error msg, s2) =>
      some (.error msg, shader_program, vertex_shader.delete A.toGLApi s2)
    | some (.ok fragment_shader, s2) =>
      let s3 := (shader_program.Attach A vertex_shader s2).2
      let s4 := (shader_program.Attach A fragment_shader s3).2
      match shader_program.Link A.toGLApi cpp17 s4 with
      | none => none
      | some (.error msg, s5) =>
        some (.error msg, shader_program,
          vertex_shader.delete A.toGLApi (fragment_shader.delete A.toGLApi s5))
      | some (.ok linked, s5) =>
        let a := linked.Activate A ActivateUniforms s5
        let active := a.2.1.IsActive A a.2.2
        some (.ok active.1, a.2.1,
          vertex_shader.delete A.toGLApi (fragment_shader.delete A.toGLApi active.2))

/-- The member `program` of `HelloScene` after `HelloScene::Begin` has called
`LoadShaderProgram` on it, in `RefGL` where both sources compile and the link
succeeds or fails by `linkOk`: the program is constructed with the scene, the
two stages in `LoadShaderProgram`; the program and the state after
`LoadShaderProgram` has returned or thrown. -/
def loadedProgram (linkOk : Bool) : Option (GLSLProgram × GLContext RefGL) :=
  match GLSLProgram.new refProgramGL.toGLApi (RefGL.start true "" linkOk "error: no main" []) with
  | (.ok program, s) =>
    match LoadShaderProgram refProgramGL triangleFiles false GLSLProgram.baseHook program
        "shaders/triangle.vert.glsl" "shaders/triangle.frag.glsl" s with
    | some (_, program1, s1) => some (program1, s1)
    | none => none
  | _ => none

/-- What is seen of the destruction of the program of `loadedProgram`: the
handle of the program, its linked flag, the stages attached before, the calls
the destructor makes, and the stages still attached when it calls
`glDeleteProgram`. -/
def destroyLoaded (linkOk : Bool) : Option (Nat × Bool × List Nat × List GLCall × List Nat) :=
  match loadedProgram linkOk with
  | none => none
  | some (p, s) =>
    match p.DetachAll refProgramGL s, p.delete refProgramGL s with
    | some (_, s1), some s2 =>
      some (p.id_, p.linked_, s.gl.attachedTo p.id_, s2.calls.drop s.calls.length,
        s1.gl.attachedTo p.id_)
    | _, _ => none

/-! ## Lemmas on the scene manager -/

theorem Next_of_entry (m : CircularQueueSceneManager) (heap : SceneHeap) (a : Nat)
    (hget : m.scenes_[(m.scene_index_ + 1) % SIZE_WIDTH % m.scenes_.length]? = some (some a)) :
    Next m heap = some (some a,
      { m with scene_index_ := (m.scene_index_ + 1) % SIZE_WIDTH % m.scenes_.length },
      Function.update heap a (heap a).Validate) := by
  have hne : m.scenes_.length ≠ 0 := by
    intro h0
    have hnil : m.scenes_ = [] := List.length_eq_zero.mp h0
    rw [hnil] at hget
    simp at hget
  have hlt : (m.scene_index_ + 1) % SIZE_WIDTH % m.scenes_.length < m.scenes_.length :=
    Nat.mod_lt _ (Nat.pos_of_ne_zero hne)
  have hval : m.scenes_.get ⟨_, hlt⟩ = some a := by
    rw [List.getElem?_eq_getElem hlt] at hget
    simpa using hget
  unfold Next
  rw [dif_neg hne]
  simp only []
  split
  · next heq => rw [hval] at heq; cases heq
  · next b heq => rw [hval] at heq; cases heq; rfl

theorem Next_cursor_lt (m m1 : CircularQueueSceneManager) (heap heap1 : SceneHeap)
    (r : ScenePtr) (h : Next m heap = some (r, m1, heap1)) :
    m1.scenes_ = m.scenes_ ∧ m1.scene_index_ < m1.scenes_.length := by
  unfold Next at h
  split at h
  · cases h
  · next hne =>
    simp only [] at h
    split at h
    · cases h
    · cases h
      exact ⟨rfl, Nat.mod_lt _ (Nat.pos_of_ne_zero hne)⟩

/-- An entry of a list of scenes (no null pointer among them), as an address. -/
theorem entry_of_scenes (l : List ScenePtr) (hscene : ∀ s ∈ l, s ≠ none) (i : Nat)
    (hi : i < l.length) : ∃ a, l[i]? = some (some a) := by
  have hmem : l[i] ∈ l := List.getElem_mem hi
  have hnn := hscene _ hmem
  cases hv : l[i] with
  | none => exact absurd hv hnn
  | some a => exact ⟨a, by rw [List.getElem?_eq_getElem hi, hv]⟩

theorem nextTimes_cursor (k : Nat) : ∀ (m : CircularQueueSceneManager) (heap : SceneHeap),
    m.scene_index_ < m.scenes_.length → m.scenes_.length < SIZE_WIDTH →
    (∀ s ∈ m.scenes_, s ≠ none) →
    ∃ heap1, nextTimes k m heap =
      some ({ m with scene_index_ := (m.scene_index_ + k) % m.scenes_.length }, heap1) := by
  induction k with
  | zero =>
    intro m heap hc _ _
    refine ⟨heap, ?_⟩
    simp [nextTimes, Nat.mod_eq_of_lt hc]
  | succ k ih =>
    intro m heap hc hsz hscene
    have hpos : 0 < m.scenes_.length := by omega
    have hwrap : (m.scene_index_ + 1) % SIZE_WIDTH = m.scene_index_ + 1 :=
      Nat.mod_eq_of_lt (by omega)
    obtain ⟨a, ha⟩ := entry_of_scenes m.scenes_ hscene
      ((m.scene_index_ + 1) % SIZE_WIDTH % m.scenes_.length) (Nat.mod_lt _ hpos)
    have hnext := Next_of_entry m heap a ha
    obtain ⟨heap2, h2⟩ := ih
      { m with scene_index_ := (m.scene_index_ + 1) % SIZE_WIDTH % m.scenes_.length }
      (Function.update heap a (heap a).Validate) (Nat.mod_lt _ hpos) hsz hscene
    refine ⟨heap2, ?_⟩
    have hidx : ((m.scene_index_ + 1) % m.scenes_.length + k) % m.scenes_.length =
        (m.scene_index_ + (k + 1)) % m.scenes_.length := by
      rw [Nat.mod_add_mod, Nat.add_assoc, Nat.add_comm 1 k]
    simp only [nextTimes, hnext]
    rw [h2]
    simp only [hwrap, hidx]

theorem addScenes_eq (ss : List ScenePtr) : ∀ (m : CircularQueueSceneManager) (heap : SceneHeap),
    addScenes m heap ss = ({ m with scenes_ := m.scenes_ ++ ss }, heap) := by
  induction ss with
  | nil => intro m heap; simp [addScenes]
  | cons s rest ih => intro m heap; simp [addScenes, ih, AddScene]

theorem applyOps_cursor (ops : List ManagerOp) :
    ∀ (m m1 : CircularQueueSceneManager) (heap heap1 : SceneHeap),
    (m.scenes_ = [] → m.scene_index_ = 0) →
    (m.scenes_ ≠ [] → m.scene_index_ < m.scenes_.length) →
    applyOps ops m heap = some (m1, heap1) →
    (m1.scenes_ = [] → m1.scene_index_ = 0) ∧
    (m1.scenes_ ≠ [] → m1.scene_index_ < m1.scenes_.length) := by
  induction ops with
  | nil =>
    intro m m1 heap heap1 h0 h1 h
    simp only [applyOps, Option.some.injEq, Prod.mk.injEq] at h
    obtain ⟨rfl, -⟩ := h
    exact ⟨h0, h1⟩
  | cons op rest ih =>
    intro m m1 heap heap1 h0 h1 h
    simp only [applyOps] at h
    split at h
    · cases h
    · next m2 heap2 hop =>
      refine ih m2 m1 heap2 heap1 ?_ ?_ h
      · intro hnil
        cases op with
        | addScene s =>
          simp only [applyOp, AddScene, Option.some.injEq, Prod.mk.injEq] at hop
          obtain ⟨rfl, -⟩ := hop
          simp at hnil
        | first =>
          simp only [applyOp, First, Option.some.injEq] at hop
          split at hop <;> (cases hop; exact h0 hnil)
        | next =>
          simp only [applyOp, Option.map_eq_some'] at hop
          obtain ⟨⟨r, m3, heap3⟩, hn, heq⟩ := hop
          cases heq
          have := Next_cursor_lt m m2 heap heap2 r hn
          rw [hnil] at this
          simp at this
        | size =>
          simp only [applyOp, Size, Option.some.injEq, Prod.mk.injEq] at hop
          obtain ⟨rfl, -⟩ := hop
          exact h0 hnil
      · intro hne
        cases op with
        | addScene s =>
          simp only [applyOp, AddScene, Option.some.injEq, Prod.mk.injEq] at hop
          obtain ⟨rfl, -⟩ := hop
          simp only [List.length_append, List.length_singleton]
          by_cases hm : m.scenes_ = []
          · rw [h0 hm]; omega
          · have := h1 hm; omega
        | first =>
          simp only [applyOp, First, Option.some.injEq] at hop
          split at hop <;> (cases hop; exact h1 hne)
        | next =>
          simp only [applyOp, Option.map_eq_some'] at hop
          obtain ⟨⟨r, m3, heap3⟩, hn, heq⟩ := hop
          cases heq
          exact (Next_cursor_lt m m2 heap heap2 r hn).2
        | size =>
          simp only [applyOp, Size, Option.some.injEq, Prod.mk.injEq] at hop
          obtain ⟨rfl, -⟩ := hop
          exact h1 hne

/-! ## Theorems on the scene manager -/

/-- C1: on a manager holding N >= 1 scenes (N a `size_t` value, no null entry)
with its cursor at 0, the k-th call of `Next()` leaves the cursor at `k mod N`;
the visited sequence repeats after N calls and after no smaller number. -/
theorem next_cursor_period (m : CircularQueueSceneManager) (heap : SceneHeap)
    (hcur : m.scene_index_ = 0) (hN : 1 ≤ m.scenes_.length)
    (hsz : m.scenes_.length < SIZE_WIDTH) (hscene : ∀ s ∈ m.scenes_, s ≠ none) :
    (∀ k, cursorAfter k m heap = some (k % m.scenes_.length)) ∧
    (∀ k, cursorAfter (k + m.scenes_.length) m heap = cursorAfter k m heap) ∧
    (∀ p, 0 < p → p < m.scenes_.length → cursorAfter p m heap ≠ cursorAfter 0 m heap) := by
  have key : ∀ k, cursorAfter k m heap = some (k % m.scenes_.length) := by
    intro k
    obtain ⟨heap1, h1⟩ := nextTimes_cursor k m heap (by omega) hsz hscene
    simp [cursorAfter, h1, hcur]
  refine ⟨key, ?_, ?_⟩
  · intro k
    rw [key, key, Nat.add_mod_right]
  · intro p hp hlt
    rw [key, key, Nat.mod_eq_of_lt hlt, Nat.zero_mod]
    intro h
    cases h
    omega

theorem next_cursor_period_witness :
    (∀ k, cursorAfter k ⟨[some 10, some 11, some 12], 0⟩ freshHeap = some (k % 3)) ∧
    (∀ k, cursorAfter (k + 3) ⟨[some 10, some 11, some 12], 0⟩ freshHeap =
      cursorAfter k ⟨[some 10, some 11, some 12], 0⟩ freshHeap) ∧
    (∀ p, 0 < p → p < 3 → cursorAfter p ⟨[some 10, some 11, some 12], 0⟩ freshHeap ≠
      cursorAfter 0 ⟨[some 10, some 11, some 12], 0⟩ freshHeap) :=
  next_cursor_period ⟨[some 10, some 11, some 12], 0⟩ freshHeap rfl (by decide)
    (by decide) (by decide)

/-- C2: on a non-empty manager with cursor c (not the largest `size_t` value)
and size n whose entry at `(c+1) mod n` is the scene at address a, `Next()`
returns a, moves the cursor to `(c+1) mod n`, leaves scene a valid whatever its
validity was, and changes no other scene object. -/
theorem Next_returns_validated (m : CircularQueueSceneManager) (heap : SceneHeap) (a : Nat)
    (hc : m.scene_index_ + 1 < SIZE_WIDTH)
    (hget : m.scenes_[(m.scene_index_ + 1) % m.scenes_.length]? = some (some a)) :
    ∃ m1 heap1, Next m heap = some (some a, m1, heap1) ∧
      m1.scene_index_ = (m.scene_index_ + 1) % m.scenes_.length ∧
      m1.scenes_ = m.scenes_ ∧
      (heap1 a).IsValid = true ∧
      heap1 a = { heap a with is_valid := true } ∧
      (∀ b, b ≠ a → heap1 b = heap b) := by
  have hwrap : (m.scene_index_ + 1) % SIZE_WIDTH = m.scene_index_ + 1 := Nat.mod_eq_of_lt hc
  have hget1 : m.scenes_[(m.scene_index_ + 1) % SIZE_WIDTH % m.scenes_.length]? =
      some (some a) := by rw [hwrap]; exact hget
  refine ⟨_, _, Next_of_entry m heap a hget1, ?_, rfl, ?_, ?_, ?_⟩
  · simp only [hwrap]
  · simp [Scene.IsValid, Scene.Validate]
  · simp [Scene.Validate]
  · intro b hb
    exact Function.update_noteq hb _ _

theorem Next_returns_validated_witness :
    (staleHeap 20).IsValid = false ∧
    ∃ m1 heap1, Next ⟨[some 20, some 21], 1⟩ staleHeap = some (some 20, m1, heap1) ∧
      m1.scene_index_ = (1 + 1) % 2 ∧
      m1.scenes_ = [some 20, some 21] ∧
      (heap1 20).IsValid = true ∧
      heap1 20 = { staleHeap 20 with is_valid := true } ∧
      (∀ b, b ≠ 20 → heap1 b = staleHeap b) :=
  ⟨rfl, Next_returns_validated ⟨[some 20, some 21], 1⟩ staleHeap 20 (by decide) rfl⟩

/-- C3: in every state reached from the constructor by a sequence of AddScene,
First, Next and Size calls (each call defined, so Next only when non-empty), a
non-empty manager has its cursor strictly below the number of stored scenes. -/
theorem cursor_in_range (ops : List ManagerOp) (heap0 heap : SceneHeap)
    (m : CircularQueueSceneManager)
    (hrun : applyOps ops CircularQueueSceneManager.new heap0 = some (m, heap))
    (hne : m.scenes_ ≠ []) : m.scene_index_ < m.scenes_.length :=
  (applyOps_cursor ops CircularQueueSceneManager.new m heap0 heap (fun _ => rfl)
    (fun h => absurd rfl h) hrun).2 hne

theorem cursor_in_range_witness :
    applyOps [.addScene (some 1), .first, .addScene (some 2), .next, .size, .next, .next,
        .addScene (some 3)] CircularQueueSceneManager.new freshHeap =
      some (⟨[some 1, some 2, some 3], 1⟩,
        Function.update (Function.update (Function.update freshHeap 2 (freshHeap 2).Validate)
          1 (freshHeap 1).Validate) 2 (freshHeap 2).Validate) ∧
    (1 : Nat) < [some 1, some 2, some 3].length :=
  ⟨rfl, cursor_in_range [.addScene (some 1), .first, .addScene (some 2), .next, .size,
    .next, .next, .addScene (some 3)] freshHeap
    (Function.update (Function.update (Function.update freshHeap 2 (freshHeap 2).Validate)
      1 (freshHeap 1).Validate) 2 (freshHeap 2).Validate)
    ⟨[some 1, some 2, some 3], 1⟩ rfl (by decide)⟩

/-- C4: `First()` returns the entry at index 0 when at least one scene is
stored and the null pointer when none is, wherever the cursor is, and changes
neither the manager (cursor, entries) nor any scene object. -/
theorem First_returns_index_zero (m : CircularQueueSceneManager) (heap : SceneHeap) :
    First m heap = ((m.scenes_[0]?).getD none, m, heap) := by
  unfold First
  split
  · next h => simp [List.getElem?_eq_getElem h]
  · next h =>
    have hnil : m.scenes_ = [] := List.length_eq_zero.mp (by omega)
    simp [hnil]

theorem Size_addScenes_replicate (n : Nat) (s : ScenePtr) (heap : SceneHeap) :
    (Size (addScenes CircularQueueSceneManager.new heap (List.replicate n s)).1 heap).1 =
      n % UINT_WIDTH := by
  rw [addScenes_eq]
  simp [Size, CircularQueueSceneManager.new]

/-- C5, as stated, fails: after 2^32 calls of AddScene on a fresh manager
`Size()` returns 0, not 2^32 (the count is converted to `unsigned int`). -/
theorem Size_not_count :
    (Size (addScenes CircularQueueSceneManager.new freshHeap
        (List.replicate (2 ^ 32) (some 0))).1 freshHeap).1 = 0 ∧
    (List.replicate (2 ^ 32) (some 0) : List ScenePtr).length = 2 ^ 32 :=
  ⟨(Size_addScenes_replicate (2 ^ 32) (some 0) freshHeap).trans (Nat.mod_self _),
    List.length_replicate _ _⟩

/-- C5, amended: AddScene appends at the end, keeping the entries stored and
the cursor; after adding scenes s1..sk to a fresh manager the stored order is
s1..sk, the cursor is 0, `Size()` returns `k mod 2^32` (so k when k < 2^32),
`First()` is s1 and, for k >= 1 a `size_t` value, the i-th `Next()` returns the
scene at 0-based position `i mod k`, that is s_((i mod k)+1). -/
theorem addScenes_order (ps : List Nat) (heap : SceneHeap) :
    (∀ (m : CircularQueueSceneManager) (s : ScenePtr),
      AddScene m heap s = ({ scenes_ := m.scenes_ ++ [s], scene_index_ := m.scene_index_ }, heap)) ∧
    addScenes CircularQueueSceneManager.new heap (ps.map some) = (⟨ps.map some, 0⟩, heap) ∧
    (Size ⟨ps.map some, 0⟩ heap).1 = ps.length % 2 ^ 32 ∧
    (ps.length < 2 ^ 32 → (Size ⟨ps.map some, 0⟩ heap).1 = ps.length) ∧
    (First ⟨ps.map some, 0⟩ heap).1 = ps[0]? ∧
    (1 ≤ ps.length → ps.length < 2 ^ 64 →
      ∀ i, 1 ≤ i → nthNext i ⟨ps.map some, 0⟩ heap = some ps[i % ps.length]?) := by
  have hsize : (Size ⟨ps.map some, 0⟩ heap).1 = ps.length % 2 ^ 32 := by
    simp [Size, UINT_WIDTH]
  refine ⟨fun _ _ => rfl, ?_, hsize, ?_, ?_, ?_⟩
  · rw [addScenes_eq]
    simp [CircularQueueSceneManager.new]
  · intro hlt
    rw [hsize, Nat.mod_eq_of_lt hlt]
  · cases ps <;> simp [First]
  · intro hk hsz i hi
    obtain ⟨j, rfl⟩ : ∃ j, i = j + 1 := ⟨i - 1, by omega⟩
    have hscene : ∀ s ∈ (⟨ps.map some, 0⟩ : CircularQueueSceneManager).scenes_, s ≠ none := by
      intro s hs
      simp only [List.mem_map] at hs
      obtain ⟨a, -, rfl⟩ := hs
      simp
    obtain ⟨heap1, h1⟩ := nextTimes_cursor j ⟨ps.map some, 0⟩ heap
      (by simp only [List.length_map]; omega)
      (by simp only [List.length_map, SIZE_WIDTH]; omega) hscene
    simp only [List.length_map, Nat.zero_add] at h1
    have hjlt : j % ps.length < ps.length := Nat.mod_lt _ (by omega)
    have hwrap : (j % ps.length + 1) % SIZE_WIDTH = j % ps.length + 1 :=
      Nat.mod_eq_of_lt (by simp only [SIZE_WIDTH]; omega)
    have hidx : (j % ps.length + 1) % ps.length = (j + 1) % ps.length := Nat.mod_add_mod _ _ _
    have hin : (j + 1) % ps.length < ps.length := Nat.mod_lt _ (by omega)
    have hentry : (⟨ps.map some, j % ps.length⟩ : CircularQueueSceneManager).scenes_[
        ((⟨ps.map some, j % ps.length⟩ : CircularQueueSceneManager).scene_index_ + 1)
          % SIZE_WIDTH
          % (⟨ps.map some, j % ps.length⟩ : CircularQueueSceneManager).scenes_.length]? =
        some (some ps[(j + 1) % ps.length]) := by
      simp only [List.length_map, hwrap, hidx, List.getElem?_map,
        List.getElem?_eq_getElem hin, Option.map_some']
    have hnext := Next_of_entry ⟨ps.map some, j % ps.length⟩ heap1 _ hentry
    simp only [nthNext, h1, hnext, Option.map_some', List.getElem?_eq_getElem hin]

theorem addScenes_order_witness :
    addScenes CircularQueueSceneManager.new freshHeap ([5, 6, 7].map some) =
      (⟨[some 5, some 6, some 7], 0⟩, freshHeap) ∧
    (Size ⟨[some 5, some 6, some 7], 0⟩ freshHeap).1 = 3 ∧
    (First ⟨[some 5, some 6, some 7], 0⟩ freshHeap).1 = some 5 ∧
    nthNext 1 ⟨[some 5, some 6, some 7], 0⟩ freshHeap = some (some 6) ∧
    nthNext 2 ⟨[some 5, some 6, some 7], 0⟩ freshHeap = some (some 7) ∧
    nthNext 3 ⟨[some 5, some 6, some 7], 0⟩ freshHeap = some (some 5) ∧
    nthNext 4 ⟨[some 5, some 6, some 7], 0⟩ freshHeap = some (some 6) :=
  have h := addScenes_order [5, 6, 7] freshHeap
  ⟨h.2.1, h.2.2.2.1 (by decide), h.2.2.2.2.1,
    h.2.2.2.2.2 (by decide) (by decide) 1 (by decide),
    h.2.2.2.2.2 (by decide) (by decide) 2 (by decide),
    h.2.2.2.2.2 (by decide) (by decide) 3 (by decide),
    h.2.2.2.2.2 (by decide) (by decide) 4 (by decide)⟩

/-! ## Lemmas on the host loop -/

theorem enter_scripted (fps : Nat) (t0 : Double) (cs : List Double) :
    RunLoop.enter helloHost (helloApp fps (scriptedWorld t0 cs)) =
      { world := scriptedLoopWorld t0 cs, prev_time_ := 0, curr_time_ := t0,
        accumlated_time := 0,
        calls := [.SetDimension 600 600, .Begin, .Resize 600 600], iterations := 0 } := by
  have h600 : toSizeT 600 = 600 := by decide
  simp [RunLoop.enter, helloHost, helloApp, scriptedWorld, scriptedLoopWorld, h600,
    HelloWorld.Begin, HelloWorld.Resize, HelloWorld.GLErrorCheck, HelloWorld.glfwGetTime,
    Scene.SetDimension, Scene.new]

theorem body_scripted (fps : Nat) (t c : Double) (cs : List Double) (st : LoopState HelloWorld)
    (hw : st.world = scriptedLoopWorld t (c :: cs)) (ht : st.curr_time_ = t) :
    loopBody helloHost fps st =
      { world := scriptedLoopWorld c cs, prev_time_ := t, curr_time_ := c,
        accumlated_time :=
          if frameDue fps (st.accumlated_time + (c - t)) then 0
          else st.accumlated_time + (c - t),
        calls := st.calls ++
          (if frameDue fps (st.accumlated_time + (c - t)) then
            [.Update c, .Draw c, .SwapBuffers, .PollEvents]
          else [.Update c, .PollEvents]),
        iterations := st.iterations + 1 } := by
  cases cs with
  | nil =>
    by_cases hdue : frameDue fps (st.accumlated_time + (c - t)) = true <;>
    simp [loopBody, hw, ht, hdue, helloHost, scriptedLoopWorld, closingPolls,
      HelloWorld.glfwGetTime, HelloWorld.Update, HelloWorld.Update.loop, HelloWorld.Draw,
      HelloWorld.GLErrorCheck, HelloWorld.glfwPollEvents, HelloWorld.GLFWBasicKeyCallback,
      escapePressed, Keyboard.new]
  | cons c1 rest =>
    by_cases hdue : frameDue fps (st.accumlated_time + (c - t)) = true <;>
    simp [loopBody, hw, ht, hdue, helloHost, scriptedLoopWorld, closingPolls,
      HelloWorld.glfwGetTime, HelloWorld.Update, HelloWorld.Update.loop, HelloWorld.Draw,
      HelloWorld.GLErrorCheck, HelloWorld.glfwPollEvents, HelloWorld.GLFWBasicKeyCallback,
      escapePressed, Keyboard.new]

theorem cond_scripted (t : Double) (cs : List Double) :
    loopCond helloHost (scriptedLoopWorld t cs) = !cs.isEmpty := by
  cases cs <;> simp [loopCond, helloHost, scriptedLoopWorld, Scene.IsValid, Scene.new]

theorem check_scripted (t : Double) (cs : List Double) :
    helloHost.GLErrorCheck (scriptedLoopWorld t cs) = (false, scriptedLoopWorld t cs) := by
  simp [helloHost, HelloWorld.GLErrorCheck, scriptedLoopWorld]

/-- The scripted loop runs once per reading and issues the calls of the rule of
drop. -/
theorem runWhile_scripted (NDEBUG : Bool) (fps : Nat) (cs : List Double) :
    ∀ (st : LoopState HelloWorld), st.world = scriptedLoopWorld st.curr_time_ cs →
    ∃ st1, runWhile helloHost NDEBUG fps cs.length st = some (.exited st1) ∧
      st1.iterations = st.iterations + cs.length ∧
      st1.calls = st.calls ++ (frames fps st.accumlated_time st.curr_time_ cs).flatten := by
  induction cs with
  | nil =>
    intro st hw
    refine ⟨st, ?_, rfl, ?_⟩
    · simp [runWhile, hw, cond_scripted]
    · simp [frames]
  | cons c cs ih =>
    intro st hw
    have hbody := body_scripted fps st.curr_time_ c cs st hw rfl
    have hstep : runWhile helloHost NDEBUG fps (c :: cs).length st =
        runWhile helloHost NDEBUG fps cs.length (loopBody helloHost fps st) := by
      have hst : { st with world := scriptedLoopWorld st.curr_time_ (c :: cs) } = st := by
        rw [← hw]
      cases NDEBUG <;>
        simp [runWhile, assertFails, afterAssert, hw, cond_scripted, check_scripted, hst]
    obtain ⟨st1, hrun, hit, hcalls⟩ := ih (loopBody helloHost fps st) (by rw [hbody])
    refine ⟨st1, by rw [hstep, hrun], ?_, ?_⟩
    · rw [hit, hbody]
      simp only [List.length_cons]
      omega
    · rw [hcalls, hbody]
      by_cases hdue : frameDue fps (st.accumlated_time + (c - st.curr_time_)) = true
      · simp [frames, hdue]
      · simp [frames, hdue]

theorem frames_length (fps : Nat) (cs : List Double) : ∀ acc prev : Double,
    (frames fps acc prev cs).length = cs.length := by
  induction cs with
  | nil => intro acc prev; rfl
  | cons c cs ih =>
    intro acc prev
    unfold frames
    split <;> simp [ih]

theorem frames_each (fps : Nat) (cs : List Double) : ∀ acc prev : Double,
    ∀ f ∈ frames fps acc prev cs,
      f.countP Call.isUpdate = 1 ∧ f.countP Call.isDraw ≤ 1 ∧ ∀ c ∈ f, c.inLoop = true := by
  induction cs with
  | nil => intro acc prev f hf; simp [frames] at hf
  | cons c cs ih =>
    intro acc prev f hf
    unfold frames at hf
    split at hf
    · rw [List.mem_cons] at hf
      rcases hf with rfl | hf
      · simp [List.countP_cons, Call.isUpdate, Call.isDraw, Call.inLoop]
      · exact ih _ _ f hf
    · rw [List.mem_cons] at hf
      rcases hf with rfl | hf
      · simp [List.countP_cons, Call.isUpdate, Call.isDraw, Call.inLoop]
      · exact ih _ _ f hf

theorem frames_draws (fps : Nat) (cs : List Double) : ∀ acc prev : Double,
    (frames fps acc prev cs).flatten.countP Call.isDraw = presentations fps acc prev cs := by
  induction cs with
  | nil => intro acc prev; rfl
  | cons c cs ih =>
    intro acc prev
    unfold frames presentations
    split
    · simp [List.countP_append, List.countP_cons, Call.isDraw, ih]
    · simp [List.countP_append, List.countP_cons, Call.isDraw, ih]

theorem presentations_le (fps : Nat) (cs : List Double) : ∀ acc prev : Double,
    presentations fps acc prev cs ≤ cs.length := by
  induction cs with
  | nil => intro acc prev; simp [presentations]
  | cons c cs ih =>
    intro acc prev
    unfold presentations
    split
    · have := ih 0 c
      simp only [List.length_cons]
      omega
    · have := ih (acc + (c - prev)) c
      simp only [List.length_cons]
      omega

theorem recording_enter {W : Type} (H : Host W) (app : GLFWApp W) :
    RunLoop.enter H.recording app.recording = (RunLoop.enter H app).recorded := rfl

theorem recording_body {W : Type} (H : Host W) (fps : Nat) (st : LoopState W) :
    loopBody H.recording fps st.recorded = (loopBody H fps st).recorded := by
  unfold loopBody
  simp only [LoopState.recorded, Host.recording]
  split <;> simp [LoopState.recorded]

theorem recording_runWhile {W : Type} (H : Host W) (NDEBUG : Bool) (fps : Nat) (fuel : Nat) :
    ∀ st : LoopState W, runWhile H.recording NDEBUG fps fuel st.recorded =
      (runWhile H NDEBUG fps fuel st).map LoopResult.recorded := by
  have hcond : ∀ st : LoopState W, loopCond H.recording st.recorded.world = loopCond H st.world :=
    fun _ => rfl
  have hfails : ∀ st : LoopState W, assertFails H.recording NDEBUG st.recorded =
      assertFails H NDEBUG st := fun _ => rfl
  have hafter : ∀ st : LoopState W, afterAssert H.recording NDEBUG st.recorded =
      (afterAssert H NDEBUG st).recorded := by
    intro st
    cases NDEBUG <;> rfl
  induction fuel with
  | zero =>
    intro st
    simp only [runWhile, hcond]
    split <;> rfl
  | succ fuel ih =>
    intro st
    simp only [runWhile, hcond, hfails, hafter, recording_body, ih]
    split
    · split <;> rfl
    · rfl

/-- The record the functions of the host keep is the record of calls of the
state, and keeping it changes nothing else: a run with the recording host is
the run with the host, the record added to the world. -/
theorem RunLoop_recording {W : Type} (H : Host W) (NDEBUG : Bool) (app : GLFWApp W)
    (fuel : Nat) :
    RunLoop H.recording NDEBUG app.recording fuel =
      (RunLoop H NDEBUG app fuel).map RunResult.recorded := by
  have hfps : app.recording.fps_ = app.fps_ := rfl
  simp only [RunLoop, RunLoop.resume, recording_enter, recording_runWhile, hfps]
  cases runWhile H NDEBUG app.fps_ fuel (RunLoop.enter H app) with
  | none => rfl
  | some r =>
    cases r with
    | exited st => rfl
    | assertFailed st => rfl

theorem afterAssert_fields {W : Type} (H : Host W) (NDEBUG : Bool) (st : LoopState W) :
    (afterAssert H NDEBUG st).calls = st.calls ∧
    (afterAssert H NDEBUG st).iterations = st.iterations ∧
    (afterAssert H NDEBUG st).accumlated_time = st.accumlated_time ∧
    (afterAssert H NDEBUG st).curr_time_ = st.curr_time_ := by
  cases NDEBUG <;> simp [afterAssert]

/-- The calls of one execution of the loop body. -/
theorem loopBody_calls {W : Type} (H : Host W) (fps : Nat) (st : LoopState W) :
    (loopBody H fps st).calls = st.calls ++
      (if frameDue fps (st.accumlated_time + ((H.glfwGetTime st.world).1 - st.curr_time_))
       then [.Update (H.glfwGetTime st.world).1, .Draw (H.glfwGetTime st.world).1,
         .SwapBuffers, .PollEvents]
       else [.Update (H.glfwGetTime st.world).1, .PollEvents]) ∧
    (loopBody H fps st).iterations = st.iterations + 1 ∧
    (loopBody H fps st).accumlated_time =
      (if frameDue fps (st.accumlated_time + ((H.glfwGetTime st.world).1 - st.curr_time_))
       then 0
       else st.accumlated_time + ((H.glfwGetTime st.world).1 - st.curr_time_)) := by
  unfold loopBody
  simp only []
  split <;> simp

theorem issued_props (due : Bool) (t : Double) :
    (∀ c ∈ (if due = true then [Call.Update t, Call.Draw t, Call.SwapBuffers, Call.PollEvents]
        else [Call.Update t, Call.PollEvents]), c.inLoop = true) ∧
    List.countP Call.isUpdate
      (if due = true then [Call.Update t, Call.Draw t, Call.SwapBuffers, Call.PollEvents]
        else [Call.Update t, Call.PollEvents]) = 1 ∧
    List.countP Call.isDraw
      (if due = true then [Call.Update t, Call.Draw t, Call.SwapBuffers, Call.PollEvents]
        else [Call.Update t, Call.PollEvents]) ≤ 1 := by
  cases due <;> simp [List.countP_cons, Call.isUpdate, Call.isDraw, Call.inLoop]

theorem runWhile_exit {W : Type} (H : Host W) (NDEBUG : Bool) (fps fuel : Nat)
    (st : LoopState W) (hcond : loopCond H st.world = false) :
    runWhile H NDEBUG fps fuel st = some (.exited st) := by
  cases fuel <;> simp [runWhile, hcond]

theorem runWhile_step {W : Type} (H : Host W) (NDEBUG : Bool) (fps fuel : Nat)
    (st : LoopState W) (hcond : loopCond H st.world = true)
    (hassert : assertFails H NDEBUG st = false) :
    runWhile H NDEBUG fps (fuel + 1) st =
      runWhile H NDEBUG fps fuel (loopBody H fps (afterAssert H NDEBUG st)) := by
  simp [runWhile, hcond, hassert]

/-- The calls of the `while`: only loop calls, one `Update` per execution of the
body and at most as many `Draw`. -/
theorem runWhile_calls {W : Type} (H : Host W) (NDEBUG : Bool) (fps : Nat) (fuel : Nat) :
    ∀ (st : LoopState W) (r : LoopResult W), runWhile H NDEBUG fps fuel st = some r →
    ∃ body, r.state.calls = st.calls ++ body ∧
      (∀ c ∈ body, c.inLoop = true) ∧
      r.state.iterations = st.iterations + body.countP Call.isUpdate ∧
      body.countP Call.isDraw ≤ body.countP Call.isUpdate := by
  induction fuel with
  | zero =>
    intro st r h
    simp only [runWhile] at h
    split at h
    · cases h
    · cases h
      exact ⟨[], by simp [LoopResult.state]⟩
  | succ fuel ih =>
    intro st r h
    simp only [runWhile] at h
    split at h
    · split at h
      · cases h
        refine ⟨[], ?_⟩
        simp [LoopResult.state, (afterAssert_fields H NDEBUG st).1,
          (afterAssert_fields H NDEBUG st).2.1]
      · obtain ⟨body, hcalls, hin, hit, hle⟩ := ih _ r h
        obtain ⟨hbc, hbi, -⟩ := loopBody_calls H fps (afterAssert H NDEBUG st)
        rw [hbc, (afterAssert_fields H NDEBUG st).1] at hcalls
        rw [hbi, (afterAssert_fields H NDEBUG st).2.1] at hit
        obtain ⟨hp1, hp2, hp3⟩ := issued_props
          (frameDue fps ((afterAssert H NDEBUG st).accumlated_time +
            ((H.glfwGetTime (afterAssert H NDEBUG st).world).1 -
              (afterAssert H NDEBUG st).curr_time_)))
          (H.glfwGetTime (afterAssert H NDEBUG st).world).1
        refine ⟨_, by rw [hcalls, List.append_assoc], ?_, ?_, ?_⟩
        · intro c hc
          rw [List.mem_append] at hc
          rcases hc with hc | hc
          · exact hp1 c hc
          · exact hin c hc
        · rw [hit, List.countP_append, hp2]
          omega
        · rw [List.countP_append, List.countP_append, hp2]
          omega
    · cases h
      exact ⟨[], by simp [LoopResult.state]⟩

/-- The calls of a whole run: the three calls before the loop, loop calls, then
`End` when the run returns. -/
theorem RunLoop_calls {W : Type} (H : Host W) (NDEBUG : Bool) (app : GLFWApp W) (fuel : Nat)
    (r : RunResult W) (hrun : RunLoop H NDEBUG app fuel = some r) :
    ∃ body, (∀ c ∈ body, c.inLoop = true) ∧
      r.state.iterations = body.countP Call.isUpdate ∧
      body.countP Call.isDraw ≤ body.countP Call.isUpdate ∧
      ((∃ st, r = .returned EXIT_SUCCESS st ∧
          st.calls = .SetDimension (toSizeT app.fb_width_) (toSizeT app.fb_height_) :: .Begin ::
            .Resize (toSizeT app.fb_width_) (toSizeT app.fb_height_) :: (body ++ [.End])) ∨
        (∃ st, r = .assertFailed st ∧
          st.calls = .SetDimension (toSizeT app.fb_width_) (toSizeT app.fb_height_) :: .Begin ::
            .Resize (toSizeT app.fb_width_) (toSizeT app.fb_height_) :: body)) := by
  simp only [RunLoop, RunLoop.resume] at hrun
  split at hrun
  · cases hrun
  · next st1 hw =>
    cases hrun
    obtain ⟨body, hcalls, hin, hit, hle⟩ := runWhile_calls H NDEBUG app.fps_ fuel _ _ hw
    refine ⟨body, hin, ?_, hle, Or.inr ⟨st1, rfl, ?_⟩⟩
    · simpa [RunResult.state, LoopResult.state, RunLoop.enter] using hit
    · simpa [LoopResult.state, RunLoop.enter] using hcalls
  · next st1 hw =>
    cases hrun
    obtain ⟨body, hcalls, hin, hit, hle⟩ := runWhile_calls H NDEBUG app.fps_ fuel _ _ hw
    refine ⟨body, hin, ?_, hle, Or.inl ⟨_, rfl, ?_⟩⟩
    · simpa [RunResult.state, LoopResult.state, RunLoop.enter] using hit
    · simp only [LoopResult.state, RunLoop.enter] at hcalls
      simp [hcalls]

/-- Loop calls are none of Begin, Resize, End; those of them made to the scene
are Update or Draw. -/
theorem inLoop_props (body : List Call) (hin : ∀ c ∈ body, c.inLoop = true) :
    body.count .Begin = 0 ∧ body.count .End = 0 ∧
    body.countP (fun c => match c with | .Resize _ _ => true | _ => false) = 0 ∧
    (∀ c ∈ body.filter Call.isLifecycle, c.isUpdate = true ∨ c.isDraw = true) := by
  refine ⟨?_, ?_, ?_, ?_⟩
  · rw [List.count_eq_zero]
    intro hmem
    exact absurd (hin _ hmem) (by simp [Call.inLoop])
  · rw [List.count_eq_zero]
    intro hmem
    exact absurd (hin _ hmem) (by simp [Call.inLoop])
  · rw [List.countP_eq_zero]
    intro c hc
    have := hin c hc
    cases c <;> simp [Call.inLoop] at this ⊢
  · intro c hc
    rw [List.mem_filter] at hc
    have hi := hin c hc.1
    have hl := hc.2
    cases c <;> simp [Call.inLoop, Call.isUpdate, Call.isDraw, Call.isLifecycle] at hi hl ⊢

/-! ## Theorems on the host loop -/

/-- C6, as stated, fails: at rate 1 the clock reading 0 and then 2, one delta
of 2, brings one `Draw` although `floor(2 / (1/1)) = 2`; the readings 0, 1, 2,
two deltas of 1 and the same total, bring two.  The `Draw` calls are counted in
the record the host keeps. -/
theorem draw_count_not_floor :
    observedDeltas 0 [2] = [2] ∧
    (recordOf (RunLoop helloHost.recording false
      (helloApp 1 (scriptedWorld 0 [2])).recording 1)).countP Call.isDraw = 1 ∧
    drawCount (RunLoop helloHost false (helloApp 1 (scriptedWorld 0 [2])) 1) = 1 ∧
    ⌊(2 : ℚ) / (1 / ((1 : Nat) : ℚ))⌋₊ = 2 ∧
    observedDeltas 0 [1, 2] = [1, 1] ∧
    (recordOf (RunLoop helloHost.recording false
      (helloApp 1 (scriptedWorld 0 [1, 2])).recording 2)).countP Call.isDraw = 2 ∧
    drawCount (RunLoop helloHost false (helloApp 1 (scriptedWorld 0 [1, 2])) 2) = 2 := by
  refine ⟨by decide!, by decide!, by decide!, ?_, by decide!, by decide!, by decide!⟩
  norm_num

/-- C6, amended: for every rate and every scripted sequence of n clock readings
(scene valid and close not requested until the n-th iteration has run),
`RunLoop` returns after n iterations, and its calls, which are those the host
records, are the three of the entry, then for each reading the calls of one
iteration by the rule of drop, then End: one Update in each iteration and at
most one Draw, a Draw exactly when the accumulator, the sum in `double` of the
deltas since the last Draw, has reached `1.0 / fps_`, after which it starts
again from 0.  The number of Draw calls is the number of presentations by that
rule, at most n. -/
theorem draw_count_by_drop (NDEBUG : Bool) (fps : Nat) (t0 : Double) (cs : List Double) :
    ∃ st, RunLoop helloHost NDEBUG (helloApp fps (scriptedWorld t0 cs)) cs.length =
        some (.returned EXIT_SUCCESS st) ∧
      RunLoop helloHost.recording NDEBUG (helloApp fps (scriptedWorld t0 cs)).recording
        cs.length = some (.returned EXIT_SUCCESS st.recorded) ∧
      st.iterations = cs.length ∧
      st.calls = [.SetDimension 600 600, .Begin, .Resize 600 600] ++
        (frames fps 0 t0 cs).flatten ++ [.End] ∧
      (frames fps 0 t0 cs).length = cs.length ∧
      (∀ f ∈ frames fps 0 t0 cs, f.countP Call.isUpdate = 1 ∧ f.countP Call.isDraw ≤ 1) ∧
      st.calls.countP Call.isDraw = presentations fps 0 t0 cs ∧
      presentations fps 0 t0 cs ≤ cs.length := by
  obtain ⟨st1, hrun, hit, hcalls⟩ := runWhile_scripted NDEBUG fps cs
    (RunLoop.enter helloHost (helloApp fps (scriptedWorld t0 cs))) (by rw [enter_scripted])
  have hfpsApp : (helloApp fps (scriptedWorld t0 cs)).fps_ = fps := rfl
  have hret : RunLoop helloHost NDEBUG (helloApp fps (scriptedWorld t0 cs)) cs.length =
      some (.returned EXIT_SUCCESS
        { st1 with world := (helloHost.End st1.world).2, calls := st1.calls ++ [.End] }) := by
    simp only [RunLoop, RunLoop.resume, hfpsApp, hrun]
  rw [enter_scripted] at hcalls hit
  simp only [] at hcalls hit
  refine ⟨_, hret, ?_, ?_, ?_, frames_length fps cs 0 t0, ?_, ?_, presentations_le fps cs 0 t0⟩
  · rw [RunLoop_recording, hret]
    rfl
  · simp [hit]
  · simp [hcalls]
  · intro f hf
    exact ⟨(frames_each fps cs 0 t0 f hf).1, (frames_each fps cs 0 t0 f hf).2.1⟩
  · simp only [hcalls, List.countP_append, frames_draws]
    simp [List.countP_cons, Call.isDraw]

theorem draw_count_by_drop_witness :
    presentations 60 0 0 [1 / 100, 2 / 100, 3 / 100] = 1 ∧
    ∃ st, RunLoop helloHost false
        (helloApp 60 (scriptedWorld 0 [1 / 100, 2 / 100, 3 / 100])) 3 =
        some (.returned EXIT_SUCCESS st) ∧
      st.iterations = 3 ∧
      st.calls.countP Call.isDraw = presentations 60 0 0 [1 / 100, 2 / 100, 3 / 100] := by
  obtain ⟨st, h1, -, h3, -, -, -, h7, -⟩ :=
    draw_count_by_drop false 60 0 [1 / 100, 2 / 100, 3 / 100]
  exact ⟨by decide!, st, h1, h3, h7⟩

/-- C7: in every iteration, with `t` the time just read, the accumulator takes
the delta `t - curr_time_`; when it is then at least `time_per_frame`, the
quotient `1.0 / fps_` in `double`, the iteration applies Update, Draw, the
buffer swap and the poll, in that order and each with `t`, and ends with the
accumulator 0; otherwise it applies Update and the poll only and the
accumulator keeps the sum.  The calls the host records are these. -/
theorem draw_iff_accumulated {W : Type} (H : Host W) (fps : Nat) (st : LoopState W) :
    (loopBody H fps st).world =
      (if st.accumlated_time + ((H.glfwGetTime st.world).1 - st.curr_time_) ≥ timePerFrame fps
       then H.glfwPollEvents (H.glfwSwapBuffers
         (H.Draw (H.glfwGetTime st.world).1
           (H.Update (H.glfwGetTime st.world).1 (H.glfwGetTime st.world).2).2).2)
       else H.glfwPollEvents
         (H.Update (H.glfwGetTime st.world).1 (H.glfwGetTime st.world).2).2) ∧
    (loopBody H fps st).accumlated_time =
      (if st.accumlated_time + ((H.glfwGetTime st.world).1 - st.curr_time_) ≥ timePerFrame fps
       then 0
       else st.accumlated_time + ((H.glfwGetTime st.world).1 - st.curr_time_)) ∧
    (loopBody H.recording fps st.recorded).world.2 = st.calls ++
      (if st.accumlated_time + ((H.glfwGetTime st.world).1 - st.curr_time_) ≥ timePerFrame fps
       then [.Update (H.glfwGetTime st.world).1, .Draw (H.glfwGetTime st.world).1,
         .SwapBuffers, .PollEvents]
       else [.Update (H.glfwGetTime st.world).1, .PollEvents]) ∧
    (loopBody H fps st).calls = (loopBody H.recording fps st.recorded).world.2 ∧
    (loopBody H fps st).prev_time_ = st.curr_time_ ∧
    (loopBody H fps st).curr_time_ = (H.glfwGetTime st.world).1 ∧
    timePerFrame fps = 1 / Double.round fps := by
  obtain ⟨hc, -, ha⟩ := loopBody_calls H fps st
  have hrec : (loopBody H.recording fps st.recorded).world.2 = (loopBody H fps st).calls := by
    rw [recording_body]
    rfl
  refine ⟨?_, ?_, ?_, hrec.symm, ?_, ?_, rfl⟩
  · unfold loopBody
    simp only [frameDue, decide_eq_true_eq]
    split <;> rfl
  · rw [ha]
    simp only [frameDue, decide_eq_true_eq]
  · rw [hrec, hc]
    simp only [frameDue, decide_eq_true_eq]
  · unfold loopBody
    simp only []
    split <;> rfl
  · unfold loopBody
    simp only []
    split <;> rfl

/-- The quotient `1.0 / 60` in `double` lies below 1/60; at rate 60, when the
clock reads 0 and then that `double`, the accumulator has reached
`time_per_frame` and the frame is presented. -/
theorem draw_iff_accumulated_witness :
    timePerFrame 60 = .finite (4803839602528529 / 288230376151711744) ∧
    (4803839602528529 / 288230376151711744 : ℚ) < 1 / 60 ∧
    (0 + (timePerFrame 60 - 0) ≥ timePerFrame 60) ∧
    (recordOf (RunLoop helloHost.recording false
      (helloApp 60 (scriptedWorld 0 [timePerFrame 60])).recording 1)).countP Call.isDraw = 1 ∧
    (loopBody helloHost 60 (RunLoop.enter helloHost
        (helloApp 60 (scriptedWorld 0 [timePerFrame 60])))).accumlated_time =
      (if (RunLoop.enter helloHost
            (helloApp 60 (scriptedWorld 0 [timePerFrame 60]))).accumlated_time +
          ((helloHost.glfwGetTime (RunLoop.enter helloHost
            (helloApp 60 (scriptedWorld 0 [timePerFrame 60]))).world).1 -
            (RunLoop.enter helloHost
              (helloApp 60 (scriptedWorld 0 [timePerFrame 60]))).curr_time_) ≥ timePerFrame 60
       then 0
       else (RunLoop.enter helloHost
            (helloApp 60 (scriptedWorld 0 [timePerFrame 60]))).accumlated_time +
          ((helloHost.glfwGetTime (RunLoop.enter helloHost
            (helloApp 60 (scriptedWorld 0 [timePerFrame 60]))).world).1 -
            (RunLoop.enter helloHost
              (helloApp 60 (scriptedWorld 0 [timePerFrame 60]))).curr_time_)) :=
  ⟨by decide!, by norm_num, by decide!, by decide!,
    (draw_iff_accumulated helloHost 60 (RunLoop.enter helloHost
      (helloApp 60 (scriptedWorld 0 [timePerFrame 60])))).2.1⟩

/-- The executions of the loop body: a `while` that ends has run its body some
number n of times, each on the state the one before left, and the counter of
the state has advanced by n. -/
theorem runWhile_iterate {W : Type} (H : Host W) (NDEBUG : Bool) (fps : Nat) (fuel : Nat) :
    ∀ (st : LoopState W) (r : LoopResult W), runWhile H NDEBUG fps fuel st = some r →
    ∃ n, n ≤ fuel ∧ r.state.iterations = st.iterations + n ∧
      (r = .exited ((fun s => loopBody H fps (afterAssert H NDEBUG s))^[n] st) ∨
       r = .assertFailed
         (afterAssert H NDEBUG ((fun s => loopBody H fps (afterAssert H NDEBUG s))^[n] st))) := by
  induction fuel with
  | zero =>
    intro st r h
    simp only [runWhile] at h
    split at h
    · cases h
    · cases h
      exact ⟨0, le_refl _, rfl, Or.inl rfl⟩
  | succ fuel ih =>
    intro st r h
    simp only [runWhile] at h
    split at h
    · split at h
      · cases h
        exact ⟨0, Nat.zero_le _, by simp [LoopResult.state, (afterAssert_fields H NDEBUG st).2.1],
          Or.inr rfl⟩
      · obtain ⟨n, hn, hit, hshape⟩ := ih _ r h
        refine ⟨n + 1, by omega, ?_, ?_⟩
        · rw [hit, (loopBody_calls H fps (afterAssert H NDEBUG st)).2.1,
            (afterAssert_fields H NDEBUG st).2.1]
          omega
        · simpa [Function.iterate_succ] using hshape
    · cases h
      exact ⟨0, Nat.zero_le _, rfl, Or.inl rfl⟩

/-- C8: every execution of the loop body applies Update to the world the clock
read left, with the time just read, then at most one Draw, with the same time,
and the poll; the host records Update first and once, with that time.  A run
that ends (by return or by a failed assertion) has executed the body some
number n of times; the record the host keeps has exactly n Update calls and
at most n Draw calls. -/
theorem update_every_iteration {W : Type} (H : Host W) (NDEBUG : Bool) (app : GLFWApp W)
    (fuel : Nat) (r : RunResult W) (hrun : RunLoop H NDEBUG app fuel = some r) :
    (∀ st : LoopState W, ∃ rest,
      (loopBody H.recording app.fps_ st.recorded).world.2 =
        st.calls ++ Call.Update (H.glfwGetTime st.world).1 :: rest ∧
      rest.countP Call.isUpdate = 0 ∧ rest.countP Call.isDraw ≤ 1 ∧
      ((loopBody H app.fps_ st).world = H.glfwPollEvents
          (H.Update (H.glfwGetTime st.world).1 (H.glfwGetTime st.world).2).2 ∨
        (loopBody H app.fps_ st).world = H.glfwPollEvents (H.glfwSwapBuffers
          (H.Draw (H.glfwGetTime st.world).1
            (H.Update (H.glfwGetTime st.world).1 (H.glfwGetTime st.world).2).2).2)) ∧
      (loopBody H app.fps_ st).iterations = st.iterations + 1) ∧
    (∃ n, r.state.iterations = n ∧
      (r = .returned EXIT_SUCCESS
          { (fun s => loopBody H app.fps_ (afterAssert H NDEBUG s))^[n] (RunLoop.enter H app) with
            world := (H.End ((fun s => loopBody H app.fps_ (afterAssert H NDEBUG s))^[n]
              (RunLoop.enter H app)).world).2
            calls := ((fun s => loopBody H app.fps_ (afterAssert H NDEBUG s))^[n]
              (RunLoop.enter H app)).calls ++ [.End] } ∨
        r = .assertFailed (afterAssert H NDEBUG
          ((fun s => loopBody H app.fps_ (afterAssert H NDEBUG s))^[n] (RunLoop.enter H app))))) ∧
    RunLoop H.recording NDEBUG app.recording fuel = some r.recorded ∧
    (recordOf (RunLoop H.recording NDEBUG app.recording fuel)).countP Call.isUpdate =
      r.state.iterations ∧
    (recordOf (RunLoop H.recording NDEBUG app.recording fuel)).countP Call.isDraw ≤
      r.state.iterations := by
  have hrec : RunLoop H.recording NDEBUG app.recording fuel = some r.recorded := by
    rw [RunLoop_recording, hrun]
    rfl
  have hof : recordOf (RunLoop H.recording NDEBUG app.recording fuel) = r.state.calls := by
    rw [hrec]
    cases r <;> rfl
  refine ⟨?_, ?_, hrec, ?_⟩
  · intro st
    obtain ⟨hc, hi, -⟩ := loopBody_calls H app.fps_ st
    have hr : (loopBody H.recording app.fps_ st.recorded).world.2 =
        (loopBody H app.fps_ st).calls := by
      rw [recording_body]
      rfl
    rw [hr, hc, hi]
    unfold loopBody
    simp only []
    split
    · exact ⟨_, rfl, by simp [List.countP_cons, Call.isUpdate],
        by simp [List.countP_cons, Call.isDraw], Or.inr rfl, trivial⟩
    · exact ⟨_, rfl, by simp [List.countP_cons, Call.isUpdate],
        by simp [List.countP_cons, Call.isDraw], Or.inl rfl, trivial⟩
  · simp only [RunLoop, RunLoop.resume] at hrun
    split at hrun
    · cases hrun
    · next st1 hw =>
      cases hrun
      obtain ⟨n, -, hit, hshape⟩ := runWhile_iterate H NDEBUG app.fps_ fuel _ _ hw
      rcases hshape with heq | heq
      · cases heq
      · simp only [LoopResult.assertFailed.injEq] at heq
        refine ⟨n, ?_, Or.inr (by rw [heq])⟩
        simpa [RunResult.state, LoopResult.state, RunLoop.enter] using hit
    · next st1 hw =>
      cases hrun
      obtain ⟨n, -, hit, hshape⟩ := runWhile_iterate H NDEBUG app.fps_ fuel _ _ hw
      rcases hshape with heq | heq
      · simp only [LoopResult.exited.injEq] at heq
        refine ⟨n, ?_, Or.inl (by rw [heq])⟩
        simpa [RunResult.state, LoopResult.state, RunLoop.enter] using hit
      · cases heq
  · rw [hof]
    obtain ⟨body, -, hit, hle, hshape⟩ := RunLoop_calls H NDEBUG app fuel r hrun
    rcases hshape with ⟨st, rfl, hcalls⟩ | ⟨st, rfl, hcalls⟩
    · simp only [RunResult.state] at hit ⊢
      rw [hcalls, hit]
      simp [List.countP_cons, List.countP_append, Call.isUpdate, Call.isDraw]
      exact hle
    · simp only [RunResult.state] at hit ⊢
      rw [hcalls, hit]
      simp [List.countP_cons, Call.isUpdate, Call.isDraw]
      exact hle

theorem update_every_iteration_witness :
    RunLoop helloHost false (helloApp 1 keyNWorld) 2 =
      some (.returned EXIT_SUCCESS
        { world := (helloHost.End (loopBody helloHost 1 keyNState).world).2,
          prev_time_ := 1 / 2, curr_time_ := 1, accumlated_time := 0,
          calls := [.SetDimension 600 600, .Begin, .Resize 600 600, .Update (1 / 2),
            .PollEvents, .Update 1, .Draw 1, .SwapBuffers, .PollEvents, .End],
          iterations := 2 }) ∧
    recordOf (RunLoop helloHost.recording false (helloApp 1 keyNWorld).recording 2) =
      [.SetDimension 600 600, .Begin, .Resize 600 600, .Update (1 / 2),
        .PollEvents, .Update 1, .Draw 1, .SwapBuffers, .PollEvents, .End] ∧
    (recordOf (RunLoop helloHost.recording false
      (helloApp 1 keyNWorld).recording 2)).countP Call.isUpdate = 2 ∧
    (recordOf (RunLoop helloHost.recording false
      (helloApp 1 keyNWorld).recording 2)).countP Call.isDraw ≤ 2 :=
  have hrun : RunLoop helloHost false (helloApp 1 keyNWorld) 2 =
      some (.returned EXIT_SUCCESS
        { world := (helloHost.End (loopBody helloHost 1 keyNState).world).2,
          prev_time_ := 1 / 2, curr_time_ := 1, accumlated_time := 0,
          calls := [.SetDimension 600 600, .Begin, .Resize 600 600, .Update (1 / 2),
            .PollEvents, .Update 1, .Draw 1, .SwapBuffers, .PollEvents, .End],
          iterations := 2 }) := by decide!
  ⟨hrun, by decide!,
    (update_every_iteration helloHost false (helloApp 1 keyNWorld) 2 _ hrun).2.2.2⟩

/-- C9: in every execution of `RunLoop` that returns, SetDimension, Begin and
Resize with the framebuffer dimensions are applied to the world in that order
before the clock is read and the loop entered, and End is applied to the world
the loop left; the calls the host records are SetDimension, Begin, Resize, then
loop calls only (Update, Draw, SwapBuffers, PollEvents), then End as the last
call; so the calls of the scene's five virtual functions are Begin once, Resize
once, then Update and Draw calls only, then End once.  When the loop test fails
at entry the run returns with no loop call at all. -/
theorem lifecycle_order {W : Type} (H : Host W) (NDEBUG : Bool) (app : GLFWApp W)
    (fuel : Nat) (status : Int) (st : LoopState W)
    (hrun : RunLoop H NDEBUG app fuel = some (.returned status st)) :
    status = EXIT_SUCCESS ∧
    RunLoop H.recording NDEBUG app.recording fuel = some (.returned status st.recorded) ∧
    (RunLoop.enter H app).world =
      (H.glfwGetTime (H.Resize (toSizeT app.fb_width_) (toSizeT app.fb_height_)
        (H.Begin (H.SetDimension (toSizeT app.fb_width_) (toSizeT app.fb_height_)
          app.world)).2).2).2 ∧
    (∃ st0, runWhile H NDEBUG app.fps_ fuel (RunLoop.enter H app) = some (.exited st0) ∧
      st.world = (H.End st0.world).2) ∧
    (∃ body, (∀ c ∈ body, c.inLoop = true) ∧
      st.calls = .SetDimension (toSizeT app.fb_width_) (toSizeT app.fb_height_) :: .Begin ::
        .Resize (toSizeT app.fb_width_) (toSizeT app.fb_height_) :: (body ++ [.End]) ∧
      st.calls.filter Call.isLifecycle = .Begin ::
        .Resize (toSizeT app.fb_width_) (toSizeT app.fb_height_) ::
          (body.filter Call.isLifecycle ++ [.End]) ∧
      (∀ c ∈ body.filter Call.isLifecycle, c.isUpdate = true ∨ c.isDraw = true)) ∧
    st.calls.count .Begin = 1 ∧
    st.calls.countP (fun c => match c with | .Resize _ _ => true | _ => false) = 1 ∧
    st.calls.count .End = 1 ∧
    st.calls.getLast? = some .End ∧
    (loopCond H (RunLoop.enter H app).world = false →
      st.calls = [.SetDimension (toSizeT app.fb_width_) (toSizeT app.fb_height_), .Begin,
        .Resize (toSizeT app.fb_width_) (toSizeT app.fb_height_), .End]) := by
  have hrec : RunLoop H.recording NDEBUG app.recording fuel =
      some (.returned status st.recorded) := by
    rw [RunLoop_recording, hrun]
    rfl
  have hend : ∃ st0, runWhile H NDEBUG app.fps_ fuel (RunLoop.enter H app) =
      some (.exited st0) ∧ st.world = (H.End st0.world).2 := by
    have h := hrun
    simp only [RunLoop, RunLoop.resume] at h
    split at h
    · cases h
    · cases h
    · next st1 hw =>
      cases h
      exact ⟨st1, hw, rfl⟩
  obtain ⟨body, hin, -, -, hshape⟩ := RunLoop_calls H NDEBUG app fuel _ hrun
  rcases hshape with ⟨st1, heq, hcalls⟩ | ⟨st1, heq, -⟩
  · cases heq
    obtain ⟨hb, he, hr, hl⟩ := inLoop_props body hin
    refine ⟨rfl, hrec, rfl, hend, ⟨body, hin, hcalls, ?_, hl⟩, ?_, ?_, ?_, ?_, ?_⟩
    · rw [hcalls]
      simp [List.filter_cons, List.filter_append, Call.isLifecycle]
    · rw [hcalls]
      simp [List.count_cons, List.count_append, hb]
    · rw [hcalls]
      simp [List.countP_cons, List.countP_append, hr]
    · rw [hcalls]
      simp [List.count_cons, List.count_append, he]
    · rw [hcalls, ← List.cons_append, ← List.cons_append, ← List.cons_append]
      exact List.getLast?_concat _
    · intro hcond
      have hw := runWhile_exit H NDEBUG app.fps_ fuel (RunLoop.enter H app) hcond
      simp only [RunLoop, RunLoop.resume, hw, Option.some.injEq, RunResult.returned.injEq] at hrun
      rw [← hrun.2]
      simp [RunLoop.enter]
  · cases heq

theorem lifecycle_order_witness :
    RunLoop helloHost false (helloApp 1 (scriptedWorld 0 [1 / 2, 1, 2])) 3 =
      some (.returned 0
        { world := (helloHost.End (scriptedLoopWorld 2 [])).2, prev_time_ := 1,
          curr_time_ := 2, accumlated_time := 0,
          calls := [.SetDimension 600 600, .Begin, .Resize 600 600, .Update (1 / 2),
            .PollEvents, .Update 1, .Draw 1, .SwapBuffers, .PollEvents, .Update 2, .Draw 2,
            .SwapBuffers, .PollEvents, .End],
          iterations := 3 }) ∧
    recordOf (RunLoop helloHost.recording false
        (helloApp 1 (scriptedWorld 0 [1 / 2, 1, 2])).recording 3) =
      [.SetDimension 600 600, .Begin, .Resize 600 600, .Update (1 / 2),
        .PollEvents, .Update 1, .Draw 1, .SwapBuffers, .PollEvents, .Update 2, .Draw 2,
        .SwapBuffers, .PollEvents, .End] ∧
    ([.SetDimension 600 600, .Begin, .Resize 600 600, .Update (1 / 2),
        .PollEvents, .Update 1, .Draw 1, .SwapBuffers, .PollEvents, .Update 2, .Draw 2,
        .SwapBuffers, .PollEvents, .End] : List Call).filter Call.isLifecycle =
      [.Begin, .Resize 600 600, .Update (1 / 2), .Update 1, .Draw 1, .Update 2, .Draw 2,
        .End] ∧
    ([.SetDimension 600 600, .Begin, .Resize 600 600, .Update (1 / 2),
        .PollEvents, .Update 1, .Draw 1, .SwapBuffers, .PollEvents, .Update 2, .Draw 2,
        .SwapBuffers, .PollEvents, .End] : List Call).count .Begin = 1 ∧
    ([.SetDimension 600 600, .Begin, .Resize 600 600, .Update (1 / 2),
        .PollEvents, .Update 1, .Draw 1, .SwapBuffers, .PollEvents, .Update 2, .Draw 2,
        .SwapBuffers, .PollEvents, .End] : List Call).count .End = 1 ∧
    ([.SetDimension 600 600, .Begin, .Resize 600 600, .Update (1 / 2),
        .PollEvents, .Update 1, .Draw 1, .SwapBuffers, .PollEvents, .Update 2, .Draw 2,
        .SwapBuffers, .PollEvents, .End] : List Call).getLast? = some .End :=
  have hrun : RunLoop helloHost false (helloApp 1 (scriptedWorld 0 [1 / 2, 1, 2])) 3 =
      some (.returned 0
        { world := (helloHost.End (scriptedLoopWorld 2 [])).2, prev_time_ := 1,
          curr_time_ := 2, accumlated_time := 0,
          calls := [.SetDimension 600 600, .Begin, .Resize 600 600, .Update (1 / 2),
            .PollEvents, .Update 1, .Draw 1, .SwapBuffers, .PollEvents, .Update 2, .Draw 2,
            .SwapBuffers, .PollEvents, .End],
          iterations := 3 }) := by decide!
  have h := lifecycle_order helloHost false (helloApp 1 (scriptedWorld 0 [1 / 2, 1, 2])) 3 0 _
    hrun
  ⟨hrun, by decide!, by decide!, h.2.2.2.2.2.1, h.2.2.2.2.2.2.2.1, h.2.2.2.2.2.2.2.2.1⟩

/-- C10, as stated, fails: in `keyNWorld` at rate 1 the second Update (time 1)
takes the key N from the queue and invalidates the scene, and Draw is still
called in that iteration, before the loop test sees the flag and End follows. -/
theorem draw_after_invalidation :
    helloHost.IsValid keyNState.world = true ∧
    helloHost.IsValid
      (helloHost.Update 1 (helloHost.glfwGetTime keyNState.world).2).2 = false ∧
    callsOf (RunLoop helloHost false (helloApp 1 keyNWorld) 2) =
      [.SetDimension 600 600, .Begin, .Resize 600 600, .Update (1 / 2), .PollEvents,
        .Update 1, .Draw 1, .SwapBuffers, .PollEvents, .End] := by
  refine ⟨by decide!, by decide!, by decide!⟩

/-- C10, amended: when the scene is invalid at a test of the loop condition,
`RunLoop` issues no further Update and no Draw, leaves the loop and calls End
once; an invalidation inside an iteration (such as the one HelloScene's Update
performs on key N) is seen at the next test only: that iteration runs to its
end, its Draw included when a frame is due, and then End follows. -/
theorem invalid_scene_ends_loop {W : Type} (H : Host W) (NDEBUG : Bool) (fps : Nat)
    (st : LoopState W) :
    (H.IsValid st.world = false → ∀ fuel,
      RunLoop.resume H NDEBUG fps fuel st = some (.returned EXIT_SUCCESS
        { st with world := (H.End st.world).2, calls := st.calls ++ [.End] })) ∧
    (loopCond H st.world = true → assertFails H NDEBUG st = false →
      H.IsValid (loopBody H fps (afterAssert H NDEBUG st)).world = false → ∀ fuel,
      ∃ st1, RunLoop.resume H NDEBUG fps (fuel + 1) st = some (.returned EXIT_SUCCESS st1) ∧
        st1.iterations = st.iterations + 1 ∧
        st1.calls = st.calls ++
          (if frameDue fps ((afterAssert H NDEBUG st).accumlated_time +
              ((H.glfwGetTime (afterAssert H NDEBUG st).world).1 -
                (afterAssert H NDEBUG st).curr_time_))
           then [.Update (H.glfwGetTime (afterAssert H NDEBUG st).world).1,
             .Draw (H.glfwGetTime (afterAssert H NDEBUG st).world).1, .SwapBuffers,
             .PollEvents]
           else [.Update (H.glfwGetTime (afterAssert H NDEBUG st).world).1, .PollEvents]) ++
          [.End]) := by
  have hexit : ∀ (s : LoopState W), H.IsValid s.world = false → ∀ fuel,
      RunLoop.resume H NDEBUG fps fuel s = some (.returned EXIT_SUCCESS
        { s with world := (H.End s.world).2, calls := s.calls ++ [.End] }) := by
    intro s hinv fuel
    have hcond : loopCond H s.world = false := by simp [loopCond, hinv]
    simp only [RunLoop.resume, runWhile_exit H NDEBUG fps fuel s hcond]
  refine ⟨hexit st, ?_⟩
  intro hcond hassert hinv fuel
  have hres := hexit (loopBody H fps (afterAssert H NDEBUG st)) hinv fuel
  obtain ⟨hc, hi, -⟩ := loopBody_calls H fps (afterAssert H NDEBUG st)
  refine ⟨{ loopBody H fps (afterAssert H NDEBUG st) with
      world := (H.End (loopBody H fps (afterAssert H NDEBUG st)).world).2,
      calls := (loopBody H fps (afterAssert H NDEBUG st)).calls ++ [.End] }, ?_, ?_, ?_⟩
  · simp only [RunLoop.resume] at hres ⊢
    rw [runWhile_step H NDEBUG fps fuel st hcond hassert]
    exact hres
  · simp only [hi, (afterAssert_fields H NDEBUG st).2.1]
  · simp only [hc, (afterAssert_fields H NDEBUG st).1]

theorem invalid_scene_ends_loop_witness :
    (helloHost.IsValid (loopBody helloHost 1 keyNState).world = false ∧
      RunLoop.resume helloHost false 1 0 (loopBody helloHost 1 keyNState) =
        some (.returned EXIT_SUCCESS
          { loopBody helloHost 1 keyNState with
            world := (helloHost.End (loopBody helloHost 1 keyNState).world).2,
            calls := (loopBody helloHost 1 keyNState).calls ++ [.End] })) ∧
    (loopCond helloHost keyNState.world = true ∧
      assertFails helloHost false keyNState = false ∧
      ∃ st1, RunLoop.resume helloHost false 1 (0 + 1) keyNState =
          some (.returned EXIT_SUCCESS st1) ∧
        st1.iterations = keyNState.iterations + 1 ∧
        st1.calls = keyNState.calls ++
          (if frameDue 1 ((afterAssert helloHost false keyNState).accumlated_time +
              ((helloHost.glfwGetTime (afterAssert helloHost false keyNState).world).1 -
                (afterAssert helloHost false keyNState).curr_time_))
           then [.Update (helloHost.glfwGetTime (afterAssert helloHost false keyNState).world).1,
             .Draw (helloHost.glfwGetTime (afterAssert helloHost false keyNState).world).1,
             .SwapBuffers, .PollEvents]
           else [.Update (helloHost.glfwGetTime (afterAssert helloHost false keyNState).world).1,
             .PollEvents]) ++
          [.End]) :=
  have h1 : helloHost.IsValid (loopBody helloHost 1 keyNState).world = false := by decide!
  have h2 : loopCond helloHost keyNState.world = true := by decide!
  have h3 : assertFails helloHost false keyNState = false := by decide!
  have h4 : helloHost.IsValid
      (loopBody helloHost 1 (afterAssert helloHost false keyNState)).world = false := by decide!
  ⟨⟨h1, (invalid_scene_ends_loop helloHost false 1 (loopBody helloHost 1 keyNState)).1 h1 0⟩,
    h2, h3, (invalid_scene_ends_loop helloHost false 1 keyNState).2 h2 h3 h4 0⟩

/-! ## Lemmas and theorems on return values, keyboard and scene flags -/

theorem loopBody_returning {W : Type} (H : Host W) (r : Call → W → Bool) (fps : Nat)
    (st : LoopState W) : loopBody (H.returning r) fps st = loopBody H fps st := rfl

theorem runWhile_returning {W : Type} (H : Host W) (r : Call → W → Bool) (NDEBUG : Bool)
    (fps : Nat) (fuel : Nat) : ∀ st : LoopState W,
    runWhile (H.returning r) NDEBUG fps fuel st = runWhile H NDEBUG fps fuel st := by
  induction fuel with
  | zero => intro st; rfl
  | succ fuel ih =>
    intro st
    have hc : loopCond (H.returning r) st.world = loopCond H st.world := rfl
    have ha : assertFails (H.returning r) NDEBUG st = assertFails H NDEBUG st := rfl
    have hs : afterAssert (H.returning r) NDEBUG st = afterAssert H NDEBUG st := rfl
    simp only [runWhile, hc, ha, hs, loopBody_returning, ih]

/-- C11: replacing the booleans that Begin, Resize, Update, Draw and End
return by any others (all failures included) changes neither what an iteration
does, nor the validity read, nor the run: same calls, same final world, same
number of iterations; so the loop goes on after an Update or a Draw that
returned failure exactly as after one that returned success. -/
theorem return_values_ignored {W : Type} (H : Host W) (r : Call → W → Bool) (NDEBUG : Bool)
    (app : GLFWApp W) (fuel : Nat) :
    RunLoop (H.returning r) NDEBUG app fuel = RunLoop H NDEBUG app fuel ∧
    (∀ w, (H.returning r).IsValid w = H.IsValid w) ∧
    (∀ t w, ((H.returning r).Update t w).2 = (H.Update t w).2 ∧
      ((H.returning r).Draw t w).2 = (H.Draw t w).2 ∧
      ((H.returning r).Update t w).1 = r (.Update t) w ∧
      ((H.returning r).Draw t w).1 = r (.Draw t) w) ∧
    (∀ st : LoopState W, loopBody (H.returning r) app.fps_ st = loopBody H app.fps_ st) ∧
    (∀ (st : LoopState W) (n : Nat),
      runWhile (H.returning alwaysFails) NDEBUG app.fps_ n st =
        runWhile H NDEBUG app.fps_ n st) := by
  refine ⟨?_, fun _ => rfl, fun _ _ => ⟨rfl, rfl, rfl, rfl⟩, fun _ => rfl, ?_⟩
  · have he : RunLoop.enter (H.returning r) app = RunLoop.enter H app := rfl
    simp only [RunLoop, RunLoop.resume, he, runWhile_returning]
    rfl
  · intro st n
    exact runWhile_returning H alwaysFails NDEBUG app.fps_ n st

theorem pushAll_events (es : List key_event_t) : ∀ k : Keyboard,
    k.pushAll es = { events_ := k.events_ ++ es } := by
  induction es with
  | nil => intro k; simp [Keyboard.pushAll]
  | cons e rest ih => intro k; simp [Keyboard.pushAll, ih, Keyboard.PushBack]

theorem popTimes_events (j : Nat) : ∀ l : List key_event_t, j ≤ l.length →
    Keyboard.popTimes j { events_ := l } = some (l.take j, { events_ := l.drop j }) := by
  induction j with
  | zero => intro l _; simp [Keyboard.popTimes]
  | succ j ih =>
    intro l hl
    cases l with
    | nil => simp at hl
    | cons e rest =>
      have hr : j ≤ rest.length := by simpa using hl
      simp [Keyboard.popTimes, Keyboard.PopFront, ih rest hr]

/-- C12: after PushBack of e1..en on an empty Keyboard, j successive PopFront
calls (j <= n) return e1..ej in that order, fields intact, and leave
e(j+1)..en queued; IsEmpty is then false for j < n and true for j = n. -/
theorem keyboard_fifo (es : List key_event_t) (j : Nat) (hj : j ≤ es.length) :
    Keyboard.popTimes j (Keyboard.new.pushAll es) =
      some (es.take j, { events_ := es.drop j }) ∧
    Keyboard.popTimes es.length (Keyboard.new.pushAll es) = some (es, { events_ := [] }) ∧
    (Keyboard.IsEmpty { events_ := es.drop j } = true ↔ j = es.length) := by
  have hp : Keyboard.new.pushAll es = { events_ := es } := by
    rw [pushAll_events]
    simp [Keyboard.new]
  refine ⟨?_, ?_, ?_⟩
  · rw [hp, popTimes_events j es hj]
  · rw [hp, popTimes_events es.length es le_rfl]
    simp
  · simp only [Keyboard.IsEmpty, List.isEmpty_eq_true, List.drop_eq_nil_iff]
    omega

theorem keyboard_fifo_witness :
    Keyboard.popTimes 1 (Keyboard.new.pushAll [⟨65, 30, 1, 0⟩, ⟨66, 31, 1, 0⟩]) =
      some ([⟨65, 30, 1, 0⟩], { events_ := [⟨66, 31, 1, 0⟩] }) ∧
    Keyboard.popTimes 2 (Keyboard.new.pushAll [⟨65, 30, 1, 0⟩, ⟨66, 31, 1, 0⟩]) =
      some ([⟨65, 30, 1, 0⟩, ⟨66, 31, 1, 0⟩], { events_ := [] }) ∧
    (Keyboard.IsEmpty { events_ := [⟨66, 31, 1, 0⟩] } = true ↔ 1 = 2) :=
  keyboard_fifo [⟨65, 30, 1, 0⟩, ⟨66, 31, 1, 0⟩] 1 (by decide)

/-- C13: ToggleAnimation once negates the animation flag, twice restores it
(and the whole Scene); a newly constructed Scene has the flag false. -/
theorem toggle_animation_round_trip (s : Scene) (name : String) (width height : Nat) :
    s.ToggleAnimation.ToggleAnimation.IsAnimated = s.IsAnimated ∧
    s.ToggleAnimation.ToggleAnimation = s ∧
    s.ToggleAnimation.IsAnimated = !s.IsAnimated ∧
    (Scene.new name width height).IsAnimated = false := by
  refine ⟨?_, ?_, rfl, rfl⟩
  · simp [Scene.ToggleAnimation, Scene.IsAnimated]
  · cases s
    simp [Scene.ToggleAnimation]

/-- C14: ToggleAnimation, SetDimension, SetMouse and SetKeyboard leave IsValid
unchanged (ToggleAnimation also name and dimensions); Invalidate makes IsValid
false and Validate true, each leaving animation flag and dimensions unchanged;
a newly constructed Scene is valid. -/
theorem validity_only_by_request (s : Scene) (name : String) (width height : Nat)
    (mouse keyboard : Option Nat) :
    s.ToggleAnimation.IsValid = s.IsValid ∧
    (s.SetDimension width height).IsValid = s.IsValid ∧
    (s.SetMouse mouse).IsValid = s.IsValid ∧
    (s.SetKeyboard keyboard).IsValid = s.IsValid ∧
    (s.ToggleAnimation.name_ = s.name_ ∧ s.ToggleAnimation.width = s.width ∧
      s.ToggleAnimation.height = s.height) ∧
    (s.Invalidate.IsValid = false ∧ s.Invalidate.IsAnimated = s.IsAnimated ∧
      s.Invalidate.width = s.width ∧ s.Invalidate.height = s.height) ∧
    (s.Validate.IsValid = true ∧ s.Validate.IsAnimated = s.IsAnimated ∧
      s.Validate.width = s.width ∧ s.Validate.height = s.height) ∧
    (Scene.new name width height).IsValid = true :=
  ⟨rfl, rfl, rfl, rfl, ⟨rfl, rfl, rfl⟩, ⟨rfl, rfl, rfl, rfl⟩, ⟨rfl, rfl, rfl, rfl⟩, rfl⟩

/-! ## Lemmas and theorems on shaders and programs -/

theorem embeds_middle (a b c : String) : embeds b (a ++ b ++ c) := by
  unfold embeds
  simp only [String.data_append]
  exact ⟨a.data, c.data, rfl⟩

theorem embeds_append_right (a b c : String) (h : embeds a b) : embeds a (b ++ c) := by
  unfold embeds at h ⊢
  obtain ⟨x, y, hxy⟩ := h
  refine ⟨x, y ++ c.data, ?_⟩
  simp only [String.data_append, ← hxy, List.append_assoc]

theorem create_path {G : Type} (A : GLApi G) (fs : FileSystem) (path : String)
    (type : shader_t) (s s1 : GLContext G) (sh : Shader)
    (h : Shader.create A fs path type s = (.ok sh, s1)) :
    sh.src_file_path_ = path ∧ sh.shader_type_ = type ∧ sh.id_ ≠ 0 := by
  unfold Shader.create at h
  simp only [] at h
  split at h
  · cases h
  · split at h
    · cases h
    · next hne =>
      simp only [Prod.mk.injEq, Except.ok.injEq] at h
      obtain ⟨rfl, -⟩ := h
      exact ⟨rfl, rfl, hne⟩

/-- C15: when the source path cannot be opened, the construction of a Shader
of either kind throws the load error, whose message names the path, and makes
no call to the graphics API: state and record of calls are those before it, so
no stage handle was created. -/
theorem shader_load_error {G : Type} (A : GLApi G) (fs : FileSystem) (cpp17 : Bool)
    (path : String) (type : shader_t) (s : GLContext G)
    (hload : (FileToString fs path "").1 = false) :
    Shader.new A fs cpp17 path type s = some (.error (Shader.loadMessage path), s) ∧
    thrown (Shader.new A fs cpp17 path type s) =
      some ("Could not open and load shader source path " ++ path ++ ".\n") ∧
    embeds path (Shader.loadMessage path) ∧
    callsAfter (Shader.new A fs cpp17 path type s) = s.calls ∧
    liveShaders (callsAfter (Shader.new A fs cpp17 path type s)) = liveShaders s.calls := by
  have hnew : Shader.new A fs cpp17 path type s = some (.error (Shader.loadMessage path), s) := by
    simp [Shader.new, Shader.create, hload]
  refine ⟨hnew, ?_, ?_, ?_, ?_⟩
  · rw [hnew]; rfl
  · exact embeds_middle _ _ _
  · rw [hnew]; rfl
  · rw [hnew]; rfl

theorem shader_load_error_witness :
    (FileToString triangleFiles "shaders/missing.glsl" "").1 = false ∧
    Shader.new refGL triangleFiles false "shaders/missing.glsl" .FRAGMENTSHADER rejectingStart =
      some (.error (Shader.loadMessage "shaders/missing.glsl"), rejectingStart) ∧
    thrown (Shader.new refGL triangleFiles false "shaders/missing.glsl" .FRAGMENTSHADER
        rejectingStart) =
      some ("Could not open and load shader source path " ++ "shaders/missing.glsl" ++ ".\n") ∧
    embeds "shaders/missing.glsl" (Shader.loadMessage "shaders/missing.glsl") ∧
    callsAfter (Shader.new refGL triangleFiles false "shaders/missing.glsl" .FRAGMENTSHADER
        rejectingStart) = rejectingStart.calls ∧
    liveShaders (callsAfter (Shader.new refGL triangleFiles false "shaders/missing.glsl"
        .FRAGMENTSHADER rejectingStart)) = liveShaders rejectingStart.calls :=
  ⟨by decide, shader_load_error refGL triangleFiles false "shaders/missing.glsl"
    .FRAGMENTSHADER rejectingStart (by decide)⟩

/-- What the constructor does once `CompileShader` is reached. -/
theorem new_of_create {G : Type} (A : GLApi G) (fs : FileSystem) (cpp17 : Bool)
    (path : String) (type : shader_t) (s s1 : GLContext G) (sh : Shader)
    (hcreate : Shader.create A fs path type s = (.ok sh, s1)) :
    ((Shader.CompileShader.status A sh s1).1 ≠ 0 →
      Shader.new A fs cpp17 path type s = some (.ok sh,
        { gl := (A.GLErrorCheck (Shader.CompileShader.status A sh s1).2.gl).2,
          calls := (Shader.CompileShader.status A sh s1).2.calls ++ [.GLErrorCheck] })) ∧
    (∀ log s2, (Shader.CompileShader.status A sh s1).1 = 0 →
      GetInfoLog A cpp17 sh.id_ (Shader.CompileShader.status A sh s1).2 = some (log, s2) →
      Shader.new A fs cpp17 path type s = some (.error (Shader.compileMessage path log), s2)) := by
  have hp := (create_path A fs path type s s1 sh hcreate).1
  constructor
  · intro hne
    simp only [Shader.new, hcreate, Shader.CompileShader, if_neg hne]
  · intro log s2 hz hlog
    simp only [Shader.new, hcreate, Shader.CompileShader, if_pos hz, hlog, hp]

/-- C16, as stated, fails: the message of the compile error is the same for a
vertex and a fragment stage of the same path and holds the name of neither
kind; here it holds no text of the compiler's diagnostic either. -/
theorem compile_message_without_kind :
    thrown (Shader.new refGL triangleFiles false "shaders/triangle.vert.glsl" .VERTEXSHADER
        rejectingStart) =
      some "Compilation failed for shader shaders/triangle.vert.glsl.\nInfo Log:\n[Info log is zero length.]\n" ∧
    thrown (Shader.new refGL triangleFiles false "shaders/triangle.vert.glsl" .FRAGMENTSHADER
        rejectingStart) =
      some "Compilation failed for shader shaders/triangle.vert.glsl.\nInfo Log:\n[Info log is zero length.]\n" ∧
    ¬ embeds (ShaderTypeToString .VERTEXSHADER)
      "Compilation failed for shader shaders/triangle.vert.glsl.\nInfo Log:\n[Info log is zero length.]\n" ∧
    ¬ embeds (ShaderTypeToString .FRAGMENTSHADER)
      "Compilation failed for shader shaders/triangle.vert.glsl.\nInfo Log:\n[Info log is zero length.]\n" ∧
    ¬ embeds "0:1: syntax error"
      "Compilation failed for shader shaders/triangle.vert.glsl.\nInfo Log:\n[Info log is zero length.]\n" := by
  refine ⟨by decide!, by decide!, by decide!, by decide!, by decide!⟩

/-- C16, amended: when the source is loaded, a handle obtained and the compile
status read is 0, the construction throws a GLSLException whose message is
"Compilation failed for shader", the path, "Info Log:" and the text GetInfoLog
returned: it embeds the path and that text, and is made of nothing that
depends on the declared stage kind. -/
theorem compile_error_message {G : Type} (A : GLApi G) (fs : FileSystem) (cpp17 : Bool)
    (path : String) (type : shader_t) (s s1 s2 : GLContext G) (sh : Shader) (log : String)
    (hcreate : Shader.create A fs path type s = (.ok sh, s1))
    (hstatus : (Shader.CompileShader.status A sh s1).1 = 0)
    (hlog : GetInfoLog A cpp17 sh.id_ (Shader.CompileShader.status A sh s1).2 = some (log, s2)) :
    Shader.new A fs cpp17 path type s = some (.error (Shader.compileMessage path log), s2) ∧
    Shader.compileMessage path log =
      "Compilation failed for shader " ++ path ++ ".\nInfo Log:\n" ++ log ++ "\n" ∧
    embeds path (Shader.compileMessage path log) ∧
    embeds log (Shader.compileMessage path log) := by
  refine ⟨(new_of_create A fs cpp17 path type s s1 sh hcreate).2 log s2 hstatus hlog, rfl, ?_, ?_⟩
  · unfold Shader.compileMessage
    exact embeds_append_right _ _ _ (embeds_append_right _ _ _ (embeds_middle _ _ _))
  · unfold Shader.compileMessage
    exact embeds_middle _ _ _

theorem compile_error_message_witness :
    Shader.new refGL triangleFiles false "shaders/triangle.frag.glsl" .FRAGMENTSHADER
        rejectingStart =
      some (.error (Shader.compileMessage "shaders/triangle.frag.glsl"
        "[Info log is zero length.]"),
        { gl := (refGL.glGetProgramiv 1 GL_INFO_LOG_LENGTH
            (Shader.CompileShader.status refGL
              ⟨"shaders/triangle.frag.glsl", .FRAGMENTSHADER, 1, "out vec4 color; void main();"⟩
              (Shader.create refGL triangleFiles "shaders/triangle.frag.glsl" .FRAGMENTSHADER
                rejectingStart).2).2.gl).2,
          calls := (Shader.CompileShader.status refGL
              ⟨"shaders/triangle.frag.glsl", .FRAGMENTSHADER, 1, "out vec4 color; void main();"⟩
              (Shader.create refGL triangleFiles "shaders/triangle.frag.glsl" .FRAGMENTSHADER
                rejectingStart).2).2.calls ++ [.glGetProgramiv 1 GL_INFO_LOG_LENGTH] }) ∧
    Shader.compileMessage "shaders/triangle.frag.glsl" "[Info log is zero length.]" =
      "Compilation failed for shader " ++ "shaders/triangle.frag.glsl" ++ ".\nInfo Log:\n" ++
        "[Info log is zero length.]" ++ "\n" ∧
    embeds "shaders/triangle.frag.glsl"
      (Shader.compileMessage "shaders/triangle.frag.glsl" "[Info log is zero length.]") ∧
    embeds "[Info log is zero length.]"
      (Shader.compileMessage "shaders/triangle.frag.glsl" "[Info log is zero length.]") :=
  compile_error_message refGL triangleFiles false "shaders/triangle.frag.glsl" .FRAGMENTSHADER
    rejectingStart
    (Shader.create refGL triangleFiles "shaders/triangle.frag.glsl" .FRAGMENTSHADER
      rejectingStart).2 _
    ⟨"shaders/triangle.frag.glsl", .FRAGMENTSHADER, 1, "out vec4 color; void main();"⟩
    "[Info log is zero length.]" (by decide!) (by decide!) (by decide!)

theorem create_calls {G : Type} (A : GLApi G) (fs : FileSystem) (path : String)
    (type : shader_t) (s s1 : GLContext G) (r : Except String Shader)
    (h : Shader.create A fs path type s = (r, s1)) :
    s1.calls.countP GLCall.isCompile = s.calls.countP GLCall.isCompile := by
  unfold Shader.create at h
  simp only [] at h
  split at h
  · cases h
    rfl
  · split at h
    · cases h
      simp [List.countP_append, List.countP_cons, GLCall.isCompile]
    · cases h
      simp [List.countP_append, List.countP_cons, GLCall.isCompile]

theorem GetInfoLog_calls {G : Type} (A : GLApi G) (cpp17 : Bool) (id : Nat) (s s1 : GLContext G)
    (log : String) (h : GetInfoLog A cpp17 id s = some (log, s1)) :
    s1.calls.countP GLCall.isCompile = s.calls.countP GLCall.isCompile := by
  unfold GetInfoLog at h
  simp only [] at h
  split at h
  · split at h
    · split at h
      · cases h
        simp [List.countP_append, List.countP_cons, GLCall.isCompile]
      · split at h
        · cases h
          simp [List.countP_append, List.countP_cons, GLCall.isCompile]
        · cases h
    · cases h
      simp [List.countP_append, List.countP_cons, GLCall.isCompile]
  · cases h
    simp [List.countP_append, List.countP_cons, GLCall.isCompile]

theorem status_calls {G : Type} (A : GLApi G) (sh : Shader) (s : GLContext G) :
    (Shader.CompileShader.status A sh s).2.calls.countP GLCall.isCompile =
      s.calls.countP GLCall.isCompile + 1 ∧
    (Shader.CompileShader.status A sh s).1 = (Shader.CompileShader.answer A sh s).getD (-1) := by
  refine ⟨?_, rfl⟩
  simp [Shader.CompileShader.status, List.countP_append, List.countP_cons, GLCall.isCompile]

/-- What the constructor does when the status read is 0 and reading the log is
undefined. -/
theorem new_of_create_undefined {G : Type} (A : GLApi G) (fs : FileSystem) (cpp17 : Bool)
    (path : String) (type : shader_t) (s s1 : GLContext G) (sh : Shader)
    (hcreate : Shader.create A fs path type s = (.ok sh, s1))
    (hz : (Shader.CompileShader.status A sh s1).1 = 0)
    (hlog : GetInfoLog A cpp17 sh.id_ (Shader.CompileShader.status A sh s1).2 = none) :
    Shader.new A fs cpp17 path type s = none := by
  simp only [Shader.new, hcreate, Shader.CompileShader, if_pos hz, hlog]

/-- C17: when the source is loaded and a handle obtained, and the graphics API
answers the query of the compile status with GL_FALSE or GL_TRUE (0 or 1, the
two values OpenGL defines for it), the constructor returns normally exactly
when the answer is 1, with CompileShader having returned true; on the answer 0
no Shader is returned: the constructor throws the compile error, with whatever
log GetInfoLog gives.  However the construction ends, `glCompileShader` has
been called once in it; a construction that throws before, on the load or on
the handle, has not called it. -/
theorem shader_constructed_only_on_success {G : Type} (A : GLApi G) (fs : FileSystem)
    (cpp17 : Bool) (path : String) (type : shader_t) (s : GLContext G) :
    (∀ (sh : Shader) (s1 : GLContext G), Shader.create A fs path type s = (.ok sh, s1) →
      (Shader.CompileShader.answer A sh s1 = some 0 ∨
        Shader.CompileShader.answer A sh s1 = some 1) →
      ((∃ s2, Shader.new A fs cpp17 path type s = some (.ok sh, s2)) ↔
        Shader.CompileShader.answer A sh s1 = some 1) ∧
      (∀ sh1 s2, Shader.new A fs cpp17 path type s = some (.ok sh1, s2) →
        sh1 = sh ∧ Shader.CompileShader.answer A sh s1 = some 1 ∧
        returned (sh.CompileShader A cpp17 s1) = some true) ∧
      (Shader.CompileShader.answer A sh s1 = some 0 →
        returned (Shader.new A fs cpp17 path type s) = none ∧
        returned (sh.CompileShader A cpp17 s1) = none ∧
        ∀ log s2,
          GetInfoLog A cpp17 sh.id_ (Shader.CompileShader.status A sh s1).2 = some (log, s2) →
          Shader.new A fs cpp17 path type s =
            some (.error (Shader.compileMessage path log), s2)) ∧
      (∀ r s2, Shader.new A fs cpp17 path type s = some (r, s2) →
        s2.calls.countP GLCall.isCompile = s.calls.countP GLCall.isCompile + 1)) ∧
    (∀ (msg : String) (s1 : GLContext G), Shader.create A fs path type s = (.error msg, s1) →
      Shader.new A fs cpp17 path type s = some (.error msg, s1) ∧
      s1.calls.countP GLCall.isCompile = s.calls.countP GLCall.isCompile) := by
  refine ⟨?_, ?_⟩
  · intro sh s1 hcreate hanswer
    obtain ⟨hok, herr⟩ := new_of_create A fs cpp17 path type s s1 sh hcreate
    obtain ⟨hcount, hstatus⟩ := status_calls A sh s1
    have hcreated := create_calls A fs path type s s1 _ hcreate
    have hone : Shader.CompileShader.answer A sh s1 = some 1 →
        (Shader.CompileShader.status A sh s1).1 = 1 := by
      intro h
      rw [hstatus, h]
      rfl
    have hzero : Shader.CompileShader.answer A sh s1 = some 0 →
        (Shader.CompileShader.status A sh s1).1 = 0 := by
      intro h
      rw [hstatus, h]
      rfl
    have hthrows : Shader.CompileShader.answer A sh s1 = some 0 →
        ∀ sh1 s2, Shader.new A fs cpp17 path type s ≠ some (.ok sh1, s2) := by
      intro h0 sh1 s2 hnew
      cases hlog : GetInfoLog A cpp17 sh.id_ (Shader.CompileShader.status A sh s1).2 with
      | none =>
        rw [new_of_create_undefined A fs cpp17 path type s s1 sh hcreate (hzero h0) hlog] at hnew
        cases hnew
      | some r =>
        rw [herr r.1 r.2 (hzero h0) hlog] at hnew
        cases hnew
    have hreturns : ∀ sh1 s2, Shader.new A fs cpp17 path type s = some (.ok sh1, s2) →
        sh1 = sh ∧ Shader.CompileShader.answer A sh s1 = some 1 := by
      intro sh1 s2 hnew
      rcases hanswer with h0 | h1
      · exact absurd hnew (hthrows h0 sh1 s2)
      · rw [hok (by rw [hone h1]; decide)] at hnew
        simp only [Option.some.injEq, Prod.mk.injEq, Except.ok.injEq] at hnew
        exact ⟨hnew.1.symm, h1⟩
    refine ⟨⟨?_, ?_⟩, ?_, ?_, ?_⟩
    · rintro ⟨s2, hnew⟩
      exact (hreturns sh s2 hnew).2
    · intro h1
      exact ⟨_, hok (by rw [hone h1]; decide)⟩
    · intro sh1 s2 hnew
      obtain ⟨heq, h1⟩ := hreturns sh1 s2 hnew
      refine ⟨heq, h1, ?_⟩
      simp [returned, Shader.CompileShader, hone h1]
    · intro h0
      refine ⟨?_, ?_, fun log s2 hlog => herr log s2 (hzero h0) hlog⟩
      · cases hnew : Shader.new A fs cpp17 path type s with
        | none => rfl
        | some r =>
          obtain ⟨e, s2⟩ := r
          cases e with
          | error msg => rfl
          | ok sh1 => exact absurd hnew (hthrows h0 sh1 s2)
      · simp only [Shader.CompileShader, if_pos (hzero h0)]
        cases GetInfoLog A cpp17 sh.id_ (Shader.CompileShader.status A sh s1).2 with
        | none => rfl
        | some r => rfl
    · intro r s2 hnew
      rcases hanswer with h0 | h1
      · cases hlog : GetInfoLog A cpp17 sh.id_ (Shader.CompileShader.status A sh s1).2 with
        | none =>
          rw [new_of_create_undefined A fs cpp17 path type s s1 sh hcreate (hzero h0) hlog]
            at hnew
          cases hnew
        | some l =>
          rw [herr l.1 l.2 (hzero h0) hlog] at hnew
          cases hnew
          rw [GetInfoLog_calls A cpp17 sh.id_ _ _ _ hlog, hcount, hcreated]
      · rw [hok (by rw [hone h1]; decide)] at hnew
        cases hnew
        simp only [List.countP_append, hcount, hcreated]
        simp [List.countP_cons, GLCall.isCompile]
  · intro msg s1 hcreate
    refine ⟨?_, create_calls A fs path type s s1 _ hcreate⟩
    simp only [Shader.new, hcreate]

theorem shader_constructed_only_on_success_witness :
    (Shader.CompileShader.answer refGL
        ⟨"shaders/triangle.vert.glsl", .VERTEXSHADER, 1, "in vec4 position; void main();"⟩
        (Shader.create refGL triangleFiles "shaders/triangle.vert.glsl" .VERTEXSHADER
          (RefGL.start true "" true "" [])).2 = some 1 ∧
      returned (Shader.new refGL triangleFiles false "shaders/triangle.vert.glsl" .VERTEXSHADER
        (RefGL.start true "" true "" [])) =
        some ⟨"shaders/triangle.vert.glsl", .VERTEXSHADER, 1, "in vec4 position; void main();"⟩ ∧
      ∃ s2, Shader.new refGL triangleFiles false "shaders/triangle.vert.glsl" .VERTEXSHADER
        (RefGL.start true "" true "" []) =
        some (.ok ⟨"shaders/triangle.vert.glsl", .VERTEXSHADER, 1,
          "in vec4 position; void main();"⟩, s2)) ∧
    (Shader.CompileShader.answer refGL
        ⟨"shaders/triangle.vert.glsl", .VERTEXSHADER, 1, "in vec4 position; void main();"⟩
        (Shader.create refGL triangleFiles "shaders/triangle.vert.glsl" .VERTEXSHADER
          rejectingStart).2 = some 0 ∧
      returned (Shader.new refGL triangleFiles false "shaders/triangle.vert.glsl" .VERTEXSHADER
        rejectingStart) = none ∧
      thrown (Shader.new refGL triangleFiles false "shaders/triangle.vert.glsl" .VERTEXSHADER
        rejectingStart) =
        some "Compilation failed for shader shaders/triangle.vert.glsl.\nInfo Log:\n[Info log is zero length.]\n") :=
  have h1 : Shader.CompileShader.answer refGL
      ⟨"shaders/triangle.vert.glsl", .VERTEXSHADER, 1, "in vec4 position; void main();"⟩
      (Shader.create refGL triangleFiles "shaders/triangle.vert.glsl" .VERTEXSHADER
        (RefGL.start true "" true "" [])).2 = some 1 := by decide!
  have h0 : Shader.CompileShader.answer refGL
      ⟨"shaders/triangle.vert.glsl", .VERTEXSHADER, 1, "in vec4 position; void main();"⟩
      (Shader.create refGL triangleFiles "shaders/triangle.vert.glsl" .VERTEXSHADER
        rejectingStart).2 = some 0 := by decide!
  ⟨⟨h1, by decide!,
      (((shader_constructed_only_on_success refGL triangleFiles false
        "shaders/triangle.vert.glsl" .VERTEXSHADER (RefGL.start true "" true "" [])).1
        ⟨"shaders/triangle.vert.glsl", .VERTEXSHADER, 1, "in vec4 position; void main();"⟩ _
        (by decide!) (Or.inr h1)).1).2 h1⟩,
    h0,
    ((((shader_constructed_only_on_success refGL triangleFiles false
        "shaders/triangle.vert.glsl" .VERTEXSHADER rejectingStart).1
        ⟨"shaders/triangle.vert.glsl", .VERTEXSHADER, 1, "in vec4 position; void main();"⟩ _
        (by decide!) (Or.inl h0)).2.2.1) h0).1,
    by decide!⟩

/-- Outside the two values OpenGL defines for the compile status: with an API
whose status query writes nothing (it raises an error and `compiled_ok` stays
-1), `CompileShader` returns false, the constructor drops that value and
returns normally. -/
theorem shader_exists_without_success :
    (Shader.create failingQueryGL triangleFiles "shaders/triangle.vert.glsl" .VERTEXSHADER
        rejectingStart).1 =
      .ok ⟨"shaders/triangle.vert.glsl", .VERTEXSHADER, 1, "in vec4 position; void main();"⟩ ∧
    (Shader.CompileShader.status failingQueryGL
        ⟨"shaders/triangle.vert.glsl", .VERTEXSHADER, 1, "in vec4 position; void main();"⟩
        (Shader.create failingQueryGL triangleFiles "shaders/triangle.vert.glsl" .VERTEXSHADER
          rejectingStart).2).1 = -1 ∧
    returned (Shader.CompileShader failingQueryGL false
        ⟨"shaders/triangle.vert.glsl", .VERTEXSHADER, 1, "in vec4 position; void main();"⟩
        (Shader.create failingQueryGL triangleFiles "shaders/triangle.vert.glsl" .VERTEXSHADER
          rejectingStart).2) = some false ∧
    returned (Shader.new failingQueryGL triangleFiles false "shaders/triangle.vert.glsl"
        .VERTEXSHADER rejectingStart) =
      some ⟨"shaders/triangle.vert.glsl", .VERTEXSHADER, 1, "in vec4 position; void main();"⟩ ∧
    thrown (Shader.new failingQueryGL triangleFiles false "shaders/triangle.vert.glsl"
        .VERTEXSHADER rejectingStart) = none := by
  refine ⟨by decide!, by decide!, by decide!, by decide!, by decide!⟩

/-- C18 fails on the code: when the compilation of a loaded source fails, the
constructor throws with the handle `glCreateShader` gave (1) still alive:
`glDeleteShader` is not called, on that handle or any other, and no destructor
runs for the object that was never constructed. -/
theorem handle_leaks_on_compile_failure :
    thrown (Shader.new refGL triangleFiles false "shaders/triangle.vert.glsl" .VERTEXSHADER
        rejectingStart) =
      some "Compilation failed for shader shaders/triangle.vert.glsl.\nInfo Log:\n[Info log is zero length.]\n" ∧
    callsAfter (Shader.new refGL triangleFiles false "shaders/triangle.vert.glsl" .VERTEXSHADER
        rejectingStart) =
      [.glCreateShader GL_VERTEX_SHADER 1, .GLErrorCheck,
        .glShaderSource 1 "in vec4 position; void main();" 30, .glCompileShader 1,
        .GLErrorCheck, .glGetShaderiv 1 GL_COMPILE_STATUS, .GLErrorCheck,
        .glGetProgramiv 1 GL_INFO_LOG_LENGTH] ∧
    liveShaders rejectingStart.calls = [] ∧
    liveShaders (callsAfter (Shader.new refGL triangleFiles false "shaders/triangle.vert.glsl"
        .VERTEXSHADER rejectingStart)) = [1] ∧
    deletedShaders (callsAfter (Shader.new refGL triangleFiles false
        "shaders/triangle.vert.glsl" .VERTEXSHADER rejectingStart)) = [] := by
  refine ⟨by decide!, by decide!, by decide!, by decide!, by decide!⟩

/-- The two ways `Link` ends: it throws when the status read is 0 and leaves
the program as it was, it sets `linked_` otherwise; a new program is not
linked. -/
theorem Link_outcome {G : Type} (A : GLApi G) (cpp17 : Bool) (p : GLSLProgram)
    (s : GLContext G) :
    (∀ log s1, (GLSLProgram.Link.status A p s).1 = 0 →
      GetInfoLog A cpp17 p.id_ (GLSLProgram.Link.status A p s).2 = some (log, s1) →
      p.Link A cpp17 s = some (.error (GLSLProgram.linkMessage log), s1) ∧
      GLSLProgram.afterLink p (p.Link A cpp17 s) = p) ∧
    ((GLSLProgram.Link.status A p s).1 ≠ 0 →
      p.Link A cpp17 s = some (.ok { p with linked_ := true }, (GLSLProgram.Link.status A p s).2) ∧
      (GLSLProgram.afterLink p (p.Link A cpp17 s)).linked_ = true) ∧
    (∀ p0 s0, GLSLProgram.new A s = (.ok p0, s0) → p0.linked_ = false) := by
  refine ⟨?_, ?_, ?_⟩
  · intro log s1 hz hlog
    have h : p.Link A cpp17 s = some (.error (GLSLProgram.linkMessage log), s1) := by
      simp only [GLSLProgram.Link, if_pos hz, hlog]
    exact ⟨h, by rw [h]; rfl⟩
  · intro hne
    have h : p.Link A cpp17 s =
        some (.ok { p with linked_ := true }, (GLSLProgram.Link.status A p s).2) := by
      simp only [GLSLProgram.Link, if_neg hne]
    exact ⟨h, by rw [h]; rfl⟩
  · intro p0 s0 h
    unfold GLSLProgram.new at h
    simp only [] at h
    split at h
    · cases h
    · simp only [Prod.mk.injEq, Except.ok.injEq] at h
      obtain ⟨rfl, -⟩ := h
      rfl

/-- From C++17 on the message `Link` throws holds no log at all, whatever the
graphics API does. -/
theorem Link_message_cpp17 {G : Type} (A : GLApi G) (p : GLSLProgram) (s : GLContext G)
    (msg : String) (h : thrown (p.Link A true s) = some msg) :
    msg = GLSLProgram.linkMessage "" ∨
    msg = GLSLProgram.linkMessage "[Info log is zero length.]" := by
  unfold GLSLProgram.Link at h
  simp only [] at h
  split at h
  · split at h
    · simp [thrown] at h
    · next log s1 hlog =>
      simp only [thrown, Option.some.injEq] at h
      subst h
      unfold GetInfoLog at hlog
      simp only [if_true] at hlog
      split at hlog
      · split at hlog
        · simp only [Option.some.injEq, Prod.mk.injEq] at hlog
          exact Or.inl (by rw [← hlog.1])
        · split at hlog
          · simp only [Option.some.injEq, Prod.mk.injEq] at hlog
            exact Or.inl (by rw [← hlog.1])
          · cases hlog
      · simp only [Option.some.injEq, Prod.mk.injEq] at hlog
        exact Or.inr (by rw [← hlog.1])
  · simp [thrown] at h

/-- C19 fails on the code: a program whose link fails with the diagnostic
"error: no main" (the API reports its length, 15 with the NUL) has `Link` throw
a message that holds none of it: `GetInfoLog` asks for the log of a shader
under the name of the program, so nothing is written; the message holds 15 NUL
characters before C++17 and an empty log from C++17 on.  The linked flag stays
false. -/
theorem link_message_without_log :
    GLSLProgram.new refGL failedLinkStart =
      (.ok ⟨1, false, []⟩, (GLSLProgram.new refGL failedLinkStart).2) ∧
    (GLSLProgram.Link.status refGL ⟨1, false, []⟩ (GLSLProgram.new refGL failedLinkStart).2).1
      = 0 ∧
    (refGL.glGetProgramiv 1 GL_INFO_LOG_LENGTH
      (GLSLProgram.Link.status refGL ⟨1, false, []⟩
        (GLSLProgram.new refGL failedLinkStart).2).2.gl).1 = some 15 ∧
    thrown (GLSLProgram.Link refGL false ⟨1, false, []⟩ (GLSLProgram.new refGL failedLinkStart).2)
      = some ("Linking failed.\nInfo Log:\n" ++ logVector "" 15 ++ "\n") ∧
    thrown (GLSLProgram.Link refGL true ⟨1, false, []⟩ (GLSLProgram.new refGL failedLinkStart).2)
      = some "Linking failed.\nInfo Log:\n\n" ∧
    ¬ embeds "error: no main" ("Linking failed.\nInfo Log:\n" ++ logVector "" 15 ++ "\n") ∧
    ¬ embeds "error: no main" "Linking failed.\nInfo Log:\n\n" ∧
    (GLSLProgram.afterLink ⟨1, false, []⟩
      (GLSLProgram.Link refGL false ⟨1, false, []⟩
        (GLSLProgram.new refGL failedLinkStart).2)).linked_ = false := by
  refine ⟨by decide!, by decide!, by decide!, by decide!, by decide!, by decide!, by decide!,
    by decide!⟩

/-- C20, as stated, fails: after the second Link the cache still holds the
entry recorded before it, and GetUniformLocation for that name returns the
location from before the link, 3, without a query, while the API now has the
uniform at 5. -/
theorem relink_keeps_stale_location :
    relinkLookup false = some ([("mvp", 3)], 3, 0, 5) ∧
    relinkLookup true = some ([("mvp", 3)], 3, 0, 5) := by
  refine ⟨by decide!, by decide!⟩

/-- C20, amended: Link leaves the uniform cache as it is, whether it returns or
throws; every entry recorded before a Link is in the cache after it, and
GetUniformLocation for a cached name then returns the location from before the
link without a query to the graphics API. -/
theorem link_keeps_uniform_cache {G : Type} (A : GLApi G) (cpp17 : Bool) (p : GLSLProgram)
    (s : GLContext G) :
    (GLSLProgram.afterLink p (p.Link A cpp17 s)).uniform_locations_ = p.uniform_locations_ ∧
    (∀ p1 s1 name loc, p.Link A cpp17 s = some (.ok p1, s1) →
      p.uniform_locations_.find name = some loc →
      p1.uniform_locations_.find name = some loc ∧
      p1.GetUniformLocation A name s1 = (loc, p1, s1)) := by
  have hcache : ∀ p1 s1, p.Link A cpp17 s = some (.ok p1, s1) →
      p1.uniform_locations_ = p.uniform_locations_ := by
    intro p1 s1 h
    unfold GLSLProgram.Link at h
    simp only [] at h
    split at h
    · split at h
      · cases h
      · cases h
    · simp only [Option.some.injEq, Prod.mk.injEq, Except.ok.injEq] at h
      obtain ⟨rfl, -⟩ := h
      rfl
  constructor
  · cases hl : p.Link A cpp17 s with
    | none => rfl
    | some r =>
      obtain ⟨e, s1⟩ := r
      cases e with
      | error msg => rfl
      | ok p1 => exact hcache p1 s1 hl
  · intro p1 s1 name loc hl hfind
    have hc := hcache p1 s1 hl
    have hf : p1.uniform_locations_.find name = some loc := by rw [hc]; exact hfind
    refine ⟨hf, ?_⟩
    simp only [GLSLProgram.GetUniformLocation, hf]

theorem link_keeps_uniform_cache_witness :
    (GLSLProgram.afterLink ⟨1, true, [("mvp", 3)]⟩
      (GLSLProgram.Link refGL false ⟨1, true, [("mvp", 3)]⟩
        (GLSLProgram.new refGL (RefGL.start true "" true "" [("mvp", 5)])).2)).uniform_locations_
      = [("mvp", 3)] ∧
    UniformMap.find [("mvp", 3)] "mvp" = some 3 ∧
    GLSLProgram.GetUniformLocation refGL ⟨1, true, [("mvp", 3)]⟩ "mvp"
        (GLSLProgram.Link.status refGL ⟨1, true, [("mvp", 3)]⟩
          (GLSLProgram.new refGL (RefGL.start true "" true "" [("mvp", 5)])).2).2 =
      (3, ⟨1, true, [("mvp", 3)]⟩,
        (GLSLProgram.Link.status refGL ⟨1, true, [("mvp", 3)]⟩
          (GLSLProgram.new refGL (RefGL.start true "" true "" [("mvp", 5)])).2).2) :=
  have h := link_keeps_uniform_cache refGL false ⟨1, true, [("mvp", 3)]⟩
    (GLSLProgram.new refGL (RefGL.start true "" true "" [("mvp", 5)])).2
  have hl : GLSLProgram.Link refGL false ⟨1, true, [("mvp", 3)]⟩
      (GLSLProgram.new refGL (RefGL.start true "" true "" [("mvp", 5)])).2 =
      some (.ok ⟨1, true, [("mvp", 3)]⟩,
        (GLSLProgram.Link.status refGL ⟨1, true, [("mvp", 3)]⟩
          (GLSLProgram.new refGL (RefGL.start true "" true "" [("mvp", 5)])).2).2) := by decide!
  ⟨h.1, by decide, (h.2 _ _ "mvp" 3 hl (by decide)).2⟩

/-! ## Lemmas and theorems on the error check and on activation -/

/-- The loop of the error check over a state whose pending errors are a queue
read by `errs` and written by `set`. -/
theorem drain_loop {G : Type} (glGetError : G → GLenum × G) (errs : G → ErrorQueue)
    (set : ErrorQueue → G → G)
    (hget : ∀ g, glGetError g =
      ((ErrorQueue.glGetError (errs g)).1, set (ErrorQueue.glGetError (errs g)).2 g))
    (herrs : ∀ q g, errs (set q g) = q) (hset : ∀ q1 q2 g, set q1 (set q2 g) = set q1 g)
    (filename : String) (line : Int) :
    ∀ (q : ErrorQueue) (fuel : Nat) (err : GLenum) (r : ErrorCheck G),
      errs r.gl = q → err ≠ GL_NO_ERROR → (∀ e ∈ q, e ≠ GL_NO_ERROR) → q.length + 1 ≤ fuel →
      _GLErrorCheck.loop glGetError filename line fuel err r =
        some { ret := true, gl := set [] r.gl,
               glGetErrorCalls := r.glGetErrorCalls + q.length + 1,
               out := r.out ++ (err :: q).map (errorLine filename line) } := by
  intro q
  induction q with
  | nil =>
    intro fuel err r hr herr _ hfuel
    obtain ⟨k, rfl⟩ : ∃ k, fuel = k + 1 := ⟨fuel - 1, by simp at hfuel; omega⟩
    simp only [_GLErrorCheck.loop, herr, ne_eq, not_false_eq_true, if_true, hget, hr,
      ErrorQueue.glGetError]
    cases k <;> simp [_GLErrorCheck.loop]
  | cons e rest ih =>
    intro fuel err r hr herr hq hfuel
    obtain ⟨k, rfl⟩ : ∃ k, fuel = k + 1 := ⟨fuel - 1, by simp at hfuel; omega⟩
    have he : e ≠ GL_NO_ERROR := hq e (List.mem_cons_self _ _)
    have hrest : ∀ x ∈ rest, x ≠ GL_NO_ERROR := fun x hx => hq x (List.mem_cons_of_mem _ hx)
    simp only [_GLErrorCheck.loop, herr, ne_eq, not_false_eq_true, if_true, hget, hr,
      ErrorQueue.glGetError]
    rw [ih k e _ (herrs _ _) he hrest (by simp at hfuel ⊢; omega)]
    simp only [hset, List.length_cons, List.map_cons, List.append_assoc, List.singleton_append,
      Option.some.injEq, ErrorCheck.mk.injEq, true_and, and_true]
    omega

/-- The error check over a state whose pending errors are a queue. -/
theorem drain_spec {G : Type} (glGetError : G → GLenum × G) (errs : G → ErrorQueue)
    (set : ErrorQueue → G → G)
    (hget : ∀ g, glGetError g =
      ((ErrorQueue.glGetError (errs g)).1, set (ErrorQueue.glGetError (errs g)).2 g))
    (herrs : ∀ q g, errs (set q g) = q) (hset : ∀ q1 q2 g, set q1 (set q2 g) = set q1 g)
    (filename : String) (line : Int) (g : G) (fuel : Nat)
    (hq : ∀ e ∈ errs g, e ≠ GL_NO_ERROR) (hfuel : (errs g).length ≤ fuel) :
    _GLErrorCheck glGetError filename line fuel g =
      some { ret := decide (1 ≤ (errs g).length), gl := set [] g,
             glGetErrorCalls := (errs g).length + 1,
             out := (errs g).map (errorLine filename line) } := by
  cases hg : errs g with
  | nil =>
    simp only [_GLErrorCheck, hget, hg, ErrorQueue.glGetError]
    cases fuel <;> simp [_GLErrorCheck.loop]
  | cons e rest =>
    rw [hg] at hq hfuel
    have he : e ≠ GL_NO_ERROR := hq e (List.mem_cons_self _ _)
    have hrest : ∀ x ∈ rest, x ≠ GL_NO_ERROR := fun x hx => hq x (List.mem_cons_of_mem _ hx)
    simp only [_GLErrorCheck, hget, hg, ErrorQueue.glGetError]
    rw [drain_loop glGetError errs set hget herrs hset filename line rest fuel e _
      (herrs _ _) he hrest (by simpa using hfuel)]
    simp only [hset, List.length_cons, List.map_cons, List.nil_append, Option.some.injEq,
      ErrorCheck.mk.injEq, and_true, true_and]
    constructor
    · simp
    · omega

/-- C27: on a pending-error queue of m error codes (none of them GL_NO_ERROR),
whatever the codes, `_GLErrorCheck` returns once given room for m executions
of its loop, after exactly m + 1 calls of glGetError, with the queue empty and
one line written per error; it returns true exactly when m >= 1. -/
theorem error_check_drains (filename : String) (line : Int) (q : ErrorQueue)
    (hq : ∀ e ∈ q, e ≠ GL_NO_ERROR) (fuel : Nat) (hfuel : q.length ≤ fuel) :
    _GLErrorCheck ErrorQueue.glGetError filename line fuel q =
      some { ret := decide (1 ≤ q.length), gl := [], glGetErrorCalls := q.length + 1,
             out := q.map (errorLine filename line) } :=
  drain_spec ErrorQueue.glGetError id (fun q _ => q) (fun _ => rfl) (fun _ _ => rfl)
    (fun _ _ _ => rfl) filename line q fuel hq hfuel

theorem error_check_drains_witness :
    _GLErrorCheck ErrorQueue.glGetError "src/hello_scene.h" 69 3 [1282, 99, 1285] =
      some { ret := decide (1 ≤ [1282, 99, 1285].length), gl := [],
             glGetErrorCalls := [1282, 99, 1285].length + 1,
             out := [1282, 99, 1285].map (errorLine "src/hello_scene.h" 69) } :=
  error_check_drains "src/hello_scene.h" 69 [1282, 99, 1285] (by decide) 3 (by decide)

/-- The error check of `RefGL` is the drain of its pending errors by
`_GLErrorCheck`. -/
theorem refGL_check_is_drain (filename : String) (line : Int) (g : RefGL) (fuel : Nat)
    (hq : ∀ e ∈ g.errors, e ≠ GL_NO_ERROR) (hfuel : g.errors.length ≤ fuel) :
    (_GLErrorCheck RefGL.glGetError filename line fuel g).map (fun r => (r.ret, r.gl)) =
      some (refGL.GLErrorCheck g) := by
  rw [drain_spec RefGL.glGetError RefGL.errors (fun q g => { g with errors := q })
    (fun _ => rfl) (fun _ _ => rfl) (fun _ _ _ => rfl) filename line g fuel hq hfuel]
  simp only [Option.map_some', refGL, RefGL.GLErrorCheck, Option.some.injEq, Prod.mk.injEq,
    and_true]
  cases g.errors <;> simp

/-- C24: Activate runs the ActivateUniforms hook first, then drains the pending
errors, then calls glUseProgram with the program's own handle, then drains
again; it returns true exactly when that last drain finds no pending error,
that is, in `RefGL`, when glUseProgram left no error pending. -/
theorem activate_order_and_result {G : Type} (A : GLProgramApi G) (hook : GLSLProgram.UniformsHook G)
    (p : GLSLProgram) (s : GLContext G) :
    (p.Activate A hook s).2.2.calls =
      (hook p s).2.2.calls ++ [.GLErrorCheck, .glUseProgram p.id_, .GLErrorCheck] ∧
    (p.Activate A hook s).2.2.gl =
      (A.GLErrorCheck (A.glUseProgram p.id_ (A.GLErrorCheck (hook p s).2.2.gl).2)).2 ∧
    (p.Activate A hook s).2.1 = (hook p s).2.1 ∧
    ((p.Activate A hook s).1 = true ↔
      (A.GLErrorCheck (A.glUseProgram p.id_ (A.GLErrorCheck (hook p s).2.2.gl).2)).1 = false) ∧
    (∀ (hookR : GLSLProgram.UniformsHook RefGL) (sR : GLContext RefGL),
      ((p.Activate refProgramGL hookR sR).1 = true ↔
        (RefGL.glUseProgram p.id_ { (hookR p sR).2.2.gl with errors := [] }).errors = []) ∧
      ((p.Activate refProgramGL hookR sR).1 = false ↔
        (RefGL.glUseProgram p.id_ { (hookR p sR).2.2.gl with errors := [] }).errors ≠ [])) := by
  refine ⟨rfl, rfl, rfl, ?_, ?_⟩
  · simp [GLSLProgram.Activate]
  · intro hookR sR
    simp [GLSLProgram.Activate, refProgramGL, refGL, RefGL.GLErrorCheck]

/-- Two runs of Activate in `RefGL`: a linked program is made current and true
is returned; for a program never linked glUseProgram raises an error and false
is returned. -/
theorem activate_examples :
    (GLSLProgram.Activate refProgramGL GLSLProgram.baseHook ⟨1, true, []⟩ linkedStart).1 = true ∧
    (GLSLProgram.Activate refProgramGL GLSLProgram.baseHook ⟨1, true, []⟩ linkedStart).2.2.gl.current_program
      = 1 ∧
    (GLSLProgram.Activate refProgramGL GLSLProgram.baseHook ⟨1, false, []⟩ unlinkedStart).1 = false ∧
    (GLSLProgram.Activate refProgramGL GLSLProgram.baseHook ⟨1, false, []⟩ unlinkedStart).2.2.calls =
      [.GLErrorCheck, .glUseProgram 1, .GLErrorCheck] := by
  refine ⟨by decide!, by decide!, by decide!, by decide!⟩

/-! ## Lemmas and theorems on the uniform cache -/

theorem lookup_cons_eq (x k : String) (v : Int) (rest : List (String × Int)) :
    List.lookup x ((k, v) :: rest) = if x = k then some v else List.lookup x rest := by
  by_cases h : x = k
  · subst h; simp [List.lookup]
  · have hb : (x == k) = false := by simpa using h
    simp [List.lookup, hb, h]

theorem lookup_replace (name : String) (loc : Int) (x : String) (m : List (String × Int)) :
    List.lookup x (m.map fun e => if e.1 = name then (name, loc) else e) =
      if x = name then (List.lookup name m).map (fun _ => loc) else List.lookup x m := by
  induction m with
  | nil => simp [List.lookup]
  | cons e rest ih =>
    obtain ⟨k, v⟩ := e
    rw [List.map_cons]
    by_cases hk : k = name
    · subst hk
      rw [show (if (k, v).1 = k then (k, loc) else (k, v)) = (k, loc) from if_pos rfl]
      rw [lookup_cons_eq, lookup_cons_eq, lookup_cons_eq, ih]
      by_cases hx : x = k <;> simp [hx]
    · rw [show (if (k, v).1 = name then (name, loc) else (k, v)) = (k, v) from if_neg hk]
      rw [lookup_cons_eq, lookup_cons_eq, lookup_cons_eq, ih]
      by_cases hx : x = k
      · subst hx; simp [hk]
      · by_cases hn : x = name
        · subst hn
          have : ¬ x = k := hx
          simp [this]
        · simp [hx, hn]

theorem lookup_append_single (x name : String) (loc : Int) (m : List (String × Int)) :
    List.lookup x (m ++ [(name, loc)]) =
      (List.lookup x m).or (if x = name then some loc else none) := by
  induction m with
  | nil => rw [List.nil_append, lookup_cons_eq]; simp [List.lookup]
  | cons e rest ih =>
    obtain ⟨k, v⟩ := e
    rw [List.cons_append, lookup_cons_eq, lookup_cons_eq, ih]
    by_cases hx : x = k <;> simp [hx]

theorem find_assign_self (m : UniformMap) (name : String) (loc : Int) :
    (m.assign name loc).find name = some loc := by
  unfold UniformMap.assign UniformMap.find
  split
  · next h =>
    rw [lookup_replace]
    obtain ⟨v, hv⟩ := Option.isSome_iff_exists.mp h
    simp [hv]
  · next h =>
    rw [lookup_append_single]
    have hn : List.lookup name m = none := by
      cases hl : List.lookup name m with
      | none => rfl
      | some v => simp [hl] at h
    simp [hn]

theorem find_assign_other (m : UniformMap) (name other : String) (loc : Int)
    (hne : other ≠ name) : (m.assign name loc).find other = m.find other := by
  unfold UniformMap.assign UniformMap.find
  split
  · rw [lookup_replace]; simp [hne]
  · rw [lookup_append_single]; simp [hne]
/-- A lookup of a cached name returns the cached location and makes no call. -/
theorem lookup_hit {G : Type} (A : GLApi G) (p : GLSLProgram) (name : String) (loc : Int)
    (s : GLContext G) (h : p.uniform_locations_.find name = some loc) :
    p.GetUniformLocation A name s = (loc, p, s) := by
  simp only [GLSLProgram.GetUniformLocation, h]

/-- A lookup keeps what the cache holds. -/
theorem lookup_keeps {G : Type} (A : GLApi G) (p : GLSLProgram) (name other : String)
    (loc : Int) (s : GLContext G) (h : p.uniform_locations_.find other = some loc) :
    (p.GetUniformLocation A name s).2.1.uniform_locations_.find other = some loc := by
  unfold GLSLProgram.GetUniformLocation
  split
  · next hmiss =>
    have hne : other ≠ name := by
      intro heq
      rw [heq, hmiss] at h
      cases h
    simp only []
    rw [find_assign_other _ _ _ _ hne]
    exact h
  · exact h

theorem lookupAll_keeps {G : Type} (A : GLApi G) (names : List String) :
    ∀ (p : GLSLProgram) (s : GLContext G) (other : String) (loc : Int),
    p.uniform_locations_.find other = some loc →
    (GLSLProgram.lookupAll A names p s).1.uniform_locations_.find other = some loc := by
  induction names with
  | nil => intro p s other loc h; exact h
  | cons n rest ih =>
    intro p s other loc h
    exact ih _ _ other loc (lookup_keeps A p n other loc s h)

/-- C21: for a name not in the cache, GetUniformLocation makes one query of the
graphics API, returns its answer, whatever it is (-1 included), and stores it
under the name, leaving the entries of other names as they were; after any
further lookups, a lookup of the name returns the stored value and makes no
query. -/
theorem memoize_on_first_miss {G : Type} (A : GLApi G) (p : GLSLProgram) (name : String)
    (s : GLContext G) (hmiss : p.uniform_locations_.find name = none) :
    (p.GetUniformLocation A name s).1 = (A.glGetUniformLocation p.id_ name s.gl).1 ∧
    (p.GetUniformLocation A name s).2.2.calls = s.calls ++ [.glGetUniformLocation p.id_ name] ∧
    (p.GetUniformLocation A name s).2.2.gl = (A.glGetUniformLocation p.id_ name s.gl).2 ∧
    (p.GetUniformLocation A name s).2.1.uniform_locations_.find name =
      some (A.glGetUniformLocation p.id_ name s.gl).1 ∧
    (∀ other, other ≠ name →
      (p.GetUniformLocation A name s).2.1.uniform_locations_.find other =
        p.uniform_locations_.find other) ∧
    (∀ (names : List String) (s2 : GLContext G),
      GLSLProgram.GetUniformLocation A
        (GLSLProgram.lookupAll A names (p.GetUniformLocation A name s).2.1 s2).1 name
        (GLSLProgram.lookupAll A names (p.GetUniformLocation A name s).2.1 s2).2 =
      ((A.glGetUniformLocation p.id_ name s.gl).1,
        (GLSLProgram.lookupAll A names (p.GetUniformLocation A name s).2.1 s2).1,
        (GLSLProgram.lookupAll A names (p.GetUniformLocation A name s).2.1 s2).2)) := by
  have hfirst : p.GetUniformLocation A name s =
      ((A.glGetUniformLocation p.id_ name s.gl).1,
        { p with uniform_locations_ :=
            p.uniform_locations_.assign name (A.glGetUniformLocation p.id_ name s.gl).1 },
        { gl := (A.glGetUniformLocation p.id_ name s.gl).2,
          calls := s.calls ++ [.glGetUniformLocation p.id_ name] }) := by
    simp only [GLSLProgram.GetUniformLocation, hmiss]
  have hstored : (p.GetUniformLocation A name s).2.1.uniform_locations_.find name =
      some (A.glGetUniformLocation p.id_ name s.gl).1 := by
    rw [hfirst]
    exact find_assign_self _ _ _
  refine ⟨by rw [hfirst], by rw [hfirst], by rw [hfirst], hstored, ?_, ?_⟩
  · intro other hne
    rw [hfirst]
    exact find_assign_other _ _ _ _ hne
  · intro names s2
    exact lookup_hit A _ name _ _ (lookupAll_keeps A names _ s2 name _ hstored)

theorem memoize_on_first_miss_witness :
    (GLSLProgram.GetUniformLocation refGL ⟨1, true, []⟩ "fog" linkedStart).1 =
      (refGL.glGetUniformLocation 1 "fog" linkedStart.gl).1 ∧
    (refGL.glGetUniformLocation 1 "fog" linkedStart.gl).1 = -1 ∧
    (GLSLProgram.GetUniformLocation refGL ⟨1, true, []⟩ "fog" linkedStart).2.1.uniform_locations_
      = [("fog", -1)] ∧
    GLSLProgram.GetUniformLocation refGL ⟨1, true, [("fog", -1)]⟩ "fog"
        (GLSLProgram.GetUniformLocation refGL ⟨1, true, []⟩ "fog" linkedStart).2.2 =
      (-1, ⟨1, true, [("fog", -1)]⟩,
        (GLSLProgram.GetUniformLocation refGL ⟨1, true, []⟩ "fog" linkedStart).2.2) :=
  have h := memoize_on_first_miss refGL ⟨1, true, []⟩ "fog" linkedStart (by decide)
  ⟨h.1, by decide!, by decide!,
    h.2.2.2.2.2 [] (GLSLProgram.GetUniformLocation refGL ⟨1, true, []⟩ "fog" linkedStart).2.2⟩

theorem lookup_map_pair (loc : String → Int) (names : List String) (x : String) :
    List.lookup x (names.map fun n => (n, loc n)) = if x ∈ names then some (loc x) else none := by
  induction names with
  | nil => simp [List.lookup]
  | cons n rest ih =>
    rw [List.map_cons, lookup_cons_eq, ih]
    by_cases hx : x = n
    · subst hx; simp
    · simp [hx]

/-- The loop of FindUniformLocations when the API names the uniforms `names` in
turn and resolves them by `loc`, in every state that `Inv` holds of. -/
theorem find_loop {G : Type} (A : GLProgramApi G) (id : Nat) (L : Int) (Inv : G → Prop)
    (names : List String) (loc : String → Int)
    (hname : ∀ g i n, Inv g → names[i]? = some n →
      (A.glGetActiveUniform id i L g).1 = some n ∧ Inv (A.glGetActiveUniform id i L g).2)
    (hloc : ∀ g n, Inv g → n ∈ names →
      (A.glGetUniformLocation id n g).1 = loc n ∧ Inv (A.glGetUniformLocation id n g).2)
    (hdistinct : names.Nodup) :
    ∀ (rest done : List String) (buf : Option String) (s : GLContext G),
      names = done ++ rest → Inv s.gl →
      ∃ s1, GLSLProgram.FindUniformLocations.loop A id L rest.length done.length buf
          (done.map fun n => (n, loc n)) s = some (names.map (fun n => (n, loc n)), s1) ∧
        Inv s1.gl := by
  intro rest
  induction rest with
  | nil =>
    intro done buf s hn hinv
    refine ⟨s, ?_, hinv⟩
    simp only [List.append_nil] at hn
    simp [GLSLProgram.FindUniformLocations.loop, hn]
  | cons n rest ih =>
    intro done buf s hn hinv
    have hget : names[done.length]? = some n := by
      rw [hn, List.getElem?_append_right (le_refl _)]
      simp
    have hmem : n ∈ names := by rw [hn]; simp
    have hnot : n ∉ done := by
      rw [hn] at hdistinct
      have := (List.nodup_append.mp hdistinct).2.2
      intro hin
      exact this hin (List.mem_cons_self _ _)
    obtain ⟨hr, hinv1⟩ := hname s.gl done.length n hinv hget
    obtain ⟨hq, hinv2⟩ := hloc (A.glGetActiveUniform id done.length L s.gl).2 n hinv1 hmem
    have hassign : UniformMap.assign (done.map fun n => (n, loc n)) n (loc n) =
        (done ++ [n]).map fun n => (n, loc n) := by
      unfold UniformMap.assign
      rw [lookup_map_pair]
      simp [hnot]
    obtain ⟨s1, hs1, hinv3⟩ := ih (done ++ [n]) (some n)
      { gl := (A.glGetUniformLocation id n (A.glGetActiveUniform id done.length L s.gl).2).2,
        calls := s.calls ++ [.glGetActiveUniform id done.length L, .glGetUniformLocation id n] }
      (by rw [hn]; simp) hinv2
    refine ⟨s1, ?_, hinv3⟩
    have hor : (some n <|> buf) = some n := rfl
    simp only [List.length_append, List.length_singleton] at hs1
    simp only [List.length_cons, GLSLProgram.FindUniformLocations.loop, hr, hor, hq, hassign]
    exact hs1

/-- C22: when the graphics API reports, for the program, k active uniforms with
pairwise distinct names and a non-negative maximal name length, names uniform i
as the i-th of them and resolves each name to a location, FindUniformLocations
returns with a cache of exactly k entries, one per name with that location;
nothing else is in the cache, whatever it held before; a lookup of one of the
names then returns the cached location and makes no query. -/
theorem find_uniform_locations {G : Type} (A : GLProgramApi G) (p : GLSLProgram)
    (s : GLContext G) (Inv : G → Prop) (names : List String) (loc : String → Int) (L : Int)
    (hinv : Inv s.gl) (hL : 0 ≤ L) (hk : names.length < 2 ^ 31)
    (hmax : ∀ g, Inv g →
      (A.glGetProgramiv p.id_ GL_ACTIVE_UNIFORM_MAX_LENGTH g).1 = some L ∧
      Inv (A.glGetProgramiv p.id_ GL_ACTIVE_UNIFORM_MAX_LENGTH g).2)
    (hnum : ∀ g, Inv g →
      (A.glGetProgramiv p.id_ GL_ACTIVE_UNIFORMS g).1 = some (names.length : Int) ∧
      Inv (A.glGetProgramiv p.id_ GL_ACTIVE_UNIFORMS g).2)
    (hname : ∀ g i n, Inv g → names[i]? = some n →
      (A.glGetActiveUniform p.id_ i L g).1 = some n ∧ Inv (A.glGetActiveUniform p.id_ i L g).2)
    (hloc : ∀ g n, Inv g → n ∈ names →
      (A.glGetUniformLocation p.id_ n g).1 = loc n ∧ Inv (A.glGetUniformLocation p.id_ n g).2)
    (hdistinct : names.Nodup) :
    ∃ p1 s1, p.FindUniformLocations A s = some (.ok p1, s1) ∧
      p1.id_ = p.id_ ∧ p1.linked_ = p.linked_ ∧
      p1.uniform_locations_ = names.map (fun n => (n, loc n)) ∧
      p1.uniform_locations_.length = names.length ∧
      (∀ n, n ∈ names → p1.uniform_locations_.find n = some (loc n)) ∧
      (∀ n, n ∉ names → p1.uniform_locations_.find n = none) ∧
      (∀ n s2, n ∈ names → p1.GetUniformLocation A.toGLApi n s2 = (loc n, p1, s2)) := by
  obtain ⟨hq1, hinv1⟩ := hmax s.gl hinv
  obtain ⟨hq2, hinv2⟩ := hnum _ hinv1
  have hcount : GLSLProgram.toGLuint (names.length : Int) = names.length := by
    unfold GLSLProgram.toGLuint
    omega
  obtain ⟨s1, hloop, -⟩ := find_loop A p.id_ L Inv names loc hname hloc hdistinct names []
    none
    { gl := (A.glGetProgramiv p.id_ GL_ACTIVE_UNIFORMS
        (A.glGetProgramiv p.id_ GL_ACTIVE_UNIFORM_MAX_LENGTH s.gl).2).2,
      calls := s.calls ++ [.glGetProgramiv p.id_ GL_ACTIVE_UNIFORM_MAX_LENGTH,
        .glGetProgramiv p.id_ GL_ACTIVE_UNIFORMS] }
    (by simp) hinv2
  have hfind : ∀ n, UniformMap.find (names.map fun n => (n, loc n)) n =
      if n ∈ names then some (loc n) else none := fun n => lookup_map_pair loc names n
  refine ⟨{ p with uniform_locations_ := names.map fun n => (n, loc n) }, s1, ?_, rfl, rfl, rfl,
    by simp, ?_, ?_, ?_⟩
  · simp only [List.map_nil, List.length_nil] at hloop
    simp only [GLSLProgram.FindUniformLocations, hq1, hq2, Option.getD_some, hcount, hloop,
      not_lt.mpr hL, if_false]
  · intro n hn
    simp only [hfind, hn, if_true]
  · intro n hn
    simp only [hfind, hn, if_false]
  · intro n s2 hn
    exact lookup_hit A.toGLApi _ n _ s2 (by simp only [hfind, hn, if_true])

theorem find_uniform_locations_witness :
    ∃ p1 s1, GLSLProgram.FindUniformLocations refProgramGL ⟨1, true, [("old", 9)]⟩ linkedStart =
        some (.ok p1, s1) ∧
      p1.id_ = 1 ∧ p1.linked_ = true ∧
      p1.uniform_locations_ = ["mvp", "color"].map (fun n => (n, linkedLocation n)) ∧
      p1.uniform_locations_.length = ["mvp", "color"].length ∧
      (∀ n, n ∈ ["mvp", "color"] → p1.uniform_locations_.find n = some (linkedLocation n)) ∧
      (∀ n, n ∉ ["mvp", "color"] → p1.uniform_locations_.find n = none) ∧
      (∀ n s2, n ∈ ["mvp", "color"] →
        p1.GetUniformLocation refProgramGL.toGLApi n s2 = (linkedLocation n, p1, s2)) :=
  find_uniform_locations refProgramGL ⟨1, true, [("old", 9)]⟩ linkedStart
    (fun g => g = linkedStart.gl) ["mvp", "color"] linkedLocation 6 rfl (by decide) (by decide)
    (by intro g hg; subst hg; exact ⟨by decide!, by decide!⟩)
    (by intro g hg; subst hg; exact ⟨by decide!, by decide!⟩)
    (by
      intro g i n hg hi
      subst hg
      rcases i with _ | _ | i
      · simp at hi; subst hi; exact ⟨by decide!, by decide!⟩
      · simp at hi; subst hi; exact ⟨by decide!, by decide!⟩
      · simp at hi)
    (by
      intro g n hg hn
      subst hg
      simp at hn
      rcases hn with rfl | rfl
      · exact ⟨by decide!, by decide!⟩
      · exact ⟨by decide!, by decide!⟩)
    (by decide)

/-! ## Lemmas and theorems on destruction and on Run -/

/-- The loop of DetachAll ends at the first Detach that succeeds. -/
theorem DetachAll_stops {G : Type} (A : GLProgramApi G) (p : GLSLProgram) (shaders : List Nat)
    (todo i shader_id : Nat) (s : GLContext G) (hget : shaders[i]? = some shader_id)
    (hok : (p.Detach A shader_id s).1 = true) :
    GLSLProgram.DetachAll.loop A p shaders (todo + 1) i s =
      some (false, (p.Detach A shader_id s).2) := by
  simp only [GLSLProgram.DetachAll.loop, hget, hok, if_true]

/-- C23 fails on the code: the program of `HelloScene`, handle 1, loaded with
the two stages 2 and 3 attached and no error pending, is destroyed with one
detach only, of stage 2; stage 3 is still attached when glDeleteProgram is
called.  It is so when the link succeeded and when it failed. -/
theorem destructor_detaches_one_stage :
    destroyLoaded true =
      some (1, true, [2, 3],
        [.glGetAttachedShaders 1 32, .glDetachShader 1 2, .GLErrorCheck, .glDeleteProgram 1],
        [3]) ∧
    destroyLoaded false =
      some (1, false, [2, 3],
        [.glGetAttachedShaders 1 32, .glDetachShader 1 2, .GLErrorCheck, .glDeleteProgram 1],
        [3]) := by
  refine ⟨by decide!, by decide!⟩

theorem inner_exit {M X : Type} (H : AppHost M X) (NDEBUG : Bool) (a fuel : Nat) (n : Nat) :
    ∀ (status status1 : Int) (st st1 : GLFWAppRun M X),
    GLFWAppRun.Run.inner H NDEBUG a fuel n status st = some (.returned status1 st1) →
    GLFWAppRun.innerCond H st1 a = false := by
  induction n with
  | zero =>
    intro status status1 st st1 h
    simp only [GLFWAppRun.Run.inner] at h
    split at h
    · cases h
    · next hc =>
      cases h
      simpa using hc
  | succ n ih =>
    intro status status1 st st1 h
    simp only [GLFWAppRun.Run.inner] at h
    split at h
    · split at h
      · cases h
      · cases h
      · exact ih _ _ _ _ h
    · next hc =>
      cases h
      simpa using hc

theorem outerCond_scene {M X : Type} (H : AppHost M X) (st : GLFWAppRun M X)
    (h : GLFWAppRun.outerCond H st = true) :
    H.glfwWindowShouldClose st.app.world = false ∧
    ∃ a, st.scene_ = some a ∧ (st.app.world.heap a).IsValid = true := by
  unfold GLFWAppRun.outerCond at h
  cases hs : st.scene_ with
  | none => simp [hs] at h
  | some a =>
    simp only [hs, Bool.and_eq_true, beq_iff_eq] at h
    exact ⟨h.1, a, rfl, h.2⟩

theorem outer_exit {M X : Type} (H : AppHost M X) (Mgr : ManagerOps M X) (NDEBUG : Bool)
    (fuel : Nat) (n : Nat) :
    ∀ (status status1 : Int) (st st1 : GLFWAppRun M X),
    GLFWAppRun.Run.outer H Mgr NDEBUG fuel n status st = some (.returned status1 st1) →
    GLFWAppRun.outerCond H st1 = false := by
  induction n with
  | zero =>
    intro status status1 st st1 h
    simp only [GLFWAppRun.Run.outer] at h
    split at h
    · cases h
    · next hc =>
      cases h
      simpa using hc
  | succ n ih =>
    intro status status1 st st1 h
    simp only [GLFWAppRun.Run.outer] at h
    split at h
    · next hc =>
      obtain ⟨-, a, ha, -⟩ := outerCond_scene H st hc
      simp only [ha] at h
      split at h
      · cases h
      · cases h
      · split at h
        · cases h
        · exact ih _ _ _ _ h
    · next hc =>
      cases h
      simpa using hc

/-- The scene `Next` of the circular manager hands out has been validated. -/
theorem circular_Next_valid {X : Type} (w w1 : SceneWorld CircularQueueSceneManager X)
    (scene : ScenePtr) (h : (circularQueue : ManagerOps _ X).Next w = some (scene, w1)) :
    w1.ext = w.ext ∧ ∃ a, scene = some a ∧ (w1.heap a).IsValid = true := by
  simp only [circularQueue] at h
  split at h
  · cases h
  · next sc m heap hn =>
    simp only [Option.some.injEq, Prod.mk.injEq] at h
    obtain ⟨rfl, rfl⟩ := h
    refine ⟨rfl, ?_⟩
    unfold CircularQueueSceneManager.Next at hn
    split at hn
    · cases hn
    · simp only [] at hn
      split at hn
      · cases hn
      · next a _ =>
        simp only [Option.some.injEq, Prod.mk.injEq] at hn
        obtain ⟨rfl, -, rfl⟩ := hn
        exact ⟨a, rfl, by simp [Scene.IsValid, Scene.Validate]⟩

theorem outer_closed {X : Type} (H : AppHost CircularQueueSceneManager X) (NDEBUG : Bool)
    (fuel : Nat) (n : Nat) :
    ∀ (status status1 : Int) (st st1 : GLFWAppRun CircularQueueSceneManager X),
    (H.glfwWindowShouldClose st.app.world = true ∨
      ∃ a, st.scene_ = some a ∧ (st.app.world.heap a).IsValid = true) →
    GLFWAppRun.Run.outer H circularQueue NDEBUG fuel n status st = some (.returned status1 st1) →
    H.glfwWindowShouldClose st1.app.world = true := by
  have hstop : ∀ st : GLFWAppRun CircularQueueSceneManager X,
      (H.glfwWindowShouldClose st.app.world = true ∨
        ∃ a, st.scene_ = some a ∧ (st.app.world.heap a).IsValid = true) →
      GLFWAppRun.outerCond H st = false → H.glfwWindowShouldClose st.app.world = true := by
    intro st hP hc
    rcases hP with hcl | ⟨a, ha, hv⟩
    · exact hcl
    · cases hcl : H.glfwWindowShouldClose st.app.world with
      | true => rfl
      | false => simp [GLFWAppRun.outerCond, ha, hv, hcl] at hc
  induction n with
  | zero =>
    intro status status1 st st1 hP h
    simp only [GLFWAppRun.Run.outer] at h
    split at h
    · cases h
    · next hc =>
      cases h
      exact hstop _ hP (by simpa using hc)
  | succ n ih =>
    intro status status1 st st1 hP h
    simp only [GLFWAppRun.Run.outer] at h
    split at h
    · next hc =>
      obtain ⟨-, a, ha, -⟩ := outerCond_scene H st hc
      simp only [ha] at h
      split at h
      · cases h
      · cases h
      · split at h
        · cases h
        · next st2 hi scene w hnext =>
          obtain ⟨-, b, hb, hvalid⟩ := circular_Next_valid _ _ _ hnext
          exact ih _ _ _ _ (Or.inr ⟨b, hb, hvalid⟩) h
    · next hc =>
      cases h
      exact hstop _ hP (by simpa using hc)

theorem summary_returned {M : Type} (r : Option (AppResult M SimWindow))
    (x : RunSummary) (h : runSummary r = some x) :
    ∃ status st, r = some (.returned status st) := by
  cases r with
  | none => simp [runSummary] at h
  | some res =>
    cases res with
    | returned status st => exact ⟨status, st, rfl⟩
    | assertFailed st => simp [runSummary] at h

theorem RunScene_returned {M X : Type} (H : AppHost M X) (NDEBUG : Bool) (st : GLFWAppRun M X)
    (a fuel : Nat) (status : Int) (st1 : GLFWAppRun M X)
    (h : GLFWAppRun.RunScene H NDEBUG st (some a) fuel = some (.returned status st1)) :
    ∃ ls, RunLoop (H.hostOf a) NDEBUG (({ st with scene_ := some a } : GLFWAppRun M X).attach a).app
      fuel = some (.returned status ls) := by
  simp only [GLFWAppRun.RunScene, GLFWAppRun.runLoop] at h
  split at h
  · cases h
  · next status1 ls hr =>
    cases h
    exact ⟨ls, hr⟩
  · cases h

/-- C26: `Run(scene)` with a null scene returns EXIT_FAILURE, with no call on
any scene and no call of RunLoop.  With a scene at address `a`, the scene is
made the active one and carries the mouse and keyboard of the application when
RunLoop starts; when that one call of RunLoop returns, Run returns
EXIT_SUCCESS, the scene at `a` still active, RunLoop called once, and the calls
issued are those of that RunLoop, all on the scene at `a`. -/
theorem run_scene_result {M X : Type} (H : AppHost M X) (NDEBUG : Bool) (st : GLFWAppRun M X)
    (fuel : Nat) :
    (∃ st1, GLFWAppRun.RunScene H NDEBUG st none fuel = some (.returned EXIT_FAILURE st1) ∧
      st1.scene_ = none ∧ st1.calls = st.calls ∧ st1.loops = st.loops ∧ st1.app = st.app) ∧
    (∀ a : Nat,
      (({ st with scene_ := some a } : GLFWAppRun M X).attach a).scene_ = some a ∧
      (((({ st with scene_ := some a } : GLFWAppRun M X).attach a).app.world.heap a).mouse =
        some st.mouse) ∧
      (((({ st with scene_ := some a } : GLFWAppRun M X).attach a).app.world.heap a).keyboard =
        some st.keyboard) ∧
      ∀ (status : Int) (ls : LoopState (SceneWorld M X)),
        RunLoop (H.hostOf a) NDEBUG (({ st with scene_ := some a } : GLFWAppRun M X).attach a).app
          fuel = some (.returned status ls) →
        ∃ st1, GLFWAppRun.RunScene H NDEBUG st (some a) fuel =
            some (.returned EXIT_SUCCESS st1) ∧
          st1.scene_ = some a ∧ st1.loops = st.loops + 1 ∧
          st1.calls = st.calls ++ ls.calls.map (fun c => (a, c)) ∧
          st1.app.world = ls.world) := by
  refine ⟨⟨_, rfl, rfl, rfl, rfl, rfl⟩, fun a => ⟨rfl, ?_, ?_, ?_⟩⟩
  · simp [GLFWAppRun.attach, SceneWorld.onScene, Scene.SetMouse, Scene.SetKeyboard]
  · simp [GLFWAppRun.attach, SceneWorld.onScene, Scene.SetMouse, Scene.SetKeyboard]
  · intro status ls hr
    obtain ⟨body, -, -, -, hshape⟩ := RunLoop_calls _ _ _ _ _ hr
    have hstatus : status = EXIT_SUCCESS := by
      rcases hshape with ⟨st2, heq, -⟩ | ⟨st2, heq, -⟩
      · cases heq
        rfl
      · cases heq
    subst hstatus
    refine ⟨(({ st with scene_ := some a } : GLFWAppRun M X).attach a).after a ls,
      ?_, rfl, rfl, rfl, rfl⟩
    simp only [GLFWAppRun.RunScene, GLFWAppRun.runLoop, hr]

theorem run_scene_result_witness :
    runSummary (GLFWAppRun.RunScene slideShow false (slideShowStart freshHeap [] 3) none 5) =
      some ⟨1, false, none, [], 0⟩ ∧
    runSummary (GLFWAppRun.RunScene slideShow false (slideShowStart freshHeap [] 3) (some 7) 5) =
      some ⟨0, false, some 7,
        [(7, .SetDimension 600 600), (7, .Begin), (7, .Resize 600 600), (7, .Update 2),
          (7, .Draw 2), (7, .SwapBuffers), (7, .PollEvents), (7, .End)], 1⟩ ∧
    ∃ st1, GLFWAppRun.RunScene slideShow false (slideShowStart freshHeap [] 3) (some 7) 5 =
        some (.returned EXIT_SUCCESS st1) ∧ st1.scene_ = some 7 ∧ st1.loops = 1 := by
  have hs : runSummary
      (GLFWAppRun.RunScene slideShow false (slideShowStart freshHeap [] 3) (some 7) 5) =
      some ⟨0, false, some 7,
        [(7, .SetDimension 600 600), (7, .Begin), (7, .Resize 600 600), (7, .Update 2),
          (7, .Draw 2), (7, .SwapBuffers), (7, .PollEvents), (7, .End)], 1⟩ := by decide!
  obtain ⟨status, st1, hret⟩ := summary_returned _ _ hs
  obtain ⟨ls, hr⟩ := RunScene_returned _ _ _ _ _ _ _ hret
  obtain ⟨st2, h1, h2, h3, -, -⟩ :=
    ((run_scene_result slideShow false (slideShowStart freshHeap [] 3) 5).2 7).2.2.2 status ls hr
  exact ⟨by decide!, hs, st2, h1, h2, h3⟩

/-- C25, as stated, fails: a circular manager that holds one scene, already
invalidated, yields it from `First` as it is; `Run()` then returns EXIT_FAILURE
at once, the scene still the active one, with no call on it, no call of
RunLoop, and close not requested. -/
theorem run_returns_on_invalid_first :
    (staleHeap 0).IsValid = false ∧
    runSummary (GLFWAppRun.Run slideShow circularQueue false
        (slideShowStart staleHeap [some 0] 3) 5) =
      some ⟨EXIT_FAILURE, false, some 0, [], 0⟩ := by
  refine ⟨by decide, by decide!⟩

/-- C25, amended: the inner loop of `Run()` on the scene at `a`, when it ends,
ends with close requested or that scene invalid, and only then is the manager
asked for the next scene.  `Run()`, when it returns, returns with close
requested, or no active scene (the manager yielded none), or the active scene
invalid.  With a CircularQueueSceneManager whose `First` yields a valid scene,
`Run()`, when it returns, returns with close requested. -/
theorem run_returns_when {M X : Type} (H : AppHost M X) (Mgr : ManagerOps M X)
    (Hc : AppHost CircularQueueSceneManager X) (NDEBUG : Bool) (fuel : Nat) :
    (∀ (a n : Nat) (status status1 : Int) (st st1 : GLFWAppRun M X),
      GLFWAppRun.Run.inner H NDEBUG a fuel n status st = some (.returned status1 st1) →
      H.glfwWindowShouldClose st1.app.world = true ∨ (st1.app.world.heap a).IsValid = false) ∧
    (∀ (status : Int) (st st1 : GLFWAppRun M X),
      GLFWAppRun.Run H Mgr NDEBUG st fuel = some (.returned status st1) →
      H.glfwWindowShouldClose st1.app.world = true ∨ st1.scene_ = none ∨
        ∃ a, st1.scene_ = some a ∧ (st1.app.world.heap a).IsValid = false) ∧
    (∀ (status : Int) (st st1 : GLFWAppRun CircularQueueSceneManager X) (a : Nat),
      (circularQueue.First st.app.world).1 = some a →
      ((circularQueue.First st.app.world).2.heap a).IsValid = true →
      GLFWAppRun.Run Hc circularQueue NDEBUG st fuel = some (.returned status st1) →
      Hc.glfwWindowShouldClose st1.app.world = true) := by
  refine ⟨?_, ?_, ?_⟩
  · intro a n status status1 st st1 h
    have hc := inner_exit H NDEBUG a fuel n _ _ _ _ h
    unfold GLFWAppRun.innerCond at hc
    cases hcl : H.glfwWindowShouldClose st1.app.world with
    | true => exact Or.inl rfl
    | false =>
      right
      simpa [hcl] using hc
  · intro status st st1 h
    have hc := outer_exit H Mgr NDEBUG fuel fuel _ _ _ _ h
    unfold GLFWAppRun.outerCond at hc
    cases hcl : H.glfwWindowShouldClose st1.app.world with
    | true => exact Or.inl rfl
    | false =>
      right
      cases hs : st1.scene_ with
      | none => exact Or.inl rfl
      | some a =>
        right
        refine ⟨a, rfl, ?_⟩
        simpa [hcl, hs] using hc
  · intro status st st1 a hfirst hvalid h
    exact outer_closed Hc NDEBUG fuel fuel _ _ _ _ (Or.inr ⟨a, hfirst, hvalid⟩) h

theorem run_returns_when_witness :
    (runSummary (GLFWAppRun.Run slideShow circularQueue false
        (slideShowStart freshHeap [some 0, some 1] 3) 5)).map
      (fun x => (x.status, x.close_requested, x.scene_, x.loops)) =
        some (EXIT_SUCCESS, true, some 1, 3) ∧
    ∃ status st1, GLFWAppRun.Run slideShow circularQueue false
        (slideShowStart freshHeap [some 0, some 1] 3) 5 = some (.returned status st1) ∧
      st1.app.world.ext.window_should_close = true := by
  have hs : (runSummary (GLFWAppRun.Run slideShow circularQueue false
        (slideShowStart freshHeap [some 0, some 1] 3) 5)).map
      (fun x => (x.status, x.close_requested, x.scene_, x.loops)) =
        some (EXIT_SUCCESS, true, some 1, 3) := by
    decide!
  have hsome : ∃ x, runSummary (GLFWAppRun.Run slideShow circularQueue false
        (slideShowStart freshHeap [some 0, some 1] 3) 5) = some x := by
    cases hx : runSummary (GLFWAppRun.Run slideShow circularQueue false
        (slideShowStart freshHeap [some 0, some 1] 3) 5) with
    | none => simp [hx] at hs
    | some x => exact ⟨x, rfl⟩
  obtain ⟨x, hx⟩ := hsome
  obtain ⟨status, st1, hret⟩ := summary_returned _ _ hx
  exact ⟨hs, status, st1, hret,
    (run_returns_when (slideShow : AppHost CircularQueueSceneManager SimWindow) circularQueue
      slideShow false 5).2.2 status (slideShowStart freshHeap [some 0, some 1] 3) st1 0
      (by decide) (by decide) hret⟩

end HelloOpenGL
